import Mathlib

/-!
# OpenTherm link core (esp-idf-opentherm): frame codec and link state machine

Shallow embedding of `components/opentherm/opentherm.c`.

* `unsigned long` / `unsigned int` are 32-bit words on the target; they are
  natural numbers here, with an explicit `% 2 ^ 32` wherever the C operation
  can wrap (left shifts, subtraction of timestamps).
* `byte` is `uint8_t`; a conversion to `byte` is an explicit `% 256`.
* The enumerations `open_therm_message_type_t` and `open_therm_message_id_t`
  are passed as their integer values.
* The module-level `volatile` variables are the fields of `OtState`; the
  interrupt handler and `process` are functions on that record.  The level of
  the input pin (`esp_ot_read_state`) and the value of the microsecond clock
  (`esp_timer_get_time`) are arguments.
-/

namespace OpenTherm

/-! ## Enumerations (opentherm.h) -/

/-- Values of `open_therm_response_status_t`. -/
inductive open_therm_response_status_t where
  | OT_STATUS_NONE
  | OT_STATUS_SUCCESS
  | OT_STATUS_INVALID
  | OT_STATUS_TIMEOUT
  deriving DecidableEq, Repr

/-- Values of `esp_ot_opentherm_status_t`. -/
inductive esp_ot_opentherm_status_t where
  | OT_NOT_INITIALIZED
  | OT_READY
  | OT_DELAY
  | OT_REQUEST_SENDING
  | OT_RESPONSE_WAITING
  | OT_RESPONSE_START_BIT
  | OT_RESPONSE_RECEIVING
  | OT_RESPONSE_READY
  | OT_RESPONSE_INVALID
  deriving DecidableEq, Repr

open open_therm_response_status_t esp_ot_opentherm_status_t

/-- Message type `OT_READ_DATA = 0b000` (master to slave). -/
abbrev OT_READ_DATA : Nat := 0
/-- Message type `OT_WRITE_DATA = 0b001` (master to slave). -/
abbrev OT_WRITE_DATA : Nat := 1
/-- Message type `OT_INVALID_DATA = 0b010` (master to slave). -/
abbrev OT_INVALID_DATA : Nat := 2
/-- Message type `OT_RESERVED = 0b011` (master to slave). -/
abbrev OT_RESERVED : Nat := 3
/-- Message type `OT_READ_ACK = 0b100` (slave to master). -/
abbrev OT_READ_ACK : Nat := 4
/-- Message type `OT_WRITE_ACK = 0b101` (slave to master). -/
abbrev OT_WRITE_ACK : Nat := 5
/-- Message type `OT_DATA_INVALID = 0b110` (slave to master). -/
abbrev OT_DATA_INVALID : Nat := 6
/-- Message type `OT_UNKNOWN_DATA_ID = 0b111` (slave to master). -/
abbrev OT_UNKNOWN_DATA_ID : Nat := 7

/-- Data id `MSG_ID_TBOILER = 25`. -/
abbrev MSG_ID_TBOILER : Nat := 25

/-! ## Frame codec -/

/-- The `while (frame > 0)` loop of `parity`: `p` is the `byte` counter, which
is incremented (modulo 256) for every set low bit while `frame` is shifted
right. -/
def parityLoop (frame p : Nat) : Nat :=
  if h : frame > 0 then
    parityLoop (frame >>> 1) (if frame &&& 1 ≠ 0 then (p + 1) % 256 else p)
  else p
termination_by frame
decreasing_by
  simp only [Nat.shiftRight_succ, Nat.shiftRight_zero]
  omega

/-- The function `bool parity(unsigned long frame)`: `return (p & 1)`. -/
def parity (frame : Nat) : Bool :=
  (parityLoop frame 0) &&& 1 != 0

/-- The function `esp_ot_get_message_type`: `(message >> 28) & 7`. -/
def esp_ot_get_message_type (message : Nat) : Nat :=
  (message >>> 28) &&& 7

/-- The function `esp_ot_get_data_id`: `(frame >> 16) & 0xFF`. -/
def esp_ot_get_data_id (frame : Nat) : Nat :=
  (frame >>> 16) &&& 0xFF

/-- The function `esp_ot_build_request`. -/
def esp_ot_build_request (type id data : Nat) : Nat :=
  let request := data
  let request := if type = OT_WRITE_DATA then request ||| (1 <<< 28) else request
  let request := request ||| ((id <<< 16) % 2 ^ 32)
  if parity request then request ||| (1 <<< 31) else request

/-- The function `esp_ot_build_response`. -/
def esp_ot_build_response (type id data : Nat) : Nat :=
  let response := data
  let response := response ||| ((type <<< 28) % 2 ^ 32)
  let response := response ||| ((id <<< 16) % 2 ^ 32)
  if parity response then response ||| (1 <<< 31) else response

/-- The function `esp_ot_is_valid_request`; `msgType` is a `byte`. -/
def esp_ot_is_valid_request (request : Nat) : Bool :=
  if parity request then false
  else
    let msgType := (((request <<< 1) % 2 ^ 32) >>> 29) % 256
    msgType == OT_READ_DATA % 256 || msgType == OT_WRITE_DATA % 256

/-- The function `esp_ot_is_valid_response`; `msgType` is a `byte`. -/
def esp_ot_is_valid_response (response : Nat) : Bool :=
  if parity response then false
  else
    let msgType := (((response <<< 1) % 2 ^ 32) >>> 29) % 256
    msgType == OT_READ_ACK % 256 || msgType == OT_WRITE_ACK % 256

/-- The function `esp_ot_get_uint`: the low 16 bits, as a `uint16_t`. -/
def esp_ot_get_uint (response : Nat) : Nat :=
  (response &&& 0xffff) % 2 ^ 16

/-- Number of set bits among bits `0 .. k-1` of `n`. -/
def popcountAux : Nat → Nat → Nat
  | 0, _ => 0
  | k + 1, n => n % 2 + popcountAux k (n / 2)

/-- Number of set bits of a 32-bit word. -/
def popcount (n : Nat) : Nat := popcountAux 32 n

/-- The function `esp_ot_get_float`.  The C expression is evaluated in `float`;
both branches are exact there (the integer numerator has magnitude at most
`0x10000`, far below `2 ^ 24`, and the division by `256.0f` only changes the
exponent), so the value returned is this rational number. -/
def esp_ot_get_float (response : Nat) : ℚ :=
  let u88 := esp_ot_get_uint response
  if u88 &&& 0x8000 ≠ 0 then ((-((0x10000 : Int) - (u88 : Int)) : Int) : ℚ) / 256
  else (u88 : ℚ) / 256

/-! ## Link state -/

/-- The module-level variables of `opentherm.c`.  `callback_set` says that
`esp_ot_process_response_callback` is not `NULL`; `callback_calls` is a ghost
log of the invocations of that callback, oldest first. -/
structure OtState where
  esp_ot_is_slave : Bool
  callback_set : Bool
  response : Nat
  esp_ot_status : esp_ot_opentherm_status_t
  esp_ot_response_status : open_therm_response_status_t
  esp_ot_response_timestamp : Nat
  esp_ot_response_bit_index : Nat
  callback_calls : List (Nat × open_therm_response_status_t)
  deriving DecidableEq, Repr

/-- Subtraction of two `unsigned long` values (wraps modulo `2 ^ 32`). -/
def sub32 (a b : Nat) : Nat :=
  (a % 2 ^ 32 + 2 ^ 32 - b % 2 ^ 32) % 2 ^ 32

/-- The function `esp_ot_handle_interrupt`.  `line` is the level returned by
`esp_ot_read_state()` during this invocation and `now` the value returned by
`esp_timer_get_time()`, which the handler truncates to `unsigned long`. -/
def esp_ot_handle_interrupt (s : OtState) (line now : Nat) : OtState :=
  if s.esp_ot_status = OT_READY ∧ ¬(s.esp_ot_is_slave = true ∧ line = 1) then s
  else
    let s := if s.esp_ot_status = OT_READY then { s with esp_ot_status := OT_RESPONSE_WAITING }
      else s
    let newTs := now % 2 ^ 32
    if s.esp_ot_status = OT_RESPONSE_WAITING then
      if line = 1 then
        { s with esp_ot_status := OT_RESPONSE_START_BIT, esp_ot_response_timestamp := newTs }
      else
        { s with esp_ot_status := OT_RESPONSE_INVALID, esp_ot_response_timestamp := newTs }
    else if s.esp_ot_status = OT_RESPONSE_START_BIT then
      if sub32 newTs s.esp_ot_response_timestamp < 750 ∧ line = 0 then
        { s with esp_ot_status := OT_RESPONSE_RECEIVING, esp_ot_response_timestamp := newTs,
                 esp_ot_response_bit_index := 0 }
      else
        { s with esp_ot_status := OT_RESPONSE_INVALID, esp_ot_response_timestamp := newTs }
    else if s.esp_ot_status = OT_RESPONSE_RECEIVING then
      if sub32 newTs s.esp_ot_response_timestamp > 750 then
        if s.esp_ot_response_bit_index < 32 then
          { s with response := ((s.response <<< 1) % 2 ^ 32) ||| (if line = 0 then 1 else 0),
                   esp_ot_response_timestamp := newTs,
                   esp_ot_response_bit_index := (s.esp_ot_response_bit_index + 1) % 256 }
        else
          { s with esp_ot_status := OT_RESPONSE_READY, esp_ot_response_timestamp := newTs }
      else s
    else s

/-- The function `esp_ot_process_response`: call the callback, if there is one,
with the current `response` and `esp_ot_response_status`. -/
def esp_ot_process_response (s : OtState) : OtState :=
  if s.callback_set then
    { s with callback_calls := s.callback_calls ++ [(s.response, s.esp_ot_response_status)] }
  else s

/-- The function `process`; `now` is the value returned by
`esp_timer_get_time()` (read only when the status is not `OT_READY`). -/
def process (s : OtState) (now : Nat) : OtState :=
  let st := s.esp_ot_status
  let ts := s.esp_ot_response_timestamp
  if st = OT_READY then s
  else
    let newTs := now % 2 ^ 32
    if st ≠ OT_NOT_INITIALIZED ∧ st ≠ OT_DELAY ∧ sub32 newTs ts > 1000000 then
      esp_ot_process_response
        { s with esp_ot_status := OT_READY, esp_ot_response_status := OT_STATUS_TIMEOUT }
    else if st = OT_RESPONSE_INVALID then
      esp_ot_process_response
        { s with esp_ot_status := OT_DELAY, esp_ot_response_status := OT_STATUS_INVALID }
    else if st = OT_RESPONSE_READY then
      esp_ot_process_response
        { s with esp_ot_status := OT_DELAY,
                 esp_ot_response_status :=
                   if (if s.esp_ot_is_slave then esp_ot_is_valid_request s.response
                       else esp_ot_is_valid_response s.response)
                   then OT_STATUS_SUCCESS else OT_STATUS_INVALID }
    else if st = OT_DELAY then
      if sub32 newTs ts > (if s.esp_ot_is_slave then 20000 else 100000) then
        { s with esp_ot_status := OT_READY }
      else s
    else s

/-- A link state with the given role, status and accumulator content, used to
instantiate the theorems: callback installed, last status `OT_STATUS_NONE`,
timestamp 1000, bit index 32, no callback invocation so far. -/
def sampleState (slave : Bool) (st : esp_ot_opentherm_status_t) (r : Nat) : OtState :=
  { esp_ot_is_slave := slave, callback_set := true, response := r, esp_ot_status := st,
    esp_ot_response_status := OT_STATUS_NONE, esp_ot_response_timestamp := 1000,
    esp_ot_response_bit_index := 32, callback_calls := [] }

/-! ## Input edges of a nominally timed Manchester frame -/

/-- Deliver a list of input edges, oldest first, to the interrupt handler; an
edge is the pair of the clock value and the line level after the transition. -/
def runEdges (s : OtState) (edges : List (Nat × Nat)) : OtState :=
  edges.foldl (fun st e => esp_ot_handle_interrupt st e.2 e.1) s

/-- The edges of one bit cell carrying bit `b`, when the previous mid-cell edge
was at time `t`: an optional cell-boundary edge at `t + 500` (leaving the line
at the given level) and the mid-cell edge at `t + 1000`, which leaves the line
at the complement of `b`. -/
def cellEdges (t : Nat) (boundary : Option Nat) (b : Bool) : List (Nat × Nat) :=
  (match boundary with
    | some level => [(t + 500, level)]
    | none => []) ++ [(t + 1000, if b then 0 else 1)]

/-- The edges of the cells of bits `k - 1` down to `0` of `f`, the previous
mid-cell edge being at time `t`; `boundary i` describes the optional
cell-boundary edge in front of the cell of bit `i`. -/
def dataEdges (f : Nat) (boundary : Nat → Option Nat) : Nat → Nat → List (Nat × Nat)
  | 0, _ => []
  | k + 1, t => cellEdges t (boundary k) (f.testBit k) ++ dataEdges f boundary k (t + 1000)

/-- The edges of a whole frame whose start bit begins at `t0`: the start-bit
edge (line 1), its mid-cell edge (line 0) 500 us later, the 32 data cells from
bit 31 down to bit 0, and the stop-bit cell (logical 1); `boundary 32` is the
optional cell-boundary edge in front of the stop bit. -/
def frameEdges (t0 f : Nat) (boundary : Nat → Option Nat) : List (Nat × Nat) :=
  [(t0, 1), (t0 + 500, 0)] ++ dataEdges f boundary 32 (t0 + 500)
    ++ cellEdges (t0 + 500 + 32000) (boundary 32) true

/-! ## Temperature payload and request builders of the dispatcher -/

/-- Data id `MSG_ID_T_SET = 1`. -/
abbrev MSG_ID_T_SET : Nat := 1
/-- Data id `MSG_ID_REL_MOD_LEVEL = 17`. -/
abbrev MSG_ID_REL_MOD_LEVEL : Nat := 17
/-- Data id `MSG_ID_CH_PRESSURE = 18`. -/
abbrev MSG_ID_CH_PRESSURE : Nat := 18
/-- Data id `MSG_ID_TDHW = 26`. -/
abbrev MSG_ID_TDHW : Nat := 26
/-- Data id `MSG_ID_TRET = 28`. -/
abbrev MSG_ID_TRET : Nat := 28
/-- Data id `MSG_ID_OPENTERM_VERSION_SLAVE = 125`. -/
abbrev MSG_ID_OPENTERM_VERSION_SLAVE : Nat := 125

/-- The conversion `(unsigned int) x` of a `float`: the fractional part is
discarded (truncation toward zero).  A negative or too large value is outside
the domain of the C conversion; it is never reached from
`esp_ot_temperature_to_data`, whose argument lies in `[0, 25600]`. -/
def floatToUInt (x : ℚ) : Nat :=
  (Int.tdiv x.num x.den).toNat % 2 ^ 32

/-- The function `esp_ot_temperature_to_data`.  The argument is a finite
`float`, taken as the rational number it denotes: the two comparisons are
exact, and so is the product `temperature * 256` (a multiplication by a power
of two of a value in `[0, 100]`). -/
def esp_ot_temperature_to_data (temperature : ℚ) : Nat :=
  let temperature := if temperature < 0 then 0 else temperature
  let temperature := if temperature > 100 then 100 else temperature
  floatToUInt (temperature * 256)

/-- The function `esp_ot_build_set_boiler_temperature_request`. -/
def esp_ot_build_set_boiler_temperature_request (temperature : ℚ) : Nat :=
  esp_ot_build_request OT_WRITE_DATA MSG_ID_T_SET (esp_ot_temperature_to_data temperature)

/-- The function `esp_ot_build_get_boiler_temperature_request`. -/
def esp_ot_build_get_boiler_temperature_request : Nat :=
  esp_ot_build_request OT_READ_DATA MSG_ID_TBOILER 0

/-! ## Transmitter -/

/-- What the transmitter does with the output pin and the busy-wait, in
program order: `gpio_set_level(pin_out, level)` and `ets_delay_us(us)`. -/
inductive OutAction where
  | set_level (level : Nat)
  | delay_us (us : Nat)
  deriving DecidableEq, Repr

/-- The function `esp_ot_set_active_state`: `gpio_set_level(pin_out, 0)`. -/
def esp_ot_set_active_state : List OutAction := [OutAction.set_level 0]

/-- The function `esp_ot_set_idle_state`: `gpio_set_level(pin_out, 1)`. -/
def esp_ot_set_idle_state : List OutAction := [OutAction.set_level 1]

/-- The function `esp_ot_send_bit`. -/
def esp_ot_send_bit (high : Bool) : List OutAction :=
  (if high then esp_ot_set_active_state else esp_ot_set_idle_state)
    ++ [OutAction.delay_us 500]
    ++ (if high then esp_ot_set_idle_state else esp_ot_set_active_state)
    ++ [OutAction.delay_us 500]

/-- The helper `bitRead(value, bit)`: `((value >> bit) & 0x01)`. -/
def bitRead (value bit : Nat) : Nat :=
  (value >>> bit) &&& 0x01

/-- The loop `for (int i = 31; i >= 0; i--) esp_ot_send_bit(bitRead(request, i))`
from the iteration with `i = k - 1` on; the `int` result of `bitRead` becomes
the `bool` argument. -/
def sendBits (request : Nat) : Nat → List OutAction
  | 0 => []
  | k + 1 => esp_ot_send_bit (bitRead request k != 0) ++ sendBits request k

/-- The emission shared by `esp_ot_send_request_async` and
`esp_ot_send_response`: start bit, the 32 bits, stop bit, idle. -/
def sendFrame (request : Nat) : List OutAction :=
  esp_ot_send_bit true ++ sendBits request 32 ++ esp_ot_send_bit true ++ esp_ot_set_idle_state

/-- The function `esp_ot_is_ready`. -/
def esp_ot_is_ready (s : OtState) : Bool :=
  s.esp_ot_status == OT_READY

/-- The function `esp_ot_send_request_async`: the returned flag, the actions on
the output pin and the state afterwards; `now` is the value returned by
`esp_timer_get_time()` after the stop bit.  An input edge during the emission
finds the status `OT_REQUEST_SENDING`, for which the interrupt handler has no
branch, so the emission is one step here. -/
def esp_ot_send_request_async (s : OtState) (request now : Nat) :
    Bool × List OutAction × OtState :=
  if esp_ot_is_ready s then
    let s := { s with esp_ot_status := OT_REQUEST_SENDING, response := 0,
                      esp_ot_response_status := OT_STATUS_NONE }
    (true, sendFrame request,
      { s with esp_ot_response_timestamp := now % 2 ^ 32,
               esp_ot_status := OT_RESPONSE_WAITING })
  else (false, [], s)

/-! ## Synchronous request -/

/-- What can happen while `esp_ot_send_request` waits: an input edge (the
interrupt handler runs with the given line level and clock value) or one
iteration of the loop `while (!esp_ot_is_ready()) { process(); vPortYield(); }`
with the clock value read by `process`. -/
inductive LinkEvent where
  | edge (line now : Nat)
  | tick (now : Nat)
  deriving DecidableEq, Repr

/-- The loop `while (!esp_ot_is_ready()) { process(); vPortYield(); }` of
`esp_ot_send_request` against a list of events, oldest first: `some` of the
state in which the loop test finds `OT_READY`, `none` when the events end
before that. -/
def waitLoop : OtState → List LinkEvent → Option OtState
  | s, [] => if esp_ot_is_ready s then some s else none
  | s, LinkEvent.edge line now :: es => waitLoop (esp_ot_handle_interrupt s line now) es
  | s, LinkEvent.tick now :: es =>
    if esp_ot_is_ready s then some s else waitLoop (process s now) es

/-- The function `esp_ot_send_request`: the returned word and the state at the
return; `now` is the clock value at the end of the emission and `events` what
happens while the function waits. -/
def esp_ot_send_request (s : OtState) (request now : Nat) (events : List LinkEvent) :
    Option (Nat × OtState) :=
  match esp_ot_send_request_async s request now with
  | (false, _, s1) => some (0, s1)
  | (true, _, s1) => (waitLoop s1 events).map (fun s2 => (s2.response, s2))

/-- The function `esp_ot_get_last_response`. -/
def esp_ot_get_last_response (s : OtState) : Nat := s.response

/-- The function `esp_ot_get_last_response_status`. -/
def esp_ot_get_last_response_status (s : OtState) : open_therm_response_status_t :=
  s.esp_ot_response_status

/-- The expression `esp_ot_is_valid_response(response) ? esp_ot_get_float(response) : 0`
with which the float-valued operations return. -/
def validFloatOrZero (response : Nat) : ℚ :=
  if esp_ot_is_valid_response response then esp_ot_get_float response else 0

/-- The function `esp_ot_get_boiler_temperature`. -/
def esp_ot_get_boiler_temperature (s : OtState) (now : Nat) (events : List LinkEvent) :
    Option (ℚ × OtState) :=
  (esp_ot_send_request s esp_ot_build_get_boiler_temperature_request now events).map
    (fun r => (validFloatOrZero r.1, r.2))

/-- The function `esp_ot_get_return_temperature`. -/
def esp_ot_get_return_temperature (s : OtState) (now : Nat) (events : List LinkEvent) :
    Option (ℚ × OtState) :=
  (esp_ot_send_request s (esp_ot_build_request OT_READ_DATA MSG_ID_TRET 0) now events).map
    (fun r => (validFloatOrZero r.1, r.2))

/-- The function `esp_ot_get_dhw_temperature`. -/
def esp_ot_get_dhw_temperature (s : OtState) (now : Nat) (events : List LinkEvent) :
    Option (ℚ × OtState) :=
  (esp_ot_send_request s (esp_ot_build_request OT_READ_DATA MSG_ID_TDHW 0) now events).map
    (fun r => (validFloatOrZero r.1, r.2))

/-- The function `esp_ot_get_modulation`. -/
def esp_ot_get_modulation (s : OtState) (now : Nat) (events : List LinkEvent) :
    Option (ℚ × OtState) :=
  (esp_ot_send_request s (esp_ot_build_request OT_READ_DATA MSG_ID_REL_MOD_LEVEL 0) now
    events).map (fun r => (validFloatOrZero r.1, r.2))

/-- The function `esp_ot_get_pressure`. -/
def esp_ot_get_pressure (s : OtState) (now : Nat) (events : List LinkEvent) :
    Option (ℚ × OtState) :=
  (esp_ot_send_request s (esp_ot_build_request OT_READ_DATA MSG_ID_CH_PRESSURE 0) now
    events).map (fun r => (validFloatOrZero r.1, r.2))

/-- The function `esp_ot_get_slave_ot_version`. -/
def esp_ot_get_slave_ot_version (s : OtState) (now : Nat) (events : List LinkEvent) :
    Option (ℚ × OtState) :=
  (esp_ot_send_request s (esp_ot_build_request OT_READ_DATA MSG_ID_OPENTERM_VERSION_SLAVE 0)
    now events).map (fun r => (validFloatOrZero r.1, r.2))

/-- The Manchester cell of one logical bit as the wire protocol describes it:
a cell for 1 is active (level 0) for 500 us then idle (level 1) for 500 us, a
cell for 0 is idle for 500 us then active for 500 us. -/
def manchesterCell (b : Bool) : List OutAction :=
  if b then
    [OutAction.set_level 0, OutAction.delay_us 500, OutAction.set_level 1, OutAction.delay_us 500]
  else
    [OutAction.set_level 1, OutAction.delay_us 500, OutAction.set_level 0, OutAction.delay_us 500]

/-- The input edges of a list, as events of a run. -/
def edgeEvents (edges : List (Nat × Nat)) : List LinkEvent :=
  edges.map (fun e => LinkEvent.edge e.2 e.1)

/-- The state after a list of events, oldest first, when `process` is called
at every tick. -/
def runEvents (s : OtState) (events : List LinkEvent) : OtState :=
  events.foldl
    (fun st e =>
      match e with
      | LinkEvent.edge line now => esp_ot_handle_interrupt st line now
      | LinkEvent.tick now => process st now) s

/-- A reply that is one data bit short, and what follows it: start bit at
50000, the 31 data bits of `0x200C9E40` and the stop bit, nominally timed (last
edge at 82500), then calls of `process` at 90000, 1082501 and 1082502. -/
def shortReplyEvents : List LinkEvent :=
  edgeEvents ([(50000, 1), (50500, 0)] ++ dataEdges 0x200C9E40 (fun _ => none) 31 50500
      ++ cellEdges 81500 none true)
    ++ [LinkEvent.tick 90000, LinkEvent.tick 1082501, LinkEvent.tick 1082502]

/-- The link state at the end of the run `shortReplyEvents`, started from
`sampleState false OT_READY 77`. -/
def shortReplyFinal : OtState :=
  { sampleState false OT_READY 0x40193C81 with
      esp_ot_response_status := OT_STATUS_TIMEOUT,
      esp_ot_response_timestamp := 82500,
      esp_ot_response_bit_index := 32,
      callback_calls := [(0x40193C81, OT_STATUS_TIMEOUT)] }

/-- What holds of the link in master role from the end of an emission on: the
accumulator is still 0 until the first data bit is stored, and once `process`
has closed the exchange the last response status says how the accumulator was
judged. -/
def masterExchange (s : OtState) : Prop :=
  s.esp_ot_is_slave = false
    ∧ ((s.esp_ot_status = OT_RESPONSE_WAITING ∨ s.esp_ot_status = OT_RESPONSE_START_BIT
          ∨ s.esp_ot_status = OT_RESPONSE_INVALID) → s.response = 0)
    ∧ ((s.esp_ot_status = OT_DELAY ∨ s.esp_ot_status = OT_READY) →
        (s.esp_ot_response_status = OT_STATUS_SUCCESS
            ∧ esp_ot_is_valid_response s.response = true)
          ∨ (s.esp_ot_response_status = OT_STATUS_INVALID
            ∧ esp_ot_is_valid_response s.response = false)
          ∨ s.esp_ot_response_status = OT_STATUS_TIMEOUT)
    ∧ s.esp_ot_status ≠ OT_NOT_INITIALIZED ∧ s.esp_ot_status ≠ OT_REQUEST_SENDING

/-! ## Streams with a wrong number of data bits -/

/-- The edges of a nominally timed stream with only 31 data bits (those of
`v`, bit 30 first) between the start bit at `t0` and the stop bit. -/
def shortFrameEdges (t0 v : Nat) (boundary : Nat → Option Nat) : List (Nat × Nat) :=
  [(t0, 1), (t0 + 500, 0)] ++ dataEdges v boundary 31 (t0 + 500)
    ++ cellEdges (t0 + 500 + 31000) (boundary 31) true

/-- The edges of a nominally timed stream with 33 data bits (the 32 bits of
`f`, bit 31 first, then the bit `x`) between the start bit at `t0` and the
stop bit; `boundary 32` and `boundary 33` describe the optional cell-boundary
edges in front of the 33rd data cell and of the stop cell. -/
def longFrameEdges (t0 f : Nat) (x : Bool) (boundary : Nat → Option Nat) :
    List (Nat × Nat) :=
  [(t0, 1), (t0 + 500, 0)] ++ dataEdges f boundary 32 (t0 + 500)
    ++ cellEdges (t0 + 500 + 32000) (boundary 32) x
    ++ cellEdges (t0 + 500 + 33000) (boundary 33) true

/-- Successive calls of `process` at the given clock values, oldest first. -/
def processCalls (s : OtState) (nows : List Nat) : OtState :=
  nows.foldl process s

/-! ## Initialisation -/

/-- The value `ESP_OK` of `esp_err_t`. -/
abbrev ESP_OK : Int := 0

/-- What the driver calls made by `esp_ot_init` return, in program order:
`gpio_install_isr_service`, the two `gpio_config` calls (input pin, output
pin), `gpio_isr_handler_add` and `gpio_intr_enable`. -/
structure InitResults where
  install_isr_service : Int
  config_in : Int
  config_out : Int
  isr_handler_add : Int
  intr_enable : Int
  deriving DecidableEq, Repr

/-- The module-level variables before `esp_ot_init` runs (zero-initialised
statics): status `OT_NOT_INITIALIZED`, no callback. -/
def bootState : OtState :=
  { esp_ot_is_slave := false, callback_set := false, response := 0,
    esp_ot_status := OT_NOT_INITIALIZED, esp_ot_response_status := OT_STATUS_NONE,
    esp_ot_response_timestamp := 0, esp_ot_response_bit_index := 0, callback_calls := [] }

/-- The function `esp_ot_init`: the returned `esp_err_t`, whether the error of
`gpio_install_isr_service` was logged, and the state afterwards.  The result of
`gpio_install_isr_service` is only compared with `ESP_OK` for the log; the
results of the other driver calls are discarded by the code. -/
def esp_ot_init (s : OtState) (driver : InitResults) (_esp_ot_is_slave : Bool)
    (callback : Bool) : Int × Bool × OtState :=
  let logged := decide (driver.install_isr_service ≠ ESP_OK)
  (ESP_OK, logged,
    { s with esp_ot_is_slave := _esp_ot_is_slave, callback_set := callback, response := 0,
             esp_ot_response_status := OT_STATUS_NONE, esp_ot_response_timestamp := 0,
             esp_ot_status := OT_READY })

/-! ## Status request and status bits -/

/-- Data id `MSG_ID_STATUS = 0`. -/
abbrev MSG_ID_STATUS : Nat := 0

/-- The function `esp_ot_build_set_boiler_status_request`; a `bool` argument
enters the expression as 0 or 1. -/
def esp_ot_build_set_boiler_status_request (enableCentralHeating enableHotWater
    enableCooling enableOutsideTemperatureCompensation enableCentralHeating2 : Bool) : Nat :=
  let data := enableCentralHeating.toNat ||| (enableHotWater.toNat <<< 1)
    ||| (enableCooling.toNat <<< 2) ||| (enableOutsideTemperatureCompensation.toNat <<< 3)
    ||| (enableCentralHeating2.toNat <<< 4)
  let data := (data <<< 8) % 2 ^ 32
  esp_ot_build_request OT_READ_DATA MSG_ID_STATUS data

/-- The function `esp_ot_is_fault`: `response & 0x1`, as a `bool`. -/
def esp_ot_is_fault (response : Nat) : Bool := response &&& 0x1 != 0

/-- The function `esp_ot_is_central_heating_active`: `response & 0x2`. -/
def esp_ot_is_central_heating_active (response : Nat) : Bool := response &&& 0x2 != 0

/-- The function `esp_ot_is_hot_water_active`: `response & 0x4`. -/
def esp_ot_is_hot_water_active (response : Nat) : Bool := response &&& 0x4 != 0

/-- The function `esp_ot_is_flame_on`: `response & 0x8`. -/
def esp_ot_is_flame_on (response : Nat) : Bool := response &&& 0x8 != 0

/-- The function `esp_ot_is_cooling_active`: `response & 0x10`. -/
def esp_ot_is_cooling_active (response : Nat) : Bool := response &&& 0x10 != 0

/-- The function `esp_ot_is_diagnostic`: `response & 0x40`. -/
def esp_ot_is_diagnostic (response : Nat) : Bool := response &&& 0x40 != 0

/-! ## Slave-side transmitter and interleavings -/

/-- The function `esp_ot_send_response`: the returned flag, the actions on the
output pin and the state afterwards.  As for `esp_ot_send_request_async`, an
input edge during the emission finds the status `OT_REQUEST_SENDING` and
changes nothing. -/
def esp_ot_send_response (s : OtState) (request : Nat) : Bool × List OutAction × OtState :=
  if esp_ot_is_ready s then
    let s := { s with esp_ot_status := OT_REQUEST_SENDING, response := 0,
                      esp_ot_response_status := OT_STATUS_NONE }
    (true, sendFrame request, { s with esp_ot_status := OT_READY })
  else (false, [], s)

/-- One call of an operation that touches the link state: the interrupt
handler, `process`, `esp_ot_send_request_async` or `esp_ot_send_response`,
with its arguments and the clock and line values it reads. -/
inductive LinkAction where
  | interrupt (line now : Nat)
  | process (now : Nat)
  | send_request_async (request now : Nat)
  | send_response (request : Nat)
  deriving DecidableEq, Repr

/-- The state after one action. -/
def applyAction (s : OtState) : LinkAction → OtState
  | LinkAction.interrupt line now => esp_ot_handle_interrupt s line now
  | LinkAction.process now => process s now
  | LinkAction.send_request_async request now => (esp_ot_send_request_async s request now).2.2
  | LinkAction.send_response request => (esp_ot_send_response s request).2.2

/-- The state after a list of actions, oldest first. -/
def runActions (s : OtState) (actions : List LinkAction) : OtState :=
  actions.foldl applyAction s

/-- The input edges of a list, as calls of the interrupt handler. -/
def edgeActions (edges : List (Nat × Nat)) : List LinkAction :=
  edges.map (fun e => LinkAction.interrupt e.2 e.1)

/-- A master in the middle of a reception whose last edge was recorded at the
clock value 4294967000, 296 us before the 32-bit truncation of the clock
wraps. -/
def nearWrapState : OtState :=
  { sampleState false OT_RESPONSE_RECEIVING 0 with
      esp_ot_response_timestamp := 4294967000, esp_ot_response_bit_index := 5 }

/-! ## Polling of `process` and accepted edges -/

/-- The events come in the order of their clock values and `process` is polled
at least every `P` microseconds: no event is earlier than the one before it
(`prev`) or later than `P` after the last call of `process` (`lastTick`). -/
def wellPolled (P : Nat) : Nat → Nat → List LinkEvent → Bool
  | _, _, [] => true
  | lastTick, prev, LinkEvent.edge _ now :: es =>
    decide (prev ≤ now) && decide (now ≤ lastTick + P) && wellPolled P lastTick now es
  | lastTick, prev, LinkEvent.tick now :: es =>
    decide (prev ≤ now) && decide (now ≤ lastTick + P) && wellPolled P now now es

/-- The clock value of the last write of the timestamp: `stamp` at the start,
and afterwards the time of the last input edge the interrupt handler acted on
(an edge that changes the link state). -/
def lastStamp : Nat → OtState → List LinkEvent → Nat
  | stamp, _, [] => stamp
  | stamp, s, LinkEvent.edge line now :: es =>
    lastStamp (if esp_ot_handle_interrupt s line now ≠ s then now else stamp)
      (esp_ot_handle_interrupt s line now) es
  | stamp, s, LinkEvent.tick now :: es => lastStamp stamp (process s now) es

/-- Invariant of a link that has left `OT_READY` and is polled at least every
`P` microseconds: the timestamp was written at clock value `stamp`, at most
`k` further edges can move it, `stamp + k * (1000000 + P)` stays below
`bound`, and the last call of `process` (at `lastTick`) came before the
timeout or post-frame delay counted from `stamp` had run out. -/
def busyInv (P bound : Nat) (slave : Bool) (s : OtState) (k stamp lastTick prev : Nat) :
    Prop :=
  s.esp_ot_is_slave = slave
    ∧ s.esp_ot_response_timestamp = stamp % 2 ^ 32
    ∧ stamp ≤ prev ∧ lastTick ≤ prev
    ∧ stamp + k * (1000000 + P) ≤ bound
    ∧ ((s.esp_ot_status = OT_RESPONSE_WAITING ∧ 35 ≤ k ∧ lastTick ≤ stamp + 1000000)
      ∨ (s.esp_ot_status = OT_RESPONSE_START_BIT ∧ 34 ≤ k ∧ lastTick ≤ stamp + 1000000)
      ∨ (s.esp_ot_status = OT_RESPONSE_RECEIVING ∧ s.esp_ot_response_bit_index ≤ 32
          ∧ 33 ≤ k + s.esp_ot_response_bit_index ∧ lastTick ≤ stamp + 1000000)
      ∨ ((s.esp_ot_status = OT_RESPONSE_READY ∨ s.esp_ot_status = OT_RESPONSE_INVALID)
          ∧ lastTick ≤ stamp)
      ∨ (s.esp_ot_status = OT_DELAY
          ∧ lastTick ≤ stamp + max (if slave then 20000 else 100000) P))

/-- A master right after an emission that ended at clock value 34000: status
`OT_RESPONSE_WAITING`, timestamp 34000. -/
def awaitingReply : OtState :=
  (esp_ot_send_request_async (sampleState false OT_READY 77) 0x80190000 34000).2.2

/-- A late reply that breaks off: `process` at 500000, the two edges of a
start bit at 1000000 and 1000400, then silence with `process` called at
1000500, 1100000, 1134000 and 2000400. -/
def lateStartEvents : List LinkEvent :=
  [LinkEvent.tick 500000, LinkEvent.edge 1 1000000, LinkEvent.edge 0 1000400,
    LinkEvent.tick 1000500, LinkEvent.tick 1100000, LinkEvent.tick 1134000,
    LinkEvent.tick 2000400]

/-- A slave right after the first edge of a request, at clock value 5000:
status `OT_RESPONSE_START_BIT`, timestamp 5000. -/
def startedSlave : OtState :=
  esp_ot_handle_interrupt (sampleState true OT_READY 0) 1 5000

/-- No further edge; `process` is called once a second, 71 times. -/
def idlePolling : List LinkEvent :=
  (List.range 71).map (fun j => LinkEvent.tick (1000000 * (j + 1)))

/-! ## Helper lemmas: the parity helper counts set bits -/

theorem popcountAux_zero (k : Nat) : popcountAux k 0 = 0 := by
  induction k with
  | zero => rfl
  | succ k ih => simp [popcountAux, ih]

theorem parityLoop_mod_two (k : Nat) :
    ∀ frame p : Nat, frame < 2 ^ k →
      parityLoop frame p % 2 = (p + popcountAux k frame) % 2 := by
  induction k with
  | zero =>
    intro frame p h
    have h0 : frame = 0 := by simpa using h
    subst h0
    rw [parityLoop]
    simp [popcountAux]
  | succ k ih =>
    intro frame p h
    rw [parityLoop]
    by_cases hf : frame > 0
    · have hlt : frame >>> 1 < 2 ^ k := by
        simp only [Nat.shiftRight_succ, Nat.shiftRight_zero]
        rw [Nat.pow_succ] at h
        omega
      rw [dif_pos hf, ih _ _ hlt]
      simp only [Nat.shiftRight_succ, Nat.shiftRight_zero, Nat.and_one_is_mod, popcountAux]
      split <;> omega
    · have h0 : frame = 0 := by omega
      subst h0
      simp [popcountAux_zero]

theorem parity_eq_popcount (frame : Nat) (h : frame < 2 ^ 32) :
    parity frame = decide (popcount frame % 2 = 1) := by
  have h1 := parityLoop_mod_two 32 frame 0 h
  simp only [parity, popcount, Nat.and_one_is_mod]
  rw [h1]
  simp only [Nat.zero_add, Nat.mod_mod]
  rcases Nat.mod_two_eq_zero_or_one (popcountAux 32 frame) with h2 | h2 <;> simp [h2]

/-- Flipping one of the low `k` bits changes the parity of the bit count. -/
theorem popcountAux_xor_bit (k : Nat) :
    ∀ i x : Nat, i < k → (popcountAux k (x ^^^ 2 ^ i) + popcountAux k x) % 2 = 1 := by
  induction k with
  | zero => intro i x h; omega
  | succ k ih =>
    intro i x h
    simp only [popcountAux, Nat.xor_div_two]
    cases i with
    | zero =>
      have h1 : (x ^^^ 2 ^ 0) % 2 + x % 2 = 1 := by
        have := @Nat.xor_mod_two_eq_one x (2 ^ 0)
        simp only [Nat.pow_zero] at this ⊢
        rcases Nat.mod_two_eq_zero_or_one x with hx | hx <;>
          rcases Nat.mod_two_eq_zero_or_one (x ^^^ 1) with hy | hy <;>
          simp [hx, hy] at this ⊢
      have h2 : (2 : Nat) ^ 0 / 2 = 0 := by decide
      rw [h2, Nat.xor_zero]
      omega
    | succ j =>
      have h1 : (x ^^^ 2 ^ (j + 1)) % 2 = x % 2 := by
        have := @Nat.xor_mod_two_eq_one x (2 ^ (j + 1))
        have hp : (2 : Nat) ^ (j + 1) % 2 = 0 := by
          rw [Nat.pow_succ]; omega
        rcases Nat.mod_two_eq_zero_or_one x with hx | hx <;>
          rcases Nat.mod_two_eq_zero_or_one (x ^^^ 2 ^ (j + 1)) with hy | hy <;>
          simp [hx, hy, hp] at this ⊢
      have h2 : (2 : Nat) ^ (j + 1) / 2 = 2 ^ j := by
        rw [Nat.pow_succ]; omega
      have h3 := ih j (x / 2) (by omega)
      rw [h1, h2]
      omega

theorem popcount_xor_bit (i x : Nat) (h : i < 32) :
    (popcount (x ^^^ 2 ^ i) + popcount x) % 2 = 1 :=
  popcountAux_xor_bit 32 i x h

theorem or_bit31_eq_xor (x : Nat) (h : x < 2 ^ 31) : x ||| 1 <<< 31 = x ^^^ 2 ^ 31 := by
  apply Nat.eq_of_testBit_eq
  intro j
  have h1 : (1 <<< 31 : Nat) = 2 ^ 31 := by decide
  rw [h1, Nat.testBit_or, Nat.testBit_xor, Nat.testBit_two_pow]
  by_cases hj : 31 = j
  · subst hj
    simp [Nat.testBit_lt_two_pow h]
  · simp [hj]

theorem or_bit31_eq_add (x : Nat) (h : x < 2 ^ 31) : x ||| 1 <<< 31 = 2 ^ 31 + x := by
  have h1 : (1 <<< 31 : Nat) = 2 ^ 31 * 1 := by decide
  rw [h1, Nat.or_comm, ← Nat.mul_add_lt_is_or h 1, Nat.mul_one]

/-- The three fields of a frame occupy disjoint bits, so the `|` of the
builders is a sum. -/
theorem fields_or_eq_add (t id d : Nat) (ht : t < 8) (hid : id < 256) (hd : d < 65536) :
    (d ||| (t <<< 28) % 2 ^ 32) ||| (id <<< 16) % 2 ^ 32 = 2 ^ 28 * t + (2 ^ 16 * id + d) := by
  have e1 : (t <<< 28) % 2 ^ 32 = 2 ^ 28 * t := by
    rw [Nat.shiftLeft_eq]; omega
  have e2 : (id <<< 16) % 2 ^ 32 = 2 ^ 16 * id := by
    rw [Nat.shiftLeft_eq]; omega
  have hd2 : d < 2 ^ 16 := by omega
  have h3 : 2 ^ 16 * id + d < 2 ^ 28 := by omega
  rw [e1, e2, Nat.or_comm d, Nat.or_assoc, Nat.or_comm d, ← Nat.mul_add_lt_is_or hd2 id,
    ← Nat.mul_add_lt_is_or h3 t]

/-- The request builder is the response builder applied to the single type bit
it honours. -/
theorem esp_ot_build_request_eq (t id d : Nat) :
    esp_ot_build_request t id d
      = esp_ot_build_response (if t = OT_WRITE_DATA then 1 else 0) id d := by
  unfold esp_ot_build_request esp_ot_build_response
  by_cases h : t = OT_WRITE_DATA
  · simp [h]
  · simp [h]

/-- Closed form of the response builder on in-range fields. -/
theorem esp_ot_build_response_eq (t id d : Nat) (ht : t < 8) (hid : id < 256) (hd : d < 65536) :
    esp_ot_build_response t id d
      = (if popcount (2 ^ 28 * t + (2 ^ 16 * id + d)) % 2 = 1 then 2 ^ 31 else 0)
        + (2 ^ 28 * t + (2 ^ 16 * id + d)) := by
  have hb : 2 ^ 28 * t + (2 ^ 16 * id + d) < 2 ^ 31 := by omega
  have hb2 : 2 ^ 28 * t + (2 ^ 16 * id + d) < 2 ^ 32 := by omega
  unfold esp_ot_build_response
  simp only [fields_or_eq_add t id d ht hid hd, parity_eq_popcount _ hb2]
  by_cases hp : popcount (2 ^ 28 * t + (2 ^ 16 * id + d)) % 2 = 1
  · simp only [hp, decide_True, if_true]
    exact or_bit31_eq_add _ hb
  · simp only [hp, decide_False, Bool.false_eq_true, if_false, Nat.zero_add]

/-- Every frame made by the response builder has an even number of set bits. -/
theorem popcount_build_response_even (t id d : Nat) (ht : t < 8) (hid : id < 256)
    (hd : d < 65536) : popcount (esp_ot_build_response t id d) % 2 = 0 := by
  have hb : 2 ^ 28 * t + (2 ^ 16 * id + d) < 2 ^ 31 := by omega
  rw [esp_ot_build_response_eq t id d ht hid hd]
  by_cases hp : popcount (2 ^ 28 * t + (2 ^ 16 * id + d)) % 2 = 1
  · rw [if_pos hp, ← or_bit31_eq_add _ hb, or_bit31_eq_xor _ hb]
    have := popcount_xor_bit 31 (2 ^ 28 * t + (2 ^ 16 * id + d)) (by omega)
    omega
  · rw [if_neg hp, Nat.zero_add]
    omega

theorem build_response_lt (t id d : Nat) (ht : t < 8) (hid : id < 256) (hd : d < 65536) :
    esp_ot_build_response t id d < 2 ^ 32 := by
  rw [esp_ot_build_response_eq t id d ht hid hd]
  split <;> omega

/-! ## Helper lemmas: the receiver on a nominally timed frame -/

theorem sub32_add_500 (t : Nat) : sub32 ((t + 500) % 2 ^ 32) (t % 2 ^ 32) = 500 := by
  unfold sub32; omega

theorem sub32_add_1000 (t : Nat) : sub32 ((t + 1000) % 2 ^ 32) (t % 2 ^ 32) = 1000 := by
  unfold sub32; omega

/-- In `OT_RESPONSE_RECEIVING`, an edge 500 us after the recorded timestamp is
ignored. -/
theorem handle_receiving_boundary (s : OtState) (t level : Nat)
    (hs : s.esp_ot_status = OT_RESPONSE_RECEIVING)
    (hts : s.esp_ot_response_timestamp = t % 2 ^ 32) :
    esp_ot_handle_interrupt s level (t + 500) = s := by
  have h5 : sub32 ((t + 500) % 4294967296) (t % 4294967296) = 500 := sub32_add_500 t
  simp [esp_ot_handle_interrupt, hs, hts, h5]

/-- In `OT_RESPONSE_RECEIVING` with fewer than 32 bits stored, an edge 1000 us
after the recorded timestamp shifts in the complement of the line level. -/
theorem handle_receiving_data (s : OtState) (t level : Nat)
    (hs : s.esp_ot_status = OT_RESPONSE_RECEIVING)
    (hts : s.esp_ot_response_timestamp = t % 2 ^ 32)
    (hi : s.esp_ot_response_bit_index < 32) :
    esp_ot_handle_interrupt s level (t + 1000) =
      { s with response := ((s.response <<< 1) % 2 ^ 32) ||| (if level = 0 then 1 else 0),
               esp_ot_response_timestamp := (t + 1000) % 2 ^ 32,
               esp_ot_response_bit_index := s.esp_ot_response_bit_index + 1 } := by
  have h : (s.esp_ot_response_bit_index + 1) % 256 = s.esp_ot_response_bit_index + 1 := by
    omega
  have h5 : sub32 ((t + 1000) % 4294967296) (t % 4294967296) = 1000 := sub32_add_1000 t
  simp [esp_ot_handle_interrupt, hs, hts, h5, hi, h]

/-- In `OT_RESPONSE_RECEIVING` with 32 bits stored, an edge 1000 us after the
recorded timestamp is the stop bit. -/
theorem handle_receiving_stop (s : OtState) (t level : Nat)
    (hs : s.esp_ot_status = OT_RESPONSE_RECEIVING)
    (hts : s.esp_ot_response_timestamp = t % 2 ^ 32)
    (hi : s.esp_ot_response_bit_index = 32) :
    esp_ot_handle_interrupt s level (t + 1000) =
      { s with esp_ot_status := OT_RESPONSE_READY,
               esp_ot_response_timestamp := (t + 1000) % 2 ^ 32 } := by
  have h5 : sub32 ((t + 1000) % 4294967296) (t % 4294967296) = 1000 := sub32_add_1000 t
  simp [esp_ot_handle_interrupt, hs, hts, h5, hi]

theorem runEdges_append (s : OtState) (l₁ l₂ : List (Nat × Nat)) :
    runEdges s (l₁ ++ l₂) = runEdges (runEdges s l₁) l₂ := by
  simp [runEdges, List.foldl_append]

/-- Shifting a bit into the 32-bit accumulator. -/
theorem shift_in_bit (r : Nat) (b : Bool) :
    ((r <<< 1) % 2 ^ 32) ||| (if b then 1 else 0) = (2 * r + (if b then 1 else 0)) % 2 ^ 32 := by
  have h1 : (r <<< 1) % 2 ^ 32 = 2 ^ 1 * (r % 2 ^ 31) := by
    rw [Nat.shiftLeft_eq]; omega
  have h2 : (if b then 1 else 0) < 2 ^ 1 := by cases b <;> simp
  rw [h1, ← Nat.mul_add_lt_is_or h2]
  cases b <;> simp <;> omega

/-- One data cell, delivered in `OT_RESPONSE_RECEIVING`. -/
theorem runEdges_cell_data (s : OtState) (t : Nat) (boundary : Option Nat) (b : Bool)
    (hs : s.esp_ot_status = OT_RESPONSE_RECEIVING)
    (hts : s.esp_ot_response_timestamp = t % 2 ^ 32)
    (hi : s.esp_ot_response_bit_index < 32) :
    runEdges s (cellEdges t boundary b) =
      { s with response := (2 * s.response + (if b then 1 else 0)) % 2 ^ 32,
               esp_ot_response_timestamp := (t + 1000) % 2 ^ 32,
               esp_ot_response_bit_index := s.esp_ot_response_bit_index + 1 } := by
  have hb : (if (if b = true then 0 else 1) = 0 then 1 else 0) = (if b = true then 1 else 0) := by
    cases b <;> rfl
  cases boundary with
  | none =>
    simp only [cellEdges, runEdges, List.nil_append, List.foldl_cons, List.foldl_nil]
    rw [handle_receiving_data s t _ hs hts hi, hb, shift_in_bit]
  | some level =>
    simp only [cellEdges, runEdges, List.singleton_append, List.foldl_cons, List.foldl_nil]
    rw [handle_receiving_boundary s t level hs hts, handle_receiving_data s t _ hs hts hi, hb,
      shift_in_bit]

/-- The stop cell, delivered in `OT_RESPONSE_RECEIVING` with 32 bits stored. -/
theorem runEdges_cell_stop (s : OtState) (t : Nat) (boundary : Option Nat) (b : Bool)
    (hs : s.esp_ot_status = OT_RESPONSE_RECEIVING)
    (hts : s.esp_ot_response_timestamp = t % 2 ^ 32)
    (hi : s.esp_ot_response_bit_index = 32) :
    runEdges s (cellEdges t boundary b) =
      { s with esp_ot_status := OT_RESPONSE_READY,
               esp_ot_response_timestamp := (t + 1000) % 2 ^ 32 } := by
  cases boundary with
  | none =>
    simp only [cellEdges, runEdges, List.nil_append, List.foldl_cons, List.foldl_nil]
    rw [handle_receiving_stop s t _ hs hts hi]
  | some level =>
    simp only [cellEdges, runEdges, List.singleton_append, List.foldl_cons, List.foldl_nil]
    rw [handle_receiving_boundary s t level hs hts, handle_receiving_stop s t _ hs hts hi]

theorem mod_mul_add_mod (x c y m : Nat) : ((x % m) * c + y) % m = (x * c + y) % m := by
  rw [Nat.add_mod, Nat.mul_mod, Nat.mod_mod, ← Nat.mul_mod, ← Nat.add_mod]

/-- Arithmetic of one step of the accumulator: shifting in bit `k` of `f` and
then the `k` bits below it is shifting in the `k + 1` low bits of `f`. -/
theorem accumulate_step (r f k : Nat) :
    ((2 * r + (if f.testBit k then 1 else 0)) % 2 ^ 32 * 2 ^ k + f % 2 ^ k) % 2 ^ 32
      = (r * 2 ^ (k + 1) + f % 2 ^ (k + 1)) % 2 ^ 32 := by
  have hbit : (if f.testBit k then 1 else 0) = f / 2 ^ k % 2 := by
    rw [Nat.testBit_to_div_mod]
    rcases Nat.mod_two_eq_zero_or_one (f / 2 ^ k) with h | h <;> simp [h]
  rw [mod_mul_add_mod, hbit, Nat.mod_pow_succ (b := 2) (k := k)]
  congr 1
  ring

/-- The data cells of bits `k - 1 .. 0`, delivered in `OT_RESPONSE_RECEIVING`
when `32 - k` bits are already stored. -/
theorem runEdges_dataEdges (f : Nat) (boundary : Nat → Option Nat) :
    ∀ (k t : Nat) (s : OtState),
      s.esp_ot_status = OT_RESPONSE_RECEIVING →
      s.esp_ot_response_timestamp = t % 2 ^ 32 →
      s.esp_ot_response_bit_index + k = 32 →
      s.response < 2 ^ 32 →
      runEdges s (dataEdges f boundary k t) =
        { s with response := (s.response * 2 ^ k + f % 2 ^ k) % 2 ^ 32,
                 esp_ot_response_timestamp := (t + 1000 * k) % 2 ^ 32,
                 esp_ot_response_bit_index := 32 } := by
  intro k
  induction k with
  | zero =>
    intro t s hs hts hi hr
    obtain ⟨sl, cb, r, st, rs, ts, bi, cc⟩ := s
    simp only at hs hts hi hr
    simp only [dataEdges, runEdges, List.foldl_nil, OtState.mk.injEq, true_and, and_true]
    refine ⟨?_, ?_, ?_⟩
    · simp only [Nat.pow_zero, Nat.mod_one]
      omega
    · omega
    · omega
  | succ k ih =>
    intro t s hs hts hi hr
    have hlt : s.esp_ot_response_bit_index < 32 := by omega
    rw [dataEdges, runEdges_append, runEdges_cell_data s t _ _ hs hts hlt]
    have hpos : 0 < 2 ^ 32 := Nat.two_pow_pos 32
    rw [ih (t + 1000) _ (by simpa using hs) (by simp only) (by simp only; omega)
      (by simp only; exact Nat.mod_lt _ hpos)]
    simp only [accumulate_step, OtState.mk.injEq, true_and, and_true]
    congr 1
    omega

/-- The start-bit edge and its mid-cell edge, delivered in
`OT_RESPONSE_WAITING`. -/
theorem runEdges_start (s : OtState) (t0 : Nat)
    (hs : s.esp_ot_status = OT_RESPONSE_WAITING) :
    runEdges s [(t0, 1), (t0 + 500, 0)] =
      { s with esp_ot_status := OT_RESPONSE_RECEIVING,
               esp_ot_response_timestamp := (t0 + 500) % 2 ^ 32,
               esp_ot_response_bit_index := 0 } := by
  have h5 : sub32 ((t0 + 500) % 4294967296) (t0 % 4294967296) = 500 := sub32_add_500 t0
  simp [runEdges, esp_ot_handle_interrupt, hs, h5]

/-- All 32 data cells, delivered right after the start bit. -/
theorem runEdges_data32 (s : OtState) (f t : Nat) (boundary : Nat → Option Nat)
    (hs : s.esp_ot_status = OT_RESPONSE_RECEIVING) (hi : s.esp_ot_response_bit_index = 0)
    (hts : s.esp_ot_response_timestamp = t % 2 ^ 32) (hf : f < 2 ^ 32)
    (hr : s.response < 2 ^ 32) :
    runEdges s (dataEdges f boundary 32 t) =
      { s with response := f, esp_ot_response_timestamp := (t + 32000) % 2 ^ 32,
               esp_ot_response_bit_index := 32 } := by
  have hacc : (s.response * 2 ^ 32 + f % 2 ^ 32) % 2 ^ 32 = f := by
    omega
  rw [runEdges_dataEdges f boundary 32 t s hs hts (by omega) hr, hacc]

/-- The whole frame, delivered in `OT_RESPONSE_WAITING`: every field of the
final state. -/
theorem runEdges_frameEdges (s : OtState) (f t0 : Nat) (boundary : Nat → Option Nat)
    (hs : s.esp_ot_status = OT_RESPONSE_WAITING) (hf : f < 2 ^ 32)
    (hr : s.response < 2 ^ 32) :
    runEdges s (frameEdges t0 f boundary) =
      { s with esp_ot_status := OT_RESPONSE_READY,
               response := f,
               esp_ot_response_timestamp := (t0 + 33500) % 2 ^ 32,
               esp_ot_response_bit_index := 32 } := by
  have htime : (t0 + 500 + 32000 + 1000) % 2 ^ 32 = (t0 + 33500) % 2 ^ 32 := by
    omega
  rw [frameEdges, runEdges_append, runEdges_append, runEdges_start s t0 hs,
    runEdges_data32 _ f (t0 + 500) boundary (by simp only) (by simp only) (by simp only) hf
      (by simpa using hr)]
  refine (runEdges_cell_stop _ (t0 + 500 + 32000) _ _ (by simp only) (by simp only)
    (by simp only)).trans ?_
  simp only [htime]

/-! ## Helper lemmas: `process` on a completed frame, message type of a word -/

/-- The last response status after `process`, called in `OT_RESPONSE_READY`
before the one-second timeout. -/
theorem process_response_ready (s : OtState) (now : Nat)
    (hs : s.esp_ot_status = OT_RESPONSE_READY)
    (ht : sub32 (now % 2 ^ 32) s.esp_ot_response_timestamp ≤ 1000000) :
    (process s now).esp_ot_response_status =
        (if (if s.esp_ot_is_slave then esp_ot_is_valid_request s.response
             else esp_ot_is_valid_response s.response)
         then OT_STATUS_SUCCESS else OT_STATUS_INVALID)
      ∧ (process s now).response = s.response
      ∧ (process s now).esp_ot_status = OT_DELAY := by
  have ht2 : ¬ sub32 (now % 4294967296) s.esp_ot_response_timestamp > 1000000 := by
    simpa using ht
  unfold process esp_ot_process_response
  simp only [hs, Nat.reducePow, ht2]
  cases s.callback_set <;> simp

/-- The `byte msgType = (frame << 1) >> 29` of the validity checks is bits
30..28 of the frame. -/
theorem msgType_eq (f : Nat) : (((f <<< 1) % 2 ^ 32) >>> 29) % 256 = f / 2 ^ 28 % 8 := by
  rw [Nat.shiftLeft_eq, Nat.shiftRight_eq_div_pow]
  omega

theorem esp_ot_get_message_type_eq (f : Nat) : esp_ot_get_message_type f = f / 2 ^ 28 % 8 := by
  unfold esp_ot_get_message_type
  rw [Nat.shiftRight_eq_div_pow]
  exact Nat.and_pow_two_sub_one_eq_mod _ 3

theorem esp_ot_is_valid_request_iff (f : Nat) :
    esp_ot_is_valid_request f = true ↔
      parity f = false ∧ (f / 2 ^ 28 % 8 = 0 ∨ f / 2 ^ 28 % 8 = 1) := by
  unfold esp_ot_is_valid_request
  simp only [msgType_eq]
  cases parity f <;> simp

theorem esp_ot_is_valid_response_iff (f : Nat) :
    esp_ot_is_valid_response f = true ↔
      parity f = false ∧ (f / 2 ^ 28 % 8 = 4 ∨ f / 2 ^ 28 % 8 = 5) := by
  unfold esp_ot_is_valid_response
  simp only [msgType_eq]
  cases parity f <;> simp [OT_READ_ACK, OT_WRITE_ACK]

theorem parity_build_response (t id d : Nat) (ht : t < 8) (hid : id < 256) (hd : d < 65536) :
    parity (esp_ot_build_response t id d) = false := by
  rw [parity_eq_popcount _ (build_response_lt t id d ht hid hd),
    popcount_build_response_even t id d ht hid hd]
  rfl

theorem build_response_type (t id d : Nat) (ht : t < 8) (hid : id < 256) (hd : d < 65536) :
    esp_ot_build_response t id d / 2 ^ 28 % 8 = t := by
  rw [esp_ot_build_response_eq t id d ht hid hd]
  split <;> omega

/-- A word with an odd number of set bits fails both validity checks. -/
theorem odd_popcount_invalid (f : Nat) (hf : f < 2 ^ 32) (hodd : popcount f % 2 = 1) :
    esp_ot_is_valid_request f = false ∧ esp_ot_is_valid_response f = false := by
  have hp : parity f = true := by
    rw [parity_eq_popcount f hf]; simp [hodd]
  simp [esp_ot_is_valid_request, esp_ot_is_valid_response, hp]

/-! ## Helper lemmas: the counter of `parity`, the bit count as a count -/

/-- The `byte` counter of `parity` does not wrap: it ends at the number of set
bits. -/
theorem parityLoop_eq (k : Nat) :
    ∀ frame p : Nat, frame < 2 ^ k → p + k < 256 →
      parityLoop frame p = p + popcountAux k frame := by
  induction k with
  | zero =>
    intro frame p h _
    have h0 : frame = 0 := by simpa using h
    subst h0
    rw [parityLoop]
    simp [popcountAux]
  | succ k ih =>
    intro frame p h hp
    rw [parityLoop]
    by_cases hf : frame > 0
    · have hlt : frame >>> 1 < 2 ^ k := by
        simp only [Nat.shiftRight_succ, Nat.shiftRight_zero]
        rw [Nat.pow_succ] at h
        omega
      rw [dif_pos hf]
      simp only [Nat.and_one_is_mod, popcountAux]
      have hsh : frame >>> 1 = frame / 2 := by
        simp only [Nat.shiftRight_succ, Nat.shiftRight_zero]
      rw [hsh] at hlt ⊢
      split
      · rw [ih _ _ hlt (by omega)]
        omega
      · rw [ih _ _ hlt (by omega)]
        omega
    · have h0 : frame = 0 := by omega
      subst h0
      simp [popcountAux_zero]

/-- The sum of the low `k` bits is the number of positions below `k` whose bit
is set. -/
theorem popcountAux_eq_count (k : Nat) :
    ∀ n : Nat, popcountAux k n = ((List.range k).filter (fun i => n.testBit i)).length := by
  induction k with
  | zero => intro n; rfl
  | succ k ih =>
    intro n
    rw [popcountAux, ih (n / 2), List.range_succ_eq_map, List.filter_cons, List.filter_map,
      Nat.testBit_zero]
    have hfun : ((fun i => n.testBit i) ∘ Nat.succ) = (fun i => (n / 2).testBit i) := by
      funext i
      simp [Nat.testBit_succ]
    rw [hfun]
    rcases Nat.mod_two_eq_zero_or_one n with h | h <;> simp [h]
    omega

/-- The fields of a frame made by the request builder. -/
theorem esp_ot_build_request_fields (t id d : Nat) (hid : id < 256) (hd : d < 65536) :
    ∃ c w : Nat, (c = 0 ∨ c = 1) ∧ w = (if t = OT_WRITE_DATA then 1 else 0)
      ∧ esp_ot_build_request t id d = 2 ^ 31 * c + 2 ^ 28 * w + 2 ^ 16 * id + d := by
  have hw : (if t = OT_WRITE_DATA then 1 else 0) < 8 := by split <;> omega
  rw [esp_ot_build_request_eq, esp_ot_build_response_eq _ id d hw hid hd]
  by_cases hp : popcount (2 ^ 28 * (if t = OT_WRITE_DATA then 1 else 0) + (2 ^ 16 * id + d)) % 2
      = 1
  · exact ⟨1, _, Or.inr rfl, rfl, by rw [if_pos hp]; omega⟩
  · exact ⟨0, _, Or.inl rfl, rfl, by rw [if_neg hp]; omega⟩

/-! ## The claims -/

/-- C1. Receiver round trip: starting in `OT_RESPONSE_WAITING` with any content
of the 32-bit accumulator, the edges of a nominally timed Manchester frame
carrying the 32-bit word `f` (start-bit edge with the line at 1 at `t0`, its
mid-cell edge with the line at 0 at `t0 + 500`, for each bit from 31 down to 0
a mid-cell edge 1000 us after the previous one leaving the line at the
complement of the bit, each optionally preceded 500 us earlier by a
cell-boundary edge, then the stop-bit mid-cell edge) leave the status
`OT_RESPONSE_READY`, the bit index 32 and the accumulator equal to `f`. -/
theorem receiver_round_trip (s : OtState) (f t0 : Nat) (boundary : Nat → Option Nat)
    (hs : s.esp_ot_status = OT_RESPONSE_WAITING) (hf : f < 2 ^ 32)
    (hr : s.response < 2 ^ 32) :
    (runEdges s (frameEdges t0 f boundary)).esp_ot_status = OT_RESPONSE_READY
      ∧ (runEdges s (frameEdges t0 f boundary)).esp_ot_response_bit_index = 32
      ∧ (runEdges s (frameEdges t0 f boundary)).response = f := by
  rw [runEdges_frameEdges s f t0 boundary hs hf hr]
  exact ⟨rfl, rfl, rfl⟩

/-- Witness of C1: a frame whose start bit begins shortly before the 32-bit
clock wraps, with a cell-boundary edge in front of every third cell. -/
theorem receiver_round_trip_witness :
    ((sampleState false OT_RESPONSE_WAITING 77).esp_ot_status = OT_RESPONSE_WAITING
      ∧ 0xC0193C80 < 2 ^ 32 ∧ (sampleState false OT_RESPONSE_WAITING 77).response < 2 ^ 32)
    ∧ ((runEdges (sampleState false OT_RESPONSE_WAITING 77)
          (frameEdges 4294967000 0xC0193C80
            (fun i => if i % 3 = 0 then some 1 else none))).esp_ot_status = OT_RESPONSE_READY
      ∧ (runEdges (sampleState false OT_RESPONSE_WAITING 77)
          (frameEdges 4294967000 0xC0193C80
            (fun i => if i % 3 = 0 then some 1 else none))).esp_ot_response_bit_index = 32
      ∧ (runEdges (sampleState false OT_RESPONSE_WAITING 77)
          (frameEdges 4294967000 0xC0193C80
            (fun i => if i % 3 = 0 then some 1 else none))).response = 0xC0193C80) :=
  ⟨⟨rfl, by decide, by decide⟩,
    receiver_round_trip (sampleState false OT_RESPONSE_WAITING 77) 0xC0193C80 4294967000
      (fun i => if i % 3 = 0 then some 1 else none) rfl (by decide) (by decide)⟩

/-- C2, as stated, fails: the frames built for type `OT_READ_ACK`, data id 25
and data `0x3C80` by the request builder (`0x00193C80`) and by the response
builder (`0xC0193C80`) both have an even number of set bits. -/
theorem build_odd_parity_counterexample :
    ¬ (popcount (esp_ot_build_request OT_READ_ACK 25 0x3C80) &&& 1 = 1)
      ∧ ¬ (popcount (esp_ot_build_response OT_READ_ACK 25 0x3C80) &&& 1 = 1) := by
  have h1 : esp_ot_build_response OT_READ_ACK 25 0x3C80 = 0xC0193C80 := by
    rw [esp_ot_build_response_eq _ _ _ (by decide) (by decide) (by decide)]
    decide
  have h2 : esp_ot_build_request OT_READ_ACK 25 0x3C80 = 0x00193C80 := by
    rw [esp_ot_build_request_eq, if_neg (by decide),
      esp_ot_build_response_eq _ _ _ (by decide) (by decide) (by decide)]
    decide
  rw [h1, h2]
  decide

/-- C2, amended: for every message type `t` (3 bits), data id `id < 256` and
data `d < 65536`, the frames returned by `esp_ot_build_request` and
`esp_ot_build_response` have an even number of set bits
(`popcount(frame) & 1 == 0`). -/
theorem build_even_parity (t id d : Nat) (ht : t < 8) (hid : id < 256) (hd : d < 65536) :
    popcount (esp_ot_build_request t id d) &&& 1 = 0
      ∧ popcount (esp_ot_build_response t id d) &&& 1 = 0 := by
  rw [Nat.and_one_is_mod, Nat.and_one_is_mod, esp_ot_build_request_eq]
  refine ⟨popcount_build_response_even _ id d ?_ hid hd,
    popcount_build_response_even t id d ht hid hd⟩
  split <;> omega

/-- Witness of C2 (amended) at `OT_WRITE_DATA`, data id 1, data `0x6400`. -/
theorem build_even_parity_witness :
    (OT_WRITE_DATA < 8 ∧ 1 < 256 ∧ 0x6400 < 65536)
    ∧ (popcount (esp_ot_build_request OT_WRITE_DATA 1 0x6400) &&& 1 = 0
      ∧ popcount (esp_ot_build_response OT_WRITE_DATA 1 0x6400) &&& 1 = 0) :=
  ⟨⟨by decide, by decide, by decide⟩,
    build_even_parity OT_WRITE_DATA 1 0x6400 (by decide) (by decide) (by decide)⟩

/-- C3. For every 3-bit type `t`, `id < 256` and `d < 65536`,
`esp_ot_build_response t id d` equals `base | (p << 31)` where
`base = (t << 28) | (id << 16) | d` and `p = popcount(base & 0x7FFFFFFF) & 1`;
bits 27..24 of the result are zero and bit 31 is exactly `p`. -/
theorem build_response_layout (t id d : Nat) (ht : t < 8) (hid : id < 256) (hd : d < 65536) :
    esp_ot_build_response t id d
        = ((t <<< 28) ||| (id <<< 16) ||| d)
          ||| ((popcount (((t <<< 28) ||| (id <<< 16) ||| d) &&& 0x7FFFFFFF) &&& 1) <<< 31)
      ∧ (esp_ot_build_response t id d >>> 24) &&& 0xF = 0
      ∧ esp_ot_build_response t id d >>> 31
          = popcount (((t <<< 28) ||| (id <<< 16) ||| d) &&& 0x7FFFFFFF) &&& 1 := by
  have hd2 : d < 2 ^ 16 := by omega
  have h3 : 2 ^ 16 * id + d < 2 ^ 28 := by omega
  have hb : 2 ^ 28 * t + (2 ^ 16 * id + d) < 2 ^ 31 := by omega
  have hbase : (t <<< 28) ||| (id <<< 16) ||| d = 2 ^ 28 * t + (2 ^ 16 * id + d) := by
    rw [Nat.shiftLeft_eq, Nat.shiftLeft_eq, Nat.mul_comm t, Nat.mul_comm id, Nat.or_assoc,
      ← Nat.mul_add_lt_is_or hd2 id, ← Nat.mul_add_lt_is_or h3 t]
  have hmask : (2 ^ 28 * t + (2 ^ 16 * id + d)) &&& 0x7FFFFFFF
      = 2 ^ 28 * t + (2 ^ 16 * id + d) :=
    Nat.and_pow_two_sub_one_of_lt_two_pow hb
  have h15 : ∀ x : Nat, x &&& 0xF = x % 16 := fun x => Nat.and_pow_two_sub_one_eq_mod x 4
  rw [hbase, hmask, Nat.and_one_is_mod, esp_ot_build_response_eq t id d ht hid hd, h15,
    Nat.shiftRight_eq_div_pow, Nat.shiftRight_eq_div_pow]
  rcases Nat.mod_two_eq_zero_or_one (popcount (2 ^ 28 * t + (2 ^ 16 * id + d))) with hp | hp
  · rw [hp, if_neg (by omega)]
    refine ⟨by simp, by omega, by omega⟩
  · rw [hp, if_pos rfl, or_bit31_eq_add _ hb]
    refine ⟨rfl, by omega, by omega⟩

/-- Witness of C3 at `OT_READ_ACK`, data id 25, data `0x3C80`. -/
theorem build_response_layout_witness :
    (OT_READ_ACK < 8 ∧ 25 < 256 ∧ 0x3C80 < 65536)
    ∧ (esp_ot_build_response OT_READ_ACK 25 0x3C80
        = ((OT_READ_ACK <<< 28) ||| (25 <<< 16) ||| 0x3C80)
          ||| ((popcount (((OT_READ_ACK <<< 28) ||| (25 <<< 16) ||| 0x3C80) &&& 0x7FFFFFFF)
                &&& 1) <<< 31)
      ∧ (esp_ot_build_response OT_READ_ACK 25 0x3C80 >>> 24) &&& 0xF = 0
      ∧ esp_ot_build_response OT_READ_ACK 25 0x3C80 >>> 31
          = popcount (((OT_READ_ACK <<< 28) ||| (25 <<< 16) ||| 0x3C80) &&& 0x7FFFFFFF)
              &&& 1) :=
  ⟨⟨by decide, by decide, by decide⟩,
    build_response_layout OT_READ_ACK 25 0x3C80 (by decide) (by decide) (by decide)⟩

/-- C4, as stated, fails: the word `0xC0193C80` (`OT_READ_ACK`, data id 25, data
`0x3C80`) has an even number of set bits, yet `esp_ot_is_valid_response`
accepts it and `process` in master role reports `OT_STATUS_SUCCESS`; likewise
`0x00193C80` (`OT_READ_DATA`) is even, is accepted by `esp_ot_is_valid_request`
and gives `OT_STATUS_SUCCESS` in slave role. -/
theorem even_frame_rejected_counterexample :
    (popcount 0xC0193C80 % 2 = 0
      ∧ esp_ot_is_valid_response 0xC0193C80 = true
      ∧ (process (sampleState false OT_RESPONSE_READY 0xC0193C80) 2000).esp_ot_response_status
          = OT_STATUS_SUCCESS)
    ∧ (popcount 0x00193C80 % 2 = 0
      ∧ esp_ot_is_valid_request 0x00193C80 = true
      ∧ (process (sampleState true OT_RESPONSE_READY 0x00193C80) 2000).esp_ot_response_status
          = OT_STATUS_SUCCESS) := by
  have h1 : esp_ot_is_valid_response 0xC0193C80 = true := by
    rw [esp_ot_is_valid_response_iff, parity_eq_popcount _ (by decide)]
    decide
  have h2 : esp_ot_is_valid_request 0x00193C80 = true := by
    rw [esp_ot_is_valid_request_iff, parity_eq_popcount _ (by decide)]
    decide
  refine ⟨⟨by decide, h1, ?_⟩, ⟨by decide, h2, ?_⟩⟩
  · rw [(process_response_ready (sampleState false OT_RESPONSE_READY 0xC0193C80) 2000 rfl
      (by decide)).1]
    simp [sampleState, h1]
  · rw [(process_response_ready (sampleState true OT_RESPONSE_READY 0x00193C80) 2000 rfl
      (by decide)).1]
    simp [sampleState, h2]

/-- C4, amended: a received frame is accepted only if it has an even bit count:
for every 32-bit frame `f` with an odd number of set bits,
`esp_ot_is_valid_request f` and `esp_ot_is_valid_response f` are false, and
`process` on status `OT_RESPONSE_READY` (within the 1 s timeout) with
`response = f` sets the last response status to `OT_STATUS_INVALID`, in either
role and whatever the other fields of `f` are. -/
theorem odd_frame_rejected (f : Nat) (s : OtState) (now : Nat) (hf : f < 2 ^ 32)
    (hodd : popcount f % 2 = 1)
    (hs : s.esp_ot_status = OT_RESPONSE_READY) (hr : s.response = f)
    (ht : sub32 (now % 2 ^ 32) s.esp_ot_response_timestamp ≤ 1000000) :
    esp_ot_is_valid_request f = false
      ∧ esp_ot_is_valid_response f = false
      ∧ (process s now).esp_ot_response_status = OT_STATUS_INVALID := by
  obtain ⟨h1, h2⟩ := odd_popcount_invalid f hf hodd
  refine ⟨h1, h2, ?_⟩
  rw [(process_response_ready s now hs ht).1, hr, h1, h2]
  simp

/-- Witness of C4 (amended): `0x40193C80`, an `OT_READ_ACK` frame whose parity
bit is missing, received in master role. -/
theorem odd_frame_rejected_witness :
    (0x40193C80 < 2 ^ 32 ∧ popcount 0x40193C80 % 2 = 1
      ∧ (sampleState false OT_RESPONSE_READY 0x40193C80).esp_ot_status = OT_RESPONSE_READY
      ∧ (sampleState false OT_RESPONSE_READY 0x40193C80).response = 0x40193C80
      ∧ sub32 (2000 % 2 ^ 32)
          (sampleState false OT_RESPONSE_READY 0x40193C80).esp_ot_response_timestamp ≤ 1000000)
    ∧ (esp_ot_is_valid_request 0x40193C80 = false
      ∧ esp_ot_is_valid_response 0x40193C80 = false
      ∧ (process (sampleState false OT_RESPONSE_READY 0x40193C80) 2000).esp_ot_response_status
          = OT_STATUS_INVALID) :=
  ⟨⟨by decide, by decide, rfl, rfl, by decide⟩,
    odd_frame_rejected 0x40193C80 (sampleState false OT_RESPONSE_READY 0x40193C80) 2000
      (by decide) (by decide) rfl rfl (by decide)⟩

/-- C5. Frames built by the codec are accepted by the peer's check: for every
`id < 256` and `d < 65536`, `esp_ot_is_valid_response (esp_ot_build_response t id d)`
is true iff the 3-bit type `t` is `OT_READ_ACK` or `OT_WRITE_ACK`, and
`esp_ot_is_valid_request (esp_ot_build_request t' id d)` is true for `t'` in
{`OT_READ_DATA`, `OT_WRITE_DATA`}; hence in master role `process` on
`OT_RESPONSE_READY` (within the timeout) with
`response = esp_ot_build_response OT_READ_ACK 25 0x3C80` yields last status
`OT_STATUS_SUCCESS`. -/
theorem built_frames_accepted (t id d : Nat) (s : OtState) (now : Nat)
    (ht : t < 8) (hid : id < 256) (hd : d < 65536)
    (hm : s.esp_ot_is_slave = false) (hs : s.esp_ot_status = OT_RESPONSE_READY)
    (hr : s.response = esp_ot_build_response OT_READ_ACK 25 0x3C80)
    (hnow : sub32 (now % 2 ^ 32) s.esp_ot_response_timestamp ≤ 1000000) :
    (esp_ot_is_valid_response (esp_ot_build_response t id d) = true
        ↔ (t = OT_READ_ACK ∨ t = OT_WRITE_ACK))
      ∧ esp_ot_is_valid_request (esp_ot_build_request OT_READ_DATA id d) = true
      ∧ esp_ot_is_valid_request (esp_ot_build_request OT_WRITE_DATA id d) = true
      ∧ (process s now).esp_ot_response_status = OT_STATUS_SUCCESS := by
  have hresp : ∀ t' id' d' : Nat, t' < 8 → id' < 256 → d' < 65536 →
      (esp_ot_is_valid_response (esp_ot_build_response t' id' d') = true
        ↔ (t' = OT_READ_ACK ∨ t' = OT_WRITE_ACK)) := by
    intro t' id' d' h1 h2 h3
    rw [esp_ot_is_valid_response_iff, parity_build_response t' id' d' h1 h2 h3,
      build_response_type t' id' d' h1 h2 h3]
    simp
  have hreq : ∀ tq : Nat, esp_ot_is_valid_request (esp_ot_build_request tq id d) = true := by
    intro tq
    have hw : (if tq = OT_WRITE_DATA then 1 else 0) < 8 := by split <;> omega
    rw [esp_ot_build_request_eq, esp_ot_is_valid_request_iff,
      parity_build_response _ id d hw hid hd, build_response_type _ id d hw hid hd]
    refine ⟨rfl, ?_⟩
    split <;> simp
  refine ⟨hresp t id d ht hid hd, hreq OT_READ_DATA, hreq OT_WRITE_DATA, ?_⟩
  have hv : esp_ot_is_valid_response (esp_ot_build_response OT_READ_ACK 25 0x3C80) = true :=
    (hresp OT_READ_ACK 25 0x3C80 (by decide) (by decide) (by decide)).2 (Or.inl rfl)
  rw [(process_response_ready s now hs hnow).1, hm, hr]
  simp [hv]

/-- Witness of C5: type `OT_WRITE_ACK`, data id 56, data `0x2800`, and the
master-role state holding scenario S1's reply `0xC0193C80`. -/
theorem built_frames_accepted_witness :
    (OT_WRITE_ACK < 8 ∧ 56 < 256 ∧ 0x2800 < 65536
      ∧ (sampleState false OT_RESPONSE_READY 0xC0193C80).esp_ot_is_slave = false
      ∧ (sampleState false OT_RESPONSE_READY 0xC0193C80).esp_ot_status = OT_RESPONSE_READY
      ∧ (sampleState false OT_RESPONSE_READY 0xC0193C80).response
          = esp_ot_build_response OT_READ_ACK 25 0x3C80
      ∧ sub32 (2000 % 2 ^ 32)
          (sampleState false OT_RESPONSE_READY 0xC0193C80).esp_ot_response_timestamp ≤ 1000000)
    ∧ ((esp_ot_is_valid_response (esp_ot_build_response OT_WRITE_ACK 56 0x2800) = true
          ↔ (OT_WRITE_ACK = OT_READ_ACK ∨ OT_WRITE_ACK = OT_WRITE_ACK))
      ∧ esp_ot_is_valid_request (esp_ot_build_request OT_READ_DATA 56 0x2800) = true
      ∧ esp_ot_is_valid_request (esp_ot_build_request OT_WRITE_DATA 56 0x2800) = true
      ∧ (process (sampleState false OT_RESPONSE_READY 0xC0193C80) 2000).esp_ot_response_status
          = OT_STATUS_SUCCESS) :=
  have hr : (sampleState false OT_RESPONSE_READY 0xC0193C80).response
      = esp_ot_build_response OT_READ_ACK 25 0x3C80 := by
    rw [esp_ot_build_response_eq _ _ _ (by decide) (by decide) (by decide)]
    decide
  ⟨⟨by decide, by decide, by decide, rfl, rfl, hr, by decide⟩,
    built_frames_accepted OT_WRITE_ACK 56 0x2800
      (sampleState false OT_RESPONSE_READY 0xC0193C80) 2000
      (by decide) (by decide) (by decide) rfl rfl hr (by decide)⟩

/-- C6. For every 32-bit frame `f`, `esp_ot_is_valid_request f` is true iff
`parity f` is false and `esp_ot_get_message_type f` is `OT_READ_DATA` or
`OT_WRITE_DATA`, and `esp_ot_is_valid_response f` is true iff `parity f` is
false and `esp_ot_get_message_type f` is `OT_READ_ACK` or `OT_WRITE_ACK`; the
type computed as `(f << 1) >> 29` on 32-bit words equals bits 30..28, which is
what `esp_ot_get_message_type` returns. -/
theorem validity_characterisation (f : Nat) :
    (esp_ot_is_valid_request f = true ↔
        parity f = false ∧ (esp_ot_get_message_type f = OT_READ_DATA
                            ∨ esp_ot_get_message_type f = OT_WRITE_DATA))
      ∧ (esp_ot_is_valid_response f = true ↔
        parity f = false ∧ (esp_ot_get_message_type f = OT_READ_ACK
                            ∨ esp_ot_get_message_type f = OT_WRITE_ACK))
      ∧ ((f <<< 1) % 2 ^ 32) >>> 29 = esp_ot_get_message_type f
      ∧ esp_ot_get_message_type f = f / 2 ^ 28 % 8 := by
  refine ⟨?_, ?_, ?_, esp_ot_get_message_type_eq f⟩
  · rw [esp_ot_is_valid_request_iff, esp_ot_get_message_type_eq]
  · rw [esp_ot_is_valid_response_iff, esp_ot_get_message_type_eq]
  · rw [esp_ot_get_message_type_eq, Nat.shiftLeft_eq, Nat.shiftRight_eq_div_pow]
    omega

/-- C7. Single-bit corruption is detected: for every frame
`f = esp_ot_build_response t id d` with `t` in {`OT_READ_ACK`, `OT_WRITE_ACK`},
`id < 256`, `d < 65536`, and every bit position `i < 32`,
`esp_ot_is_valid_response (f xor (1 << i))` is false, so `process` in master
role on `OT_RESPONSE_READY` (within the timeout) sets last status
`OT_STATUS_INVALID` while the response accumulator still holds the corrupted
bits as received. -/
theorem single_bit_corruption_detected (t id d i : Nat) (s : OtState) (now : Nat)
    (ht : t = OT_READ_ACK ∨ t = OT_WRITE_ACK) (hid : id < 256) (hd : d < 65536) (hi : i < 32)
    (hm : s.esp_ot_is_slave = false) (hs : s.esp_ot_status = OT_RESPONSE_READY)
    (hr : s.response = esp_ot_build_response t id d ^^^ (1 <<< i))
    (hnow : sub32 (now % 2 ^ 32) s.esp_ot_response_timestamp ≤ 1000000) :
    esp_ot_is_valid_response (esp_ot_build_response t id d ^^^ (1 <<< i)) = false
      ∧ (process s now).esp_ot_response_status = OT_STATUS_INVALID
      ∧ (process s now).response = esp_ot_build_response t id d ^^^ (1 <<< i) := by
  have ht8 : t < 8 := by rcases ht with h | h <;> subst h <;> decide
  have hshift : (1 <<< i : Nat) = 2 ^ i := by rw [Nat.shiftLeft_eq, Nat.one_mul]
  have hbit : 2 ^ i < 2 ^ 32 := Nat.pow_lt_pow_right (by decide) hi
  have hlt : esp_ot_build_response t id d ^^^ 2 ^ i < 2 ^ 32 :=
    Nat.xor_lt_two_pow (build_response_lt t id d ht8 hid hd) hbit
  have heven := popcount_build_response_even t id d ht8 hid hd
  have hflip := popcount_xor_bit i (esp_ot_build_response t id d) hi
  have hodd : popcount (esp_ot_build_response t id d ^^^ 2 ^ i) % 2 = 1 := by omega
  have hinv := (odd_popcount_invalid _ hlt hodd).2
  rw [hshift] at hr ⊢
  refine ⟨hinv, ?_, ?_⟩
  · rw [(process_response_ready s now hs hnow).1, hm, hr, hinv]
    simp
  · rw [(process_response_ready s now hs hnow).2.1, hr]

/-- Witness of C7: scenario S1's reply `0xC0193C80` with data bit 7 flipped,
which is `0xC0193C00`. -/
theorem single_bit_corruption_detected_witness :
    ((OT_READ_ACK = OT_READ_ACK ∨ OT_READ_ACK = OT_WRITE_ACK) ∧ 25 < 256 ∧ 0x3C80 < 65536
      ∧ 7 < 32
      ∧ (sampleState false OT_RESPONSE_READY 0xC0193C00).esp_ot_is_slave = false
      ∧ (sampleState false OT_RESPONSE_READY 0xC0193C00).esp_ot_status = OT_RESPONSE_READY
      ∧ (sampleState false OT_RESPONSE_READY 0xC0193C00).response
          = esp_ot_build_response OT_READ_ACK 25 0x3C80 ^^^ (1 <<< 7)
      ∧ sub32 (2000 % 2 ^ 32)
          (sampleState false OT_RESPONSE_READY 0xC0193C00).esp_ot_response_timestamp ≤ 1000000)
    ∧ (esp_ot_is_valid_response (esp_ot_build_response OT_READ_ACK 25 0x3C80 ^^^ (1 <<< 7))
          = false
      ∧ (process (sampleState false OT_RESPONSE_READY 0xC0193C00) 2000).esp_ot_response_status
          = OT_STATUS_INVALID
      ∧ (process (sampleState false OT_RESPONSE_READY 0xC0193C00) 2000).response
          = esp_ot_build_response OT_READ_ACK 25 0x3C80 ^^^ (1 <<< 7)) :=
  have hr : (sampleState false OT_RESPONSE_READY 0xC0193C00).response
      = esp_ot_build_response OT_READ_ACK 25 0x3C80 ^^^ (1 <<< 7) := by
    rw [esp_ot_build_response_eq _ _ _ (by decide) (by decide) (by decide)]
    decide
  ⟨⟨Or.inl rfl, by decide, by decide, by decide, rfl, rfl, hr, by decide⟩,
    single_bit_corruption_detected OT_READ_ACK 25 0x3C80 7
      (sampleState false OT_RESPONSE_READY 0xC0193C00) 2000
      (Or.inl rfl) (by decide) (by decide) (by decide) rfl rfl hr (by decide)⟩

/-- C8. `parity` is a total function (its loop is defined by recursion on the
strictly decreasing `frame`), and for every 32-bit frame its `byte` counter
ends at the number of set bits of the frame, so that it returns true iff the
number of set bits of the frame is odd. -/
theorem parity_iff_odd_popcount (frame : Nat) (h : frame < 2 ^ 32) :
    parityLoop frame 0 = popcount frame
      ∧ popcount frame = ((List.range 32).filter (fun i => frame.testBit i)).length
      ∧ (parity frame = true ↔ popcount frame % 2 = 1) := by
  refine ⟨?_, popcountAux_eq_count 32 frame, ?_⟩
  · rw [parityLoop_eq 32 frame 0 h (by decide), Nat.zero_add]
    rfl
  · rw [parity_eq_popcount frame h]
    simp

/-- Witness of C8 at the frame `0xC0193C80`. -/
theorem parity_iff_odd_popcount_witness :
    0xC0193C80 < 2 ^ 32
    ∧ (parityLoop 0xC0193C80 0 = popcount 0xC0193C80
      ∧ popcount 0xC0193C80
          = ((List.range 32).filter (fun i => Nat.testBit 0xC0193C80 i)).length
      ∧ (parity 0xC0193C80 = true ↔ popcount 0xC0193C80 % 2 = 1)) :=
  ⟨by decide, parity_iff_odd_popcount 0xC0193C80 (by decide)⟩

/-- C9. For every type `t`, `id < 256` and `d < 65536`, the frame returned by
`esp_ot_build_request t id d` has bit 28 set iff `t = OT_WRITE_DATA` and bits
30..29 and 27..24 clear (so its message type is `OT_WRITE_DATA` when
`t = OT_WRITE_DATA` and `OT_READ_DATA` for every other `t`), and
`esp_ot_get_data_id` and `esp_ot_get_uint` recover `id` and `d` from it. -/
theorem build_request_layout (t id d : Nat) (hid : id < 256) (hd : d < 65536) :
    ((esp_ot_build_request t id d).testBit 28 = true ↔ t = OT_WRITE_DATA)
      ∧ (esp_ot_build_request t id d).testBit 29 = false
      ∧ (esp_ot_build_request t id d).testBit 30 = false
      ∧ (esp_ot_build_request t id d).testBit 24 = false
      ∧ (esp_ot_build_request t id d).testBit 25 = false
      ∧ (esp_ot_build_request t id d).testBit 26 = false
      ∧ (esp_ot_build_request t id d).testBit 27 = false
      ∧ esp_ot_get_message_type (esp_ot_build_request t id d)
          = (if t = OT_WRITE_DATA then OT_WRITE_DATA else OT_READ_DATA)
      ∧ esp_ot_get_data_id (esp_ot_build_request t id d) = id
      ∧ esp_ot_get_uint (esp_ot_build_request t id d) = d := by
  obtain ⟨c, w, hc, hw, hF⟩ := esp_ot_build_request_fields t id d hid hd
  have h255 : ∀ x : Nat, x &&& 0xFF = x % 256 := fun x => Nat.and_pow_two_sub_one_eq_mod x 8
  have h65535 : ∀ x : Nat, x &&& 0xffff = x % 65536 :=
    fun x => Nat.and_pow_two_sub_one_eq_mod x 16
  generalize esp_ot_build_request t id d = F at hF
  subst hF
  simp only [Nat.testBit_to_div_mod, esp_ot_get_message_type_eq, esp_ot_get_data_id,
    esp_ot_get_uint, h255, h65535, Nat.shiftRight_eq_div_pow, decide_eq_true_eq,
    decide_eq_false_iff_not, OT_WRITE_DATA, OT_READ_DATA] at hw ⊢
  by_cases h : t = 1
  · rw [if_pos h] at hw
    simp only [h, iff_true, if_true]
    refine ⟨by omega, by omega, by omega, by omega, by omega, by omega, by omega, by omega,
      by omega, by omega⟩
  · rw [if_neg h] at hw
    simp only [h, iff_false, if_false]
    refine ⟨by omega, by omega, by omega, by omega, by omega, by omega, by omega, by omega,
      by omega, by omega⟩

/-- Witness of C9 at `OT_WRITE_DATA`, data id 1, data `0x6400`. -/
theorem build_request_layout_witness :
    (1 < 256 ∧ 0x6400 < 65536)
    ∧ (((esp_ot_build_request OT_WRITE_DATA 1 0x6400).testBit 28 = true
          ↔ OT_WRITE_DATA = OT_WRITE_DATA)
      ∧ (esp_ot_build_request OT_WRITE_DATA 1 0x6400).testBit 29 = false
      ∧ (esp_ot_build_request OT_WRITE_DATA 1 0x6400).testBit 30 = false
      ∧ (esp_ot_build_request OT_WRITE_DATA 1 0x6400).testBit 24 = false
      ∧ (esp_ot_build_request OT_WRITE_DATA 1 0x6400).testBit 25 = false
      ∧ (esp_ot_build_request OT_WRITE_DATA 1 0x6400).testBit 26 = false
      ∧ (esp_ot_build_request OT_WRITE_DATA 1 0x6400).testBit 27 = false
      ∧ esp_ot_get_message_type (esp_ot_build_request OT_WRITE_DATA 1 0x6400)
          = (if OT_WRITE_DATA = OT_WRITE_DATA then OT_WRITE_DATA else OT_READ_DATA)
      ∧ esp_ot_get_data_id (esp_ot_build_request OT_WRITE_DATA 1 0x6400) = 1
      ∧ esp_ot_get_uint (esp_ot_build_request OT_WRITE_DATA 1 0x6400) = 0x6400) :=
  ⟨⟨by decide, by decide⟩, build_request_layout OT_WRITE_DATA 1 0x6400 (by decide) (by decide)⟩

/-- C10. For every 32-bit frame `f`, `esp_ot_get_float f` is the signed Q8.8
value of its low 16 bits: with `u = f & 0xFFFF`, the result is `u / 256` when
bit 15 of `u` is clear and `-(0x10000 - u) / 256` when it is set, which is the
two's-complement reading of `u` divided by 256 (exactly, as a rational); and
`esp_ot_get_float (esp_ot_build_response OT_READ_ACK 25 0x3C80) = 60.5`. -/
theorem get_float_signed_q88 (f : Nat) :
    esp_ot_get_float f
        = (if (f &&& 0xFFFF).testBit 15 then -((0x10000 : ℚ) - ((f &&& 0xFFFF : Nat) : ℚ)) / 256
           else ((f &&& 0xFFFF : Nat) : ℚ) / 256)
      ∧ esp_ot_get_float f
        = (if f % 65536 < 32768 then ((f % 65536 : Nat) : ℚ)
           else ((f % 65536 : Nat) : ℚ) - 65536) / 256
      ∧ esp_ot_get_float (esp_ot_build_response OT_READ_ACK 25 0x3C80) = 121 / 2 := by
  have h65535 : ∀ x : Nat, x &&& 0xFFFF = x % 65536 :=
    fun x => Nat.and_pow_two_sub_one_eq_mod x 16
  have hsign : ∀ u : Nat, u < 65536 → (u &&& 0x8000 ≠ 0 ↔ u.testBit 15 = true) := by
    intro u _
    have h := Nat.and_two_pow u 15
    have h2 : (0x8000 : Nat) = 2 ^ 15 := by decide
    rw [h2, h]
    cases u.testBit 15 <;> simp
  have hbit : ∀ u : Nat, u < 65536 → (u.testBit 15 = true ↔ ¬ u < 32768) := by
    intro u hu
    rw [Nat.testBit_to_div_mod, decide_eq_true_eq]
    omega
  have hgen : ∀ g : Nat, esp_ot_get_float g
      = (if (g &&& 0xFFFF).testBit 15 then
            -((0x10000 : ℚ) - ((g &&& 0xFFFF : Nat) : ℚ)) / 256
         else ((g &&& 0xFFFF : Nat) : ℚ) / 256) := by
    intro g
    have hu : g % 65536 < 65536 := Nat.mod_lt _ (by decide)
    unfold esp_ot_get_float esp_ot_get_uint
    simp only [h65535, Nat.reducePow, Nat.mod_mod]
    by_cases hb : (g % 65536).testBit 15 = true
    · rw [if_pos ((hsign _ hu).2 hb), if_pos hb]
      simp only [Int.cast_neg, Int.cast_sub, Int.cast_natCast, Int.cast_ofNat]
    · rw [if_neg (fun h => hb ((hsign _ hu).1 h)), if_neg hb]
  refine ⟨hgen f, ?_, ?_⟩
  · have hu : f % 65536 < 65536 := Nat.mod_lt _ (by decide)
    rw [hgen f, h65535]
    by_cases hb : (f % 65536).testBit 15 = true
    · rw [if_pos hb, if_neg ((hbit _ hu).1 hb)]
      ring
    · rw [if_neg hb, if_pos (by
        by_contra hcon
        exact hb ((hbit _ hu).2 hcon))]
  · have hr : esp_ot_build_response OT_READ_ACK 25 0x3C80 = 0xC0193C80 := by
      rw [esp_ot_build_response_eq _ _ _ (by decide) (by decide) (by decide)]
      decide
    have hlow : (0xC0193C80 &&& 0xFFFF : Nat) = 0x3C80 := by decide
    have hclear : Nat.testBit 0x3C80 15 = false := by decide
    rw [hgen, hr, hlow, hclear]
    norm_num

/-! ## Helper lemmas: single calls of `process` -/

/-- The clock value enters `process` only through its 32-bit truncation. -/
theorem process_timeout_eq (s : OtState) (now : Nat)
    (hst : s.esp_ot_status ≠ OT_READY ∧ s.esp_ot_status ≠ OT_NOT_INITIALIZED
      ∧ s.esp_ot_status ≠ OT_DELAY)
    (hto : sub32 (now % 2 ^ 32) s.esp_ot_response_timestamp > 1000000) :
    process s now =
      esp_ot_process_response
        { s with esp_ot_status := OT_READY, esp_ot_response_status := OT_STATUS_TIMEOUT } := by
  have hto2 : sub32 (now % 4294967296) s.esp_ot_response_timestamp > 1000000 := by
    simpa using hto
  unfold process
  simp only [hst.1, hst.2.1, hst.2.2, Nat.reducePow, hto2, ne_eq, not_false_eq_true, and_self,
    if_true, if_false]

theorem process_ready_eq (s : OtState) (now : Nat) (hs : s.esp_ot_status = OT_READY) :
    process s now = s := by
  unfold process
  simp [hs]

theorem process_response (s : OtState) (now : Nat) : (process s now).response = s.response := by
  unfold process esp_ot_process_response
  simp only
  split_ifs <;> rfl

theorem process_is_slave (s : OtState) (now : Nat) :
    (process s now).esp_ot_is_slave = s.esp_ot_is_slave := by
  unfold process esp_ot_process_response
  simp only
  split_ifs <;> rfl

/-- A call of `process` in `OT_DELAY`. -/
theorem process_delay_eq (s : OtState) (now : Nat) (hs : s.esp_ot_status = OT_DELAY) :
    process s now =
      if sub32 (now % 2 ^ 32) s.esp_ot_response_timestamp
          > (if s.esp_ot_is_slave then 20000 else 100000)
      then { s with esp_ot_status := OT_READY } else s := by
  unfold process
  simp [hs]

/-- A call of `process` in `OT_RESPONSE_READY` before the timeout. -/
theorem process_response_ready_eq (s : OtState) (now : Nat)
    (hs : s.esp_ot_status = OT_RESPONSE_READY)
    (ht : sub32 (now % 2 ^ 32) s.esp_ot_response_timestamp ≤ 1000000) :
    process s now =
      esp_ot_process_response
        { s with esp_ot_status := OT_DELAY,
                 esp_ot_response_status :=
                   if (if s.esp_ot_is_slave then esp_ot_is_valid_request s.response
                       else esp_ot_is_valid_response s.response)
                   then OT_STATUS_SUCCESS else OT_STATUS_INVALID } := by
  have ht2 : ¬ sub32 (now % 4294967296) s.esp_ot_response_timestamp > 1000000 := by
    simpa using ht
  unfold process
  simp only [hs, Nat.reducePow, ht2]
  simp

/-- A call of `process` in `OT_RESPONSE_INVALID` before the timeout. -/
theorem process_response_invalid_eq (s : OtState) (now : Nat)
    (hs : s.esp_ot_status = OT_RESPONSE_INVALID)
    (ht : sub32 (now % 2 ^ 32) s.esp_ot_response_timestamp ≤ 1000000) :
    process s now =
      esp_ot_process_response
        { s with esp_ot_status := OT_DELAY, esp_ot_response_status := OT_STATUS_INVALID } := by
  have ht2 : ¬ sub32 (now % 4294967296) s.esp_ot_response_timestamp > 1000000 := by
    simpa using ht
  unfold process
  simp only [hs, Nat.reducePow, ht2]
  simp

/-! ## The claims (continued) -/

/-- C17. Tick timeout: for every status in {`OT_REQUEST_SENDING`,
`OT_RESPONSE_WAITING`, `OT_RESPONSE_START_BIT`, `OT_RESPONSE_RECEIVING`,
`OT_RESPONSE_READY`, `OT_RESPONSE_INVALID`}, if `process` is called with
`(now - timestamp) > 1000000` then afterwards the status is `OT_READY`, the
last response status is `OT_STATUS_TIMEOUT` and the installed callback has been
invoked exactly once, with the current response and `OT_STATUS_TIMEOUT`; a
further call of `process` in `OT_READY` changes nothing and invokes no
callback. -/
theorem tick_timeout (s : OtState) (now later : Nat)
    (hst : s.esp_ot_status = OT_REQUEST_SENDING ∨ s.esp_ot_status = OT_RESPONSE_WAITING
      ∨ s.esp_ot_status = OT_RESPONSE_START_BIT ∨ s.esp_ot_status = OT_RESPONSE_RECEIVING
      ∨ s.esp_ot_status = OT_RESPONSE_READY ∨ s.esp_ot_status = OT_RESPONSE_INVALID)
    (hcb : s.callback_set = true)
    (hto : sub32 (now % 2 ^ 32) s.esp_ot_response_timestamp > 1000000) :
    (process s now).esp_ot_status = OT_READY
      ∧ (process s now).esp_ot_response_status = OT_STATUS_TIMEOUT
      ∧ (process s now).callback_calls = s.callback_calls ++ [(s.response, OT_STATUS_TIMEOUT)]
      ∧ (process s now).response = s.response
      ∧ process (process s now) later = process s now := by
  have hne : s.esp_ot_status ≠ OT_READY ∧ s.esp_ot_status ≠ OT_NOT_INITIALIZED
      ∧ s.esp_ot_status ≠ OT_DELAY := by
    rcases hst with h | h | h | h | h | h <;> rw [h] <;> decide
  have hp := process_timeout_eq s now hne hto
  have hready : (process s now).esp_ot_status = OT_READY := by
    rw [hp]; simp [esp_ot_process_response, hcb]
  refine ⟨hready, ?_, ?_, ?_, process_ready_eq _ later hready⟩
  · rw [hp]; simp [esp_ot_process_response, hcb]
  · rw [hp]; simp [esp_ot_process_response, hcb]
  · rw [hp]; simp [esp_ot_process_response, hcb]

/-- Witness of C17: master role, waiting for a response since clock value 1000,
`process` called at 1001001 and again at 1001002. -/
theorem tick_timeout_witness :
    (((sampleState false OT_RESPONSE_WAITING 0).esp_ot_status = OT_REQUEST_SENDING
        ∨ (sampleState false OT_RESPONSE_WAITING 0).esp_ot_status = OT_RESPONSE_WAITING
        ∨ (sampleState false OT_RESPONSE_WAITING 0).esp_ot_status = OT_RESPONSE_START_BIT
        ∨ (sampleState false OT_RESPONSE_WAITING 0).esp_ot_status = OT_RESPONSE_RECEIVING
        ∨ (sampleState false OT_RESPONSE_WAITING 0).esp_ot_status = OT_RESPONSE_READY
        ∨ (sampleState false OT_RESPONSE_WAITING 0).esp_ot_status = OT_RESPONSE_INVALID)
      ∧ (sampleState false OT_RESPONSE_WAITING 0).callback_set = true
      ∧ sub32 (1001001 % 2 ^ 32)
          (sampleState false OT_RESPONSE_WAITING 0).esp_ot_response_timestamp > 1000000)
    ∧ ((process (sampleState false OT_RESPONSE_WAITING 0) 1001001).esp_ot_status = OT_READY
      ∧ (process (sampleState false OT_RESPONSE_WAITING 0) 1001001).esp_ot_response_status
          = OT_STATUS_TIMEOUT
      ∧ (process (sampleState false OT_RESPONSE_WAITING 0) 1001001).callback_calls
          = (sampleState false OT_RESPONSE_WAITING 0).callback_calls
              ++ [((sampleState false OT_RESPONSE_WAITING 0).response, OT_STATUS_TIMEOUT)]
      ∧ (process (sampleState false OT_RESPONSE_WAITING 0) 1001001).response
          = (sampleState false OT_RESPONSE_WAITING 0).response
      ∧ process (process (sampleState false OT_RESPONSE_WAITING 0) 1001001) 1001002
          = process (sampleState false OT_RESPONSE_WAITING 0) 1001001) :=
  ⟨⟨Or.inr (Or.inl rfl), rfl, by decide⟩,
    tick_timeout (sampleState false OT_RESPONSE_WAITING 0) 1001001 1001002
      (Or.inr (Or.inl rfl)) rfl (by decide)⟩

/-- C18. Tick on a completed frame: when `process` is called with status
`OT_RESPONSE_READY` and elapsed time at most 1000000 us, the status becomes
`OT_DELAY`, the installed callback is invoked once, and the last response
status is `OT_STATUS_SUCCESS` iff `esp_ot_is_valid_request response` in slave
role or `esp_ot_is_valid_response response` in master role, otherwise
`OT_STATUS_INVALID`; `process` never modifies the response accumulator, so a
frame of type `OT_DATA_INVALID` (6) received in master role (state `m`) gives
`OT_STATUS_INVALID` while `esp_ot_get_last_response` still returns the raw
frame. -/
theorem tick_completed_frame (s m : OtState) (now nowm : Nat)
    (hs : s.esp_ot_status = OT_RESPONSE_READY) (hcb : s.callback_set = true)
    (ht : sub32 (now % 2 ^ 32) s.esp_ot_response_timestamp ≤ 1000000)
    (hmrole : m.esp_ot_is_slave = false) (hms : m.esp_ot_status = OT_RESPONSE_READY)
    (hmtype : esp_ot_get_message_type m.response = OT_DATA_INVALID)
    (hmt : sub32 (nowm % 2 ^ 32) m.esp_ot_response_timestamp ≤ 1000000) :
    (process s now).esp_ot_status = OT_DELAY
      ∧ (process s now).callback_calls
          = s.callback_calls ++ [(s.response, (process s now).esp_ot_response_status)]
      ∧ ((process s now).esp_ot_response_status = OT_STATUS_SUCCESS ↔
          (s.esp_ot_is_slave = true ∧ esp_ot_is_valid_request s.response = true)
            ∨ (s.esp_ot_is_slave = false ∧ esp_ot_is_valid_response s.response = true))
      ∧ ((process s now).esp_ot_response_status = OT_STATUS_SUCCESS
          ∨ (process s now).esp_ot_response_status = OT_STATUS_INVALID)
      ∧ (∀ (x : OtState) (n : Nat), (process x n).response = x.response)
      ∧ (process m nowm).esp_ot_response_status = OT_STATUS_INVALID
      ∧ esp_ot_get_last_response (process m nowm) = m.response := by
  have hp := process_response_ready_eq s now hs ht
  have hpm := process_response_ready_eq m nowm hms hmt
  have hinv : esp_ot_is_valid_response m.response = false := by
    have h6 : m.response / 2 ^ 28 % 8 = 6 := by
      rw [← esp_ot_get_message_type_eq]; exact hmtype
    cases hv : esp_ot_is_valid_response m.response with
    | false => rfl
    | true =>
      have := ((esp_ot_is_valid_response_iff m.response).1 hv).2
      omega
  refine ⟨?_, ?_, ?_, ?_, process_response, ?_, ?_⟩
  · rw [hp]; simp [esp_ot_process_response, hcb]
  · rw [hp]; simp [esp_ot_process_response, hcb]
  · rw [hp]
    cases hsl : s.esp_ot_is_slave <;>
      cases hq : esp_ot_is_valid_request s.response <;>
      cases hr : esp_ot_is_valid_response s.response <;>
      simp [esp_ot_process_response, hcb, hsl, hq, hr]
  · rw [hp]
    cases hsl : s.esp_ot_is_slave <;>
      cases hq : esp_ot_is_valid_request s.response <;>
      cases hr : esp_ot_is_valid_response s.response <;>
      simp [esp_ot_process_response, hcb, hsl, hq, hr]
  · rw [hpm]
    cases hc : m.callback_set <;> simp [esp_ot_process_response, hc, hmrole, hinv]
  · rw [esp_ot_get_last_response, process_response]

/-- Witness of C18: a slave-role state holding the request `0x00190000`, and a
master-role state holding the `OT_DATA_INVALID` frame `0x60190000`. -/
theorem tick_completed_frame_witness :
    ((sampleState true OT_RESPONSE_READY 0x00190000).esp_ot_status = OT_RESPONSE_READY
      ∧ (sampleState true OT_RESPONSE_READY 0x00190000).callback_set = true
      ∧ sub32 (2000 % 2 ^ 32)
          (sampleState true OT_RESPONSE_READY 0x00190000).esp_ot_response_timestamp ≤ 1000000
      ∧ (sampleState false OT_RESPONSE_READY 0x60190000).esp_ot_is_slave = false
      ∧ (sampleState false OT_RESPONSE_READY 0x60190000).esp_ot_status = OT_RESPONSE_READY
      ∧ esp_ot_get_message_type (sampleState false OT_RESPONSE_READY 0x60190000).response
          = OT_DATA_INVALID
      ∧ sub32 (3000 % 2 ^ 32)
          (sampleState false OT_RESPONSE_READY 0x60190000).esp_ot_response_timestamp ≤ 1000000)
    ∧ ((process (sampleState true OT_RESPONSE_READY 0x00190000) 2000).esp_ot_status = OT_DELAY
      ∧ (process (sampleState true OT_RESPONSE_READY 0x00190000) 2000).callback_calls
          = (sampleState true OT_RESPONSE_READY 0x00190000).callback_calls
            ++ [((sampleState true OT_RESPONSE_READY 0x00190000).response,
                (process (sampleState true OT_RESPONSE_READY 0x00190000)
                  2000).esp_ot_response_status)]
      ∧ ((process (sampleState true OT_RESPONSE_READY 0x00190000) 2000).esp_ot_response_status
            = OT_STATUS_SUCCESS ↔
          ((sampleState true OT_RESPONSE_READY 0x00190000).esp_ot_is_slave = true
              ∧ esp_ot_is_valid_request
                  (sampleState true OT_RESPONSE_READY 0x00190000).response = true)
            ∨ ((sampleState true OT_RESPONSE_READY 0x00190000).esp_ot_is_slave = false
              ∧ esp_ot_is_valid_response
                  (sampleState true OT_RESPONSE_READY 0x00190000).response = true))
      ∧ ((process (sampleState true OT_RESPONSE_READY 0x00190000) 2000).esp_ot_response_status
            = OT_STATUS_SUCCESS
          ∨ (process (sampleState true OT_RESPONSE_READY 0x00190000)
              2000).esp_ot_response_status = OT_STATUS_INVALID)
      ∧ (∀ (x : OtState) (n : Nat), (process x n).response = x.response)
      ∧ (process (sampleState false OT_RESPONSE_READY 0x60190000) 3000).esp_ot_response_status
          = OT_STATUS_INVALID
      ∧ esp_ot_get_last_response (process (sampleState false OT_RESPONSE_READY 0x60190000) 3000)
          = (sampleState false OT_RESPONSE_READY 0x60190000).response) :=
  ⟨⟨rfl, rfl, by decide, rfl, rfl, by decide, by decide⟩,
    tick_completed_frame (sampleState true OT_RESPONSE_READY 0x00190000)
      (sampleState false OT_RESPONSE_READY 0x60190000) 2000 3000
      rfl rfl (by decide) rfl rfl (by decide) (by decide)⟩

/-- C19. Inter-frame gap: when `process` is called with status `OT_DELAY`, the
status becomes `OT_READY` iff `(now - timestamp) > 100000` us in master role or
`> 20000` us in slave role, and otherwise stays `OT_DELAY`; in both cases the
last response status and the response are unchanged and no callback is
invoked; `esp_ot_send_request_async` refuses to start a transmission in
`OT_DELAY` (it returns false, emits nothing and changes nothing), and after the
call of `process` it accepts one exactly when that gap has elapsed since the
recorded timestamp. -/
theorem tick_delay (s : OtState) (now request done : Nat)
    (hs : s.esp_ot_status = OT_DELAY) :
    ((process s now).esp_ot_status = OT_READY ↔
        (s.esp_ot_is_slave = false
            ∧ sub32 (now % 2 ^ 32) s.esp_ot_response_timestamp > 100000)
          ∨ (s.esp_ot_is_slave = true
            ∧ sub32 (now % 2 ^ 32) s.esp_ot_response_timestamp > 20000))
      ∧ ((process s now).esp_ot_status = OT_READY ∨ (process s now).esp_ot_status = OT_DELAY)
      ∧ (process s now).esp_ot_response_status = s.esp_ot_response_status
      ∧ (process s now).response = s.response
      ∧ (process s now).callback_calls = s.callback_calls
      ∧ esp_ot_send_request_async s request done = (false, [], s)
      ∧ ((esp_ot_send_request_async (process s now) request done).1 = true ↔
          (s.esp_ot_is_slave = false
              ∧ sub32 (now % 2 ^ 32) s.esp_ot_response_timestamp > 100000)
            ∨ (s.esp_ot_is_slave = true
              ∧ sub32 (now % 2 ^ 32) s.esp_ot_response_timestamp > 20000)) := by
  have hp := process_delay_eq s now hs
  have hasync : esp_ot_send_request_async s request done = (false, [], s) := by
    simp [esp_ot_send_request_async, esp_ot_is_ready, hs]
  generalize sub32 (now % 2 ^ 32) s.esp_ot_response_timestamp = e at hp ⊢
  cases hsl : s.esp_ot_is_slave
  · rw [hsl] at hp
    simp only [Bool.false_eq_true, if_false] at hp
    by_cases hgap : e > 100000
    · rw [if_pos hgap] at hp
      rw [hp]
      simp [hgap, hasync, hs, esp_ot_send_request_async, esp_ot_is_ready]
    · rw [if_neg hgap] at hp
      rw [hp]
      simp [hgap, hasync, hs]
  · rw [hsl] at hp
    simp only [if_true] at hp
    by_cases hgap : e > 20000
    · rw [if_pos hgap] at hp
      rw [hp]
      simp [hgap, hasync, hs, esp_ot_send_request_async, esp_ot_is_ready]
    · rw [if_neg hgap] at hp
      rw [hp]
      simp [hgap, hasync, hs]

/-- Witness of C19: master role, timestamp 1000, `process` called at 101000,
exactly 100000 us later, which is not yet enough. -/
theorem tick_delay_witness :
    (sampleState false OT_DELAY 0xC0193C80).esp_ot_status = OT_DELAY
    ∧ (((process (sampleState false OT_DELAY 0xC0193C80) 101000).esp_ot_status = OT_READY ↔
        ((sampleState false OT_DELAY 0xC0193C80).esp_ot_is_slave = false
            ∧ sub32 (101000 % 2 ^ 32)
                (sampleState false OT_DELAY 0xC0193C80).esp_ot_response_timestamp > 100000)
          ∨ ((sampleState false OT_DELAY 0xC0193C80).esp_ot_is_slave = true
            ∧ sub32 (101000 % 2 ^ 32)
                (sampleState false OT_DELAY 0xC0193C80).esp_ot_response_timestamp > 20000))
      ∧ ((process (sampleState false OT_DELAY 0xC0193C80) 101000).esp_ot_status = OT_READY
          ∨ (process (sampleState false OT_DELAY 0xC0193C80) 101000).esp_ot_status = OT_DELAY)
      ∧ (process (sampleState false OT_DELAY 0xC0193C80) 101000).esp_ot_response_status
          = (sampleState false OT_DELAY 0xC0193C80).esp_ot_response_status
      ∧ (process (sampleState false OT_DELAY 0xC0193C80) 101000).response
          = (sampleState false OT_DELAY 0xC0193C80).response
      ∧ (process (sampleState false OT_DELAY 0xC0193C80) 101000).callback_calls
          = (sampleState false OT_DELAY 0xC0193C80).callback_calls
      ∧ esp_ot_send_request_async (sampleState false OT_DELAY 0xC0193C80) 0x80190000 135000
          = (false, [], sampleState false OT_DELAY 0xC0193C80)
      ∧ ((esp_ot_send_request_async (process (sampleState false OT_DELAY 0xC0193C80) 101000)
            0x80190000 135000).1 = true ↔
          ((sampleState false OT_DELAY 0xC0193C80).esp_ot_is_slave = false
              ∧ sub32 (101000 % 2 ^ 32)
                  (sampleState false OT_DELAY 0xC0193C80).esp_ot_response_timestamp > 100000)
            ∨ ((sampleState false OT_DELAY 0xC0193C80).esp_ot_is_slave = true
              ∧ sub32 (101000 % 2 ^ 32)
                  (sampleState false OT_DELAY 0xC0193C80).esp_ot_response_timestamp > 20000))) :=
  ⟨rfl, tick_delay (sampleState false OT_DELAY 0xC0193C80) 101000 0x80190000 135000 rfl⟩

/-! ## Helper lemmas: the transmitter -/

theorem esp_ot_send_bit_eq (b : Bool) : esp_ot_send_bit b = manchesterCell b := by
  cases b <;> rfl

theorem bitRead_ne_zero (f k : Nat) : (bitRead f k != 0) = f.testBit k := by
  simp [bitRead, Nat.testBit, Nat.and_comm]

/-- The loop over the bits emits the cells of bits `k - 1` down to `0`. -/
theorem sendBits_eq (f : Nat) :
    ∀ k : Nat, sendBits f k
      = (List.range k).flatMap (fun j => manchesterCell (f.testBit (k - 1 - j))) := by
  intro k
  induction k with
  | zero => rfl
  | succ k ih =>
    rw [sendBits, ih, List.range_succ_eq_map, List.flatMap_cons, List.flatMap_map,
      esp_ot_send_bit_eq, bitRead_ne_zero]
    have h0 : k + 1 - 1 - 0 = k := by omega
    have hfun : ∀ j : Nat, k + 1 - 1 - Nat.succ j = k - 1 - j := by
      intro j
      omega
    simp only [h0, hfun]

theorem length_manchesterCell (b : Bool) : (manchesterCell b).length = 4 := by
  cases b <;> rfl

theorem length_flatMap_cells (g : Nat → Bool) (l : List Nat) :
    (l.flatMap (fun j => manchesterCell (g j))).length = 4 * l.length := by
  induction l with
  | nil => rfl
  | cons a l ih =>
    rw [List.flatMap_cons, List.length_append, ih, length_manchesterCell, List.length_cons]
    omega

/-- C15. `esp_ot_send_request_async` returns true iff the link status is
`OT_READY` at the call (state `r`); when the status is anything else (state
`s`, `OT_NOT_INITIALIZED` included) it returns false, emits nothing on the
output line and leaves status, response accumulator, last response status,
timestamp and bit index unchanged, and `esp_ot_send_request` then returns 0. -/
theorem send_request_async_refused (s r : OtState) (request now : Nat)
    (events : List LinkEvent) (hs : s.esp_ot_status ≠ OT_READY) :
    ((esp_ot_send_request_async r request now).1 = true ↔ r.esp_ot_status = OT_READY)
      ∧ esp_ot_send_request_async s request now = (false, [], s)
      ∧ esp_ot_send_request s request now events = some (0, s) := by
  have h1 : esp_ot_send_request_async s request now = (false, [], s) := by
    simp [esp_ot_send_request_async, esp_ot_is_ready, hs]
  refine ⟨?_, h1, ?_⟩
  · by_cases hr : r.esp_ot_status = OT_READY
    · simp [esp_ot_send_request_async, esp_ot_is_ready, hr]
    · simp [esp_ot_send_request_async, esp_ot_is_ready, hr]
  · rw [esp_ot_send_request, h1]

/-- Witness of C15: a link that was never initialised, and one that is ready. -/
theorem send_request_async_refused_witness :
    (sampleState false OT_NOT_INITIALIZED 77).esp_ot_status ≠ OT_READY
    ∧ (((esp_ot_send_request_async (sampleState false OT_READY 77) 0x80190000 34000).1 = true
          ↔ (sampleState false OT_READY 77).esp_ot_status = OT_READY)
      ∧ esp_ot_send_request_async (sampleState false OT_NOT_INITIALIZED 77) 0x80190000 34000
          = (false, [], sampleState false OT_NOT_INITIALIZED 77)
      ∧ esp_ot_send_request (sampleState false OT_NOT_INITIALIZED 77) 0x80190000 34000
          [LinkEvent.tick 40000] = some (0, sampleState false OT_NOT_INITIALIZED 77)) :=
  ⟨by decide,
    send_request_async_refused (sampleState false OT_NOT_INITIALIZED 77)
      (sampleState false OT_READY 77) 0x80190000 34000 [LinkEvent.tick 40000] (by decide)⟩

/-- C16. From status `OT_READY`, for every frame `f`,
`esp_ot_send_request_async` returns true and drives the output with exactly 34
Manchester cells in order: a start cell for logical 1, the cells for bits 31
down to 0 of `f`, and a stop cell for logical 1 (a cell for 1 is active for
500 us then idle for 500 us, a cell for 0 is idle for 500 us then active for
500 us), followed by the idle level; afterwards the status is
`OT_RESPONSE_WAITING`, the response accumulator is 0, the last response status
is `OT_STATUS_NONE` and the timestamp is the current time. -/
theorem send_request_async_emits_frame (s : OtState) (f now : Nat)
    (hs : s.esp_ot_status = OT_READY) :
    (esp_ot_send_request_async s f now).1 = true
      ∧ (esp_ot_send_request_async s f now).2.1
          = manchesterCell true
            ++ (List.range 32).flatMap (fun j => manchesterCell (f.testBit (31 - j)))
            ++ manchesterCell true
            ++ [OutAction.set_level 1]
      ∧ (esp_ot_send_request_async s f now).2.1.length = 34 * 4 + 1
      ∧ (esp_ot_send_request_async s f now).2.2 =
          { s with esp_ot_status := OT_RESPONSE_WAITING, response := 0,
                   esp_ot_response_status := OT_STATUS_NONE,
                   esp_ot_response_timestamp := now % 2 ^ 32 } := by
  have hout : (esp_ot_send_request_async s f now).2.1
      = manchesterCell true
        ++ (List.range 32).flatMap (fun j => manchesterCell (f.testBit (31 - j)))
        ++ manchesterCell true
        ++ [OutAction.set_level 1] := by
    simp only [esp_ot_send_request_async, esp_ot_is_ready, hs, beq_self_eq_true, if_true,
      sendFrame, sendBits_eq, esp_ot_send_bit_eq, esp_ot_set_idle_state]
  refine ⟨?_, hout, ?_, ?_⟩
  · simp [esp_ot_send_request_async, esp_ot_is_ready, hs]
  · rw [hout]
    simp only [List.length_append, length_flatMap_cells, length_manchesterCell,
      List.length_range, List.length_singleton]
  · simp [esp_ot_send_request_async, esp_ot_is_ready, hs]

/-- Witness of C16: the request `0x80190000` sent from a ready master. -/
theorem send_request_async_emits_frame_witness :
    (sampleState false OT_READY 77).esp_ot_status = OT_READY
    ∧ ((esp_ot_send_request_async (sampleState false OT_READY 77) 0x80190000 34000).1 = true
      ∧ (esp_ot_send_request_async (sampleState false OT_READY 77) 0x80190000 34000).2.1
          = manchesterCell true
            ++ (List.range 32).flatMap
                (fun j => manchesterCell (Nat.testBit 0x80190000 (31 - j)))
            ++ manchesterCell true
            ++ [OutAction.set_level 1]
      ∧ (esp_ot_send_request_async (sampleState false OT_READY 77) 0x80190000
          34000).2.1.length = 34 * 4 + 1
      ∧ (esp_ot_send_request_async (sampleState false OT_READY 77) 0x80190000 34000).2.2 =
          { sampleState false OT_READY 77 with
              esp_ot_status := OT_RESPONSE_WAITING, response := 0,
              esp_ot_response_status := OT_STATUS_NONE,
              esp_ot_response_timestamp := 34000 % 2 ^ 32 }) :=
  ⟨rfl, send_request_async_emits_frame (sampleState false OT_READY 77) 0x80190000 34000 rfl⟩

/-! ## Helper lemmas: temperature payload -/

/-- On a non-negative value in range the conversion to `unsigned int` is the
floor. -/
theorem floatToUInt_eq_floor (x : ℚ) (h0 : 0 ≤ x) (h1 : x < 4294967296) :
    floatToUInt x = ⌊x⌋.toNat := by
  have hnum : 0 ≤ x.num := Rat.num_nonneg.2 h0
  have hden : (0 : Int) ≤ (x.den : Int) := Int.ofNat_nonneg _
  have hfl0 : 0 ≤ ⌊x⌋ := Int.floor_nonneg.2 h0
  have hfl1 : ⌊x⌋ < 4294967296 := Int.floor_lt.2 (by exact_mod_cast h1)
  unfold floatToUInt
  rw [Int.tdiv_eq_ediv hnum hden, ← Rat.floor_def]
  omega

/-- The two `if` statements of `esp_ot_temperature_to_data` clamp to `[0, 100]`. -/
theorem clamp_eq (t : ℚ) :
    (if (if t < 0 then 0 else t) > 100 then 100 else (if t < 0 then 0 else t))
      = max 0 (min t 100) := by
  by_cases h1 : t < 0
  · have h2 : min t 100 = t := min_eq_left (by linarith)
    have h3 : max 0 t = 0 := max_eq_left (by linarith)
    rw [if_pos h1, if_neg (by norm_num), h2, h3]
  · by_cases h4 : t > 100
    · have h2 : min t 100 = 100 := min_eq_right (by linarith)
      rw [if_neg h1, if_pos h4, h2]
      norm_num
    · have h2 : min t 100 = t := min_eq_left (by linarith)
      have h3 : max 0 t = t := max_eq_right (by linarith)
      rw [if_neg h1, if_neg h4, h2, h3]

theorem esp_ot_temperature_to_data_eq (t : ℚ) :
    esp_ot_temperature_to_data t = ⌊max 0 (min t 100) * 256⌋.toNat := by
  have hlo : (0 : ℚ) ≤ max 0 (min t 100) := le_max_left _ _
  have hhi : max 0 (min t 100) ≤ (100 : ℚ) := max_le (by norm_num) (min_le_right _ _)
  unfold esp_ot_temperature_to_data
  simp only [clamp_eq]
  exact floatToUInt_eq_floor _ (by linarith) (by linarith)

theorem esp_ot_temperature_to_data_cases (t : ℚ) :
    esp_ot_temperature_to_data t
      = (if t < 0 then 0 else if t > 100 then 25600 else ⌊t * 256⌋.toNat) := by
  rw [esp_ot_temperature_to_data_eq, ← clamp_eq]
  by_cases h1 : t < 0
  · rw [if_pos h1, if_neg (by norm_num), if_pos h1]
    simp
  · by_cases h4 : t > 100
    · rw [if_neg h1, if_pos h4, if_neg h1, if_pos h4]
      have h : ((100 : ℚ) * 256) = ((25600 : ℤ) : ℚ) := by norm_num
      rw [h, Int.floor_intCast]
      rfl
    · rw [if_neg h1, if_neg h4, if_neg h1, if_neg h4]

theorem esp_ot_temperature_to_data_le (t : ℚ) : esp_ot_temperature_to_data t ≤ 25600 := by
  have hhi : max 0 (min t 100) ≤ (100 : ℚ) := max_le (by norm_num) (min_le_right _ _)
  have hfl : ⌊max 0 (min t 100) * 256⌋ < 25601 := Int.floor_lt.2 (by push_cast; linarith)
  rw [esp_ot_temperature_to_data_eq]
  omega

/-- The fields read back from a frame made by the request builder. -/
theorem build_request_getters (t id d : Nat) (hid : id < 256) (hd : d < 65536) :
    esp_ot_get_uint (esp_ot_build_request t id d) = d
      ∧ esp_ot_get_data_id (esp_ot_build_request t id d) = id
      ∧ esp_ot_get_message_type (esp_ot_build_request t id d)
          = (if t = OT_WRITE_DATA then OT_WRITE_DATA else OT_READ_DATA) := by
  obtain ⟨c, w, hc, hw, hF⟩ := esp_ot_build_request_fields t id d hid hd
  have h255 : ∀ x : Nat, x &&& 0xFF = x % 256 := fun x => Nat.and_pow_two_sub_one_eq_mod x 8
  have h65535 : ∀ x : Nat, x &&& 0xffff = x % 65536 :=
    fun x => Nat.and_pow_two_sub_one_eq_mod x 16
  generalize esp_ot_build_request t id d = F at hF
  subst hF
  simp only [esp_ot_get_message_type_eq, esp_ot_get_data_id, esp_ot_get_uint, h255, h65535,
    Nat.shiftRight_eq_div_pow, OT_WRITE_DATA, OT_READ_DATA] at hw ⊢
  by_cases h : t = 1
  · rw [if_pos h] at hw
    simp only [h, if_true]
    refine ⟨by omega, by omega, by omega⟩
  · rw [if_neg h] at hw
    simp only [h, if_false]
    refine ⟨by omega, by omega, by omega⟩

/-- The data field read back from a frame made by the response builder. -/
theorem get_uint_build_response (t id d : Nat) (ht : t < 8) (hid : id < 256)
    (hd : d < 65536) : esp_ot_get_uint (esp_ot_build_response t id d) = d := by
  have h65535 : ∀ x : Nat, x &&& 0xffff = x % 65536 :=
    fun x => Nat.and_pow_two_sub_one_eq_mod x 16
  rw [esp_ot_build_response_eq t id d ht hid hd]
  simp only [esp_ot_get_uint, h65535]
  split <;> omega

/-- A payload below `0x8000` is read as a non-negative Q8.8 value. -/
theorem esp_ot_get_float_of_lt (f : Nat) (h : esp_ot_get_uint f < 32768) :
    esp_ot_get_float f = (esp_ot_get_uint f : ℚ) / 256 := by
  have hbit : (esp_ot_get_uint f).testBit 15 = false :=
    Nat.testBit_lt_two_pow (by omega)
  have hand : esp_ot_get_uint f &&& 0x8000 = 0 := by
    have h2 : (0x8000 : Nat) = 2 ^ 15 := by decide
    rw [h2, Nat.and_two_pow, hbit]
    rfl
  unfold esp_ot_get_float
  simp only [hand, ne_eq, not_true_eq_false, if_false]

/-- C11. For every temperature `t`, `esp_ot_temperature_to_data t` is
`floor(clamp(t, 0, 100) * 256)`: it is 0 for every `t < 0`, 25600 (`0x6400`)
for every `t > 100`, and `round_down(t * 256)` for `t` in `[0, 100]`;
consequently `esp_ot_build_set_boiler_temperature_request 150` carries payload
25600 and `esp_ot_build_set_boiler_temperature_request (-5)` carries payload 0,
with type `OT_WRITE_DATA` and data id 1. -/
theorem temperature_to_data_clamped (t : ℚ) :
    esp_ot_temperature_to_data t = ⌊max 0 (min t 100) * 256⌋.toNat
      ∧ esp_ot_temperature_to_data t
          = (if t < 0 then 0 else if t > 100 then 25600 else ⌊t * 256⌋.toNat)
      ∧ esp_ot_get_uint (esp_ot_build_set_boiler_temperature_request 150) = 25600
      ∧ esp_ot_get_message_type (esp_ot_build_set_boiler_temperature_request 150)
          = OT_WRITE_DATA
      ∧ esp_ot_get_data_id (esp_ot_build_set_boiler_temperature_request 150) = 1
      ∧ esp_ot_get_uint (esp_ot_build_set_boiler_temperature_request (-5)) = 0
      ∧ esp_ot_get_message_type (esp_ot_build_set_boiler_temperature_request (-5))
          = OT_WRITE_DATA
      ∧ esp_ot_get_data_id (esp_ot_build_set_boiler_temperature_request (-5)) = 1 := by
  have h150 : esp_ot_temperature_to_data 150 = 25600 := by
    rw [esp_ot_temperature_to_data_cases, if_neg (by norm_num), if_pos (by norm_num)]
  have hm5 : esp_ot_temperature_to_data (-5) = 0 := by
    rw [esp_ot_temperature_to_data_cases, if_pos (by norm_num)]
  have g1 := build_request_getters OT_WRITE_DATA MSG_ID_T_SET 25600 (by decide) (by decide)
  have g2 := build_request_getters OT_WRITE_DATA MSG_ID_T_SET 0 (by decide) (by decide)
  refine ⟨esp_ot_temperature_to_data_eq t, esp_ot_temperature_to_data_cases t, ?_, ?_, ?_,
    ?_, ?_, ?_⟩
  · rw [esp_ot_build_set_boiler_temperature_request, h150]; exact g1.1
  · rw [esp_ot_build_set_boiler_temperature_request, h150]; exact g1.2.2
  · rw [esp_ot_build_set_boiler_temperature_request, h150]; exact g1.2.1
  · rw [esp_ot_build_set_boiler_temperature_request, hm5]; exact g2.1
  · rw [esp_ot_build_set_boiler_temperature_request, hm5]; exact g2.2.2
  · rw [esp_ot_build_set_boiler_temperature_request, hm5]; exact g2.2.1

/-- C12. Temperature round trip: for every `t` in `[0, 100]` and every
`id < 256`, `esp_ot_get_float (esp_ot_build_response OT_READ_ACK id
(esp_ot_temperature_to_data t))` never exceeds `t` and differs from it by less
than `1 / 256`. -/
theorem temperature_round_trip (t : ℚ) (id : Nat) (h0 : 0 ≤ t) (h100 : t ≤ 100)
    (hid : id < 256) :
    esp_ot_get_float (esp_ot_build_response OT_READ_ACK id (esp_ot_temperature_to_data t)) ≤ t
      ∧ t - esp_ot_get_float
              (esp_ot_build_response OT_READ_ACK id (esp_ot_temperature_to_data t))
          < 1 / 256 := by
  have hle := esp_ot_temperature_to_data_le t
  have hu := get_uint_build_response OT_READ_ACK id (esp_ot_temperature_to_data t)
    (by decide) hid (by omega)
  have hfloat := esp_ot_get_float_of_lt
    (esp_ot_build_response OT_READ_ACK id (esp_ot_temperature_to_data t)) (by omega)
  have hdata : esp_ot_temperature_to_data t = ⌊t * 256⌋.toNat := by
    rw [esp_ot_temperature_to_data_cases, if_neg (by linarith), if_neg (by linarith)]
  have hfl0 : 0 ≤ ⌊t * 256⌋ := Int.floor_nonneg.2 (by linarith)
  have hcast : ((⌊t * 256⌋.toNat : Nat) : ℚ) = ((⌊t * 256⌋ : Int) : ℚ) := by
    have := Int.toNat_of_nonneg hfl0
    exact_mod_cast this
  have h1 : ((⌊t * 256⌋ : Int) : ℚ) ≤ t * 256 := Int.floor_le _
  have h2 : t * 256 < ((⌊t * 256⌋ : Int) : ℚ) + 1 := Int.lt_floor_add_one _
  rw [hfloat, hu, hdata, hcast]
  constructor
  · linarith
  · linarith

/-- Witness of C12 at 60.7 degrees and data id 25. -/
theorem temperature_round_trip_witness :
    ((0 : ℚ) ≤ 607 / 10 ∧ (607 / 10 : ℚ) ≤ 100 ∧ 25 < 256)
    ∧ (esp_ot_get_float
          (esp_ot_build_response OT_READ_ACK 25 (esp_ot_temperature_to_data (607 / 10)))
          ≤ 607 / 10
      ∧ (607 / 10 : ℚ) - esp_ot_get_float
            (esp_ot_build_response OT_READ_ACK 25 (esp_ot_temperature_to_data (607 / 10)))
          < 1 / 256) :=
  ⟨⟨by norm_num, by norm_num, by decide⟩,
    temperature_round_trip (607 / 10) 25 (by norm_num) (by norm_num) (by decide)⟩

/-! ## Helper lemmas: runs of the synchronous request in master role -/

theorem waitLoop_edgeEvents (edges : List (Nat × Nat)) (rest : List LinkEvent) :
    ∀ s : OtState, waitLoop s (edgeEvents edges ++ rest) = waitLoop (runEdges s edges) rest := by
  induction edges with
  | nil => intro s; rfl
  | cons e es ih =>
    intro s
    simp only [edgeEvents, List.map_cons, List.cons_append, waitLoop, runEdges, List.foldl_cons]
    exact ih _

theorem masterExchange_handle (s : OtState) (line now : Nat) (h : masterExchange s) :
    masterExchange (esp_ot_handle_interrupt s line now) := by
  obtain ⟨hm, h1, h2, h3, h4⟩ := h
  unfold masterExchange esp_ot_handle_interrupt
  cases hst : s.esp_ot_status <;> simp only [hst] at h1 h2 h3 h4 <;>
    simp [hst, hm] <;> (try split_ifs) <;> simp_all

theorem masterExchange_process (s : OtState) (now : Nat) (h : masterExchange s) :
    masterExchange (process s now) := by
  obtain ⟨hm, h1, h2, h3, h4⟩ := h
  have hzero : esp_ot_is_valid_response 0 = false := by
    cases hv : esp_ot_is_valid_response 0 with
    | false => rfl
    | true =>
      have := ((esp_ot_is_valid_response_iff 0).1 hv).2
      omega
  unfold masterExchange process esp_ot_process_response
  cases hst : s.esp_ot_status <;> simp only [hst] at h1 h2 h3 h4 <;>
    simp [hst, hm] <;> (try split_ifs) <;> simp_all

/-- The loop of the synchronous request keeps `masterExchange` and ends in
`OT_READY`. -/
theorem waitLoop_masterExchange (events : List LinkEvent) :
    ∀ s s' : OtState, masterExchange s → waitLoop s events = some s' →
      masterExchange s' ∧ s'.esp_ot_status = OT_READY := by
  induction events with
  | nil =>
    intro s s' h hrun
    simp only [waitLoop, esp_ot_is_ready] at hrun
    by_cases hr : s.esp_ot_status = OT_READY
    · simp only [hr, beq_self_eq_true, if_true, Option.some.injEq] at hrun
      subst hrun
      exact ⟨h, hr⟩
    · simp [hr] at hrun
  | cons e es ih =>
    intro s s' h hrun
    cases e with
    | edge line now =>
      simp only [waitLoop] at hrun
      exact ih _ _ (masterExchange_handle s line now h) hrun
    | tick now =>
      simp only [waitLoop, esp_ot_is_ready] at hrun
      by_cases hr : s.esp_ot_status = OT_READY
      · simp only [hr, beq_self_eq_true, if_true, Option.some.injEq] at hrun
        subst hrun
        exact ⟨h, hr⟩
      · simp only [beq_iff_eq, hr, if_false] at hrun
        exact ih _ _ (masterExchange_process s now h) hrun

/-- The state in which `esp_ot_send_request_async` leaves a ready master. -/
theorem masterExchange_async (s : OtState) (request now : Nat)
    (hm : s.esp_ot_is_slave = false) (hs : s.esp_ot_status = OT_READY) :
    esp_ot_send_request_async s request now =
        (true, sendFrame request,
          { s with esp_ot_status := OT_RESPONSE_WAITING, response := 0,
                   esp_ot_response_status := OT_STATUS_NONE,
                   esp_ot_response_timestamp := now % 2 ^ 32 })
      ∧ masterExchange
          { s with esp_ot_status := OT_RESPONSE_WAITING, response := 0,
                   esp_ot_response_status := OT_STATUS_NONE,
                   esp_ot_response_timestamp := now % 2 ^ 32 } := by
  constructor
  · simp [esp_ot_send_request_async, esp_ot_is_ready, hs]
  · simp [masterExchange, hm]

theorem waitLoop_ready_ticks (ticks : List Nat) (s : OtState)
    (hs : s.esp_ot_status = OT_READY) : waitLoop s (ticks.map LinkEvent.tick) = some s := by
  cases ticks with
  | nil => simp [waitLoop, esp_ot_is_ready, hs]
  | cons n rest => simp [waitLoop, esp_ot_is_ready, hs]

/-- A run without any input edge can only end by the timeout, with the
accumulator still 0. -/
theorem waitLoop_ticks (ticks : List Nat) :
    ∀ s s' : OtState, s.esp_ot_status = OT_RESPONSE_WAITING → s.response = 0 →
      waitLoop s (ticks.map LinkEvent.tick) = some s' →
      s'.response = 0 ∧ s'.esp_ot_response_status = OT_STATUS_TIMEOUT := by
  induction ticks with
  | nil =>
    intro s s' hs _ hrun
    simp [waitLoop, esp_ot_is_ready, hs] at hrun
  | cons n rest ih =>
    intro s s' hs hr hrun
    simp only [List.map_cons, waitLoop, esp_ot_is_ready, hs] at hrun
    have hnr : (OT_RESPONSE_WAITING == OT_READY) = false := by decide
    rw [hnr] at hrun
    simp only [Bool.false_eq_true, if_false] at hrun
    by_cases hto : sub32 (n % 2 ^ 32) s.esp_ot_response_timestamp > 1000000
    · have hp := process_timeout_eq s n (by rw [hs]; decide) hto
      have hready : (process s n).esp_ot_status = OT_READY := by
        rw [hp]; cases hc : s.callback_set <;> simp [esp_ot_process_response, hc]
      rw [waitLoop_ready_ticks rest _ hready, Option.some.injEq] at hrun
      subst hrun
      rw [hp]
      cases hc : s.callback_set <;> simp [esp_ot_process_response, hc, hr]
    · have hto2 : ¬ sub32 (n % 4294967296) s.esp_ot_response_timestamp > 1000000 := by
        simpa using hto
      have hp : process s n = s := by
        unfold process
        simp [hs, hto2]
      rw [hp] at hrun
      exact ih s s' hs hr hrun

/-- A complete nominally timed frame followed by a call of `process` within
the second, one after the inter-frame gap, and the loop test: the synchronous
wait ends with the frame in the accumulator and the verdict of the validity
check as last response status. -/
theorem waitLoop_frame (s : OtState) (f t0 n1 n2 n3 : Nat) (boundary : Nat → Option Nat)
    (hm : s.esp_ot_is_slave = false) (hs : s.esp_ot_status = OT_RESPONSE_WAITING)
    (hf : f < 2 ^ 32) (hr : s.response < 2 ^ 32)
    (h1 : sub32 (n1 % 2 ^ 32) ((t0 + 33500) % 2 ^ 32) ≤ 1000000)
    (h2 : sub32 (n2 % 2 ^ 32) ((t0 + 33500) % 2 ^ 32) > 100000) :
    ∃ s' : OtState,
      waitLoop s (edgeEvents (frameEdges t0 f boundary)
          ++ [LinkEvent.tick n1, LinkEvent.tick n2, LinkEvent.tick n3]) = some s'
        ∧ s'.response = f
        ∧ s'.esp_ot_status = OT_READY
        ∧ s'.esp_ot_response_status
            = (if esp_ot_is_valid_response f then OT_STATUS_SUCCESS else OT_STATUS_INVALID) := by
  rw [waitLoop_edgeEvents, runEdges_frameEdges s f t0 boundary hs hf hr]
  generalize hs2 :
    ({ s with esp_ot_status := OT_RESPONSE_READY,
              response := f,
              esp_ot_response_timestamp := (t0 + 33500) % 2 ^ 32,
              esp_ot_response_bit_index := 32 } : OtState) = s2
  have hst2 : s2.esp_ot_status = OT_RESPONSE_READY := by rw [← hs2]
  have hts2 : s2.esp_ot_response_timestamp = (t0 + 33500) % 2 ^ 32 := by rw [← hs2]
  have hr2 : s2.response = f := by rw [← hs2]
  have hm2 : s2.esp_ot_is_slave = false := by rw [← hs2]; exact hm
  have hp1 := process_response_ready_eq s2 n1 hst2 (by rw [hts2]; exact h1)
  rw [hm2, hr2] at hp1
  simp only [Bool.false_eq_true, if_false] at hp1
  generalize hs3 : process s2 n1 = s3 at hp1
  have hst3 : s3.esp_ot_status = OT_DELAY := by
    rw [hp1]; cases hc : s2.callback_set <;> simp [esp_ot_process_response, hc]
  have hts3 : s3.esp_ot_response_timestamp = (t0 + 33500) % 2 ^ 32 := by
    rw [hp1, ← hts2]; cases hc : s2.callback_set <;> simp [esp_ot_process_response, hc]
  have hm3 : s3.esp_ot_is_slave = false := by
    rw [hp1, ← hm2]; cases hc : s2.callback_set <;> simp [esp_ot_process_response, hc]
  have hr3 : s3.response = f := by
    rw [hp1, ← hr2]; cases hc : s2.callback_set <;> simp [esp_ot_process_response, hc]
  have hl3 : s3.esp_ot_response_status
      = (if esp_ot_is_valid_response f then OT_STATUS_SUCCESS else OT_STATUS_INVALID) := by
    rw [hp1]; cases hc : s2.callback_set <;> simp [esp_ot_process_response, hc]
  have hgap : sub32 (n2 % 2 ^ 32) s3.esp_ot_response_timestamp
      > (if s3.esp_ot_is_slave then 20000 else 100000) := by
    rw [hm3, hts3]
    exact h2
  have hp2 : process s3 n2 = { s3 with esp_ot_status := OT_READY } := by
    rw [process_delay_eq s3 n2 hst3, if_pos hgap]
  refine ⟨{ s3 with esp_ot_status := OT_READY }, ?_, hr3, rfl, hl3⟩
  have hnr2 : esp_ot_is_ready s2 = false := by simp [esp_ot_is_ready, hst2]
  have hnr3 : esp_ot_is_ready s3 = false := by simp [esp_ot_is_ready, hst3]
  have hr4 : esp_ot_is_ready ({ s3 with esp_ot_status := OT_READY } : OtState) = true := by
    simp [esp_ot_is_ready]
  simp only [waitLoop, hnr2, hs3, hnr3, hp2, hr4, Bool.false_eq_true, if_false, if_true]

/-- The word `0x40193C80` (`OT_READ_ACK` with the parity bit missing) fails the
response check. -/
theorem invalid_sample_response : esp_ot_is_valid_response 0x40193C80 = false :=
  (odd_popcount_invalid 0x40193C80 (by decide) (by decide)).2

/-- The word `0x40193C81` passes the response check and reads as
`15489 / 256`. -/
theorem valid_sample_float : validFloatOrZero 0x40193C81 = 15489 / 256 := by
  have hv : esp_ot_is_valid_response 0x40193C81 = true := by
    rw [esp_ot_is_valid_response_iff, parity_eq_popcount _ (by decide)]
    decide
  have hu : esp_ot_get_uint 0x40193C81 = 15489 := by decide
  rw [validFloatOrZero, hv, if_pos rfl, esp_ot_get_float_of_lt _ (by rw [hu]; decide), hu]
  norm_num

/-- C13, as stated, fails: in master role, after the request `0x80190000`, a
complete nominally timed reply carrying `0x40193C80` (odd bit count) ends the
run with last response status `OT_STATUS_INVALID` and `esp_ot_send_request`
returns `0x40193C80`, not 0; and a reply that stops after the start bit and the
three data bits 1, 0, 1 ends the run with `OT_STATUS_TIMEOUT` and the returned
value 5. -/
theorem send_request_zero_counterexample :
    (∃ s' : OtState,
        esp_ot_send_request (sampleState false OT_READY 77) 0x80190000 34000
            (edgeEvents (frameEdges 50000 0x40193C80 (fun _ => none))
              ++ [LinkEvent.tick 90000, LinkEvent.tick 190000, LinkEvent.tick 190001])
          = some (0x40193C80, s')
        ∧ s'.esp_ot_response_status = OT_STATUS_INVALID)
      ∧ esp_ot_send_request (sampleState false OT_READY 77) 0x80190000 34000
            (edgeEvents ([(50000, 1), (50500, 0)] ++ dataEdges 5 (fun _ => none) 3 50500)
              ++ [LinkEvent.tick 60000, LinkEvent.tick 1053501, LinkEvent.tick 1053502])
          = some (5, { sampleState false OT_READY 5 with
                         esp_ot_response_status := OT_STATUS_TIMEOUT,
                         esp_ot_response_timestamp := 53500,
                         esp_ot_response_bit_index := 3,
                         callback_calls := [(5, OT_STATUS_TIMEOUT)] }) := by
  constructor
  · obtain ⟨s', hw, hr, _, hl⟩ := waitLoop_frame
      ({ sampleState false OT_READY 77 with
          esp_ot_status := OT_RESPONSE_WAITING, response := 0,
          esp_ot_response_status := OT_STATUS_NONE,
          esp_ot_response_timestamp := 34000 % 2 ^ 32 } : OtState)
      0x40193C80 50000 90000 190000 190001 (fun _ => none) rfl rfl (by decide) (by decide)
      (by decide) (by decide)
    refine ⟨s', ?_, ?_⟩
    · rw [esp_ot_send_request,
        (masterExchange_async (sampleState false OT_READY 77) 0x80190000 34000 rfl rfl).1]
      simp only [hw, Option.map_some', hr]
    · rw [hl, invalid_sample_response]
      rfl
  · set_option maxRecDepth 100000 in decide

/-- C13, amended: `esp_ot_send_request` returns the content of the response
accumulator, which is not cleared on failure.  For every run in master role
that starts from `OT_READY` and returns, the returned value is the accumulator
at the return and the link is back in `OT_READY`; when the run ends with
`OT_STATUS_SUCCESS` the value is the raw received frame (it passes
`esp_ot_is_valid_response`), when it ends with `OT_STATUS_INVALID` the value is
the raw rejected word (it fails `esp_ot_is_valid_response`), and the only other
ending is `OT_STATUS_TIMEOUT`; a run during which no input edge arrives ends
with `OT_STATUS_TIMEOUT` and returns 0. -/
theorem send_request_returns_accumulator (s : OtState) (request now : Nat)
    (events : List LinkEvent) (ticks : List Nat) (v v0 : Nat) (s' s0 : OtState)
    (hm : s.esp_ot_is_slave = false) (hs : s.esp_ot_status = OT_READY)
    (hrun : esp_ot_send_request s request now events = some (v, s'))
    (hrun0 : esp_ot_send_request s request now (ticks.map LinkEvent.tick) = some (v0, s0)) :
    v = s'.response
      ∧ s'.esp_ot_status = OT_READY
      ∧ ((s'.esp_ot_response_status = OT_STATUS_SUCCESS ∧ esp_ot_is_valid_response v = true)
          ∨ (s'.esp_ot_response_status = OT_STATUS_INVALID
              ∧ esp_ot_is_valid_response v = false)
          ∨ s'.esp_ot_response_status = OT_STATUS_TIMEOUT)
      ∧ v0 = 0
      ∧ s0.esp_ot_response_status = OT_STATUS_TIMEOUT := by
  obtain ⟨hasync, hinv⟩ := masterExchange_async s request now hm hs
  rw [esp_ot_send_request, hasync] at hrun hrun0
  simp only [Option.map_eq_some', Prod.mk.injEq] at hrun hrun0
  obtain ⟨s2, hw, hv, hs2⟩ := hrun
  obtain ⟨s3, hw0, hv0, hs3⟩ := hrun0
  subst hs2 hs3
  obtain ⟨hex, hready⟩ := waitLoop_masterExchange events _ _ hinv hw
  obtain ⟨hz, hto⟩ := waitLoop_ticks ticks _ _ rfl rfl hw0
  refine ⟨hv.symm, hready, ?_, ?_, hto⟩
  · rw [← hv]
    exact hex.2.2.1 (Or.inr hready)
  · rw [← hv0, hz]

/-- Witness of C13 (amended): the run with a reply cut after three data bits,
and the run without input edges. -/
theorem send_request_returns_accumulator_witness :
    ((sampleState false OT_READY 77).esp_ot_is_slave = false
      ∧ (sampleState false OT_READY 77).esp_ot_status = OT_READY
      ∧ esp_ot_send_request (sampleState false OT_READY 77) 0x80190000 34000
            (edgeEvents ([(50000, 1), (50500, 0)] ++ dataEdges 5 (fun _ => none) 3 50500)
              ++ [LinkEvent.tick 60000, LinkEvent.tick 1053501, LinkEvent.tick 1053502])
          = some (5, { sampleState false OT_READY 5 with
                         esp_ot_response_status := OT_STATUS_TIMEOUT,
                         esp_ot_response_timestamp := 53500,
                         esp_ot_response_bit_index := 3,
                         callback_calls := [(5, OT_STATUS_TIMEOUT)] })
      ∧ esp_ot_send_request (sampleState false OT_READY 77) 0x80190000 34000
            ([1000000, 1034001, 1034002].map LinkEvent.tick)
          = some (0, { sampleState false OT_READY 0 with
                         esp_ot_response_status := OT_STATUS_TIMEOUT,
                         esp_ot_response_timestamp := 34000,
                         callback_calls := [(0, OT_STATUS_TIMEOUT)] }))
    ∧ (5 = ({ sampleState false OT_READY 5 with
                esp_ot_response_status := OT_STATUS_TIMEOUT,
                esp_ot_response_timestamp := 53500,
                esp_ot_response_bit_index := 3,
                callback_calls := [(5, OT_STATUS_TIMEOUT)] } : OtState).response
      ∧ ({ sampleState false OT_READY 5 with
              esp_ot_response_status := OT_STATUS_TIMEOUT,
              esp_ot_response_timestamp := 53500,
              esp_ot_response_bit_index := 3,
              callback_calls := [(5, OT_STATUS_TIMEOUT)] } : OtState).esp_ot_status = OT_READY
      ∧ ((({ sampleState false OT_READY 5 with
                esp_ot_response_status := OT_STATUS_TIMEOUT,
                esp_ot_response_timestamp := 53500,
                esp_ot_response_bit_index := 3,
                callback_calls := [(5, OT_STATUS_TIMEOUT)] } : OtState).esp_ot_response_status
              = OT_STATUS_SUCCESS ∧ esp_ot_is_valid_response 5 = true)
          ∨ (({ sampleState false OT_READY 5 with
                esp_ot_response_status := OT_STATUS_TIMEOUT,
                esp_ot_response_timestamp := 53500,
                esp_ot_response_bit_index := 3,
                callback_calls := [(5, OT_STATUS_TIMEOUT)] } : OtState).esp_ot_response_status
              = OT_STATUS_INVALID ∧ esp_ot_is_valid_response 5 = false)
          ∨ ({ sampleState false OT_READY 5 with
                esp_ot_response_status := OT_STATUS_TIMEOUT,
                esp_ot_response_timestamp := 53500,
                esp_ot_response_bit_index := 3,
                callback_calls := [(5, OT_STATUS_TIMEOUT)] } : OtState).esp_ot_response_status
              = OT_STATUS_TIMEOUT)
      ∧ 0 = 0
      ∧ ({ sampleState false OT_READY 0 with
              esp_ot_response_status := OT_STATUS_TIMEOUT,
              esp_ot_response_timestamp := 34000,
              callback_calls := [(0, OT_STATUS_TIMEOUT)] } : OtState).esp_ot_response_status
          = OT_STATUS_TIMEOUT) :=
  have h1 : esp_ot_send_request (sampleState false OT_READY 77) 0x80190000 34000
        (edgeEvents ([(50000, 1), (50500, 0)] ++ dataEdges 5 (fun _ => none) 3 50500)
          ++ [LinkEvent.tick 60000, LinkEvent.tick 1053501, LinkEvent.tick 1053502])
      = some (5, { sampleState false OT_READY 5 with
                     esp_ot_response_status := OT_STATUS_TIMEOUT,
                     esp_ot_response_timestamp := 53500,
                     esp_ot_response_bit_index := 3,
                     callback_calls := [(5, OT_STATUS_TIMEOUT)] }) := by
    set_option maxRecDepth 100000 in decide
  have h0 : esp_ot_send_request (sampleState false OT_READY 77) 0x80190000 34000
        ([1000000, 1034001, 1034002].map LinkEvent.tick)
      = some (0, { sampleState false OT_READY 0 with
                     esp_ot_response_status := OT_STATUS_TIMEOUT,
                     esp_ot_response_timestamp := 34000,
                     callback_calls := [(0, OT_STATUS_TIMEOUT)] }) := by
    decide
  ⟨⟨rfl, rfl, h1, h0⟩,
    send_request_returns_accumulator (sampleState false OT_READY 77) 0x80190000 34000
      (edgeEvents ([(50000, 1), (50500, 0)] ++ dataEdges 5 (fun _ => none) 3 50500)
        ++ [LinkEvent.tick 60000, LinkEvent.tick 1053501, LinkEvent.tick 1053502])
      [1000000, 1034001, 1034002] 5 0 _ _ rfl rfl h1 h0⟩

/-- The word sent does not influence what `esp_ot_send_request` returns. -/
theorem esp_ot_send_request_any_request (s : OtState) (r1 r2 now : Nat)
    (events : List LinkEvent) :
    esp_ot_send_request s r1 now events = esp_ot_send_request s r2 now events := by
  unfold esp_ot_send_request esp_ot_send_request_async
  cases esp_ot_is_ready s <;> rfl

/-- C14, evaluated at a failing input: in master role the slave answers the
request with a start bit, only 31 data bits (`0x200C9E40`) and the stop bit,
all nominally timed, and then stays silent (`shortReplyEvents`).  The stop bit
is stored as the 32nd data bit, the accumulator `0x40193C81` has an even bit
count and type `OT_READ_ACK`, the run ends with last response status
`OT_STATUS_TIMEOUT`, and `esp_ot_get_boiler_temperature` returns `15489 / 256`
(about 60.5), not 0; so do the five other float-valued operations. -/
theorem float_operation_nonzero_on_timeout :
    shortReplyFinal.esp_ot_response_status = OT_STATUS_TIMEOUT
      ∧ esp_ot_get_boiler_temperature (sampleState false OT_READY 77) 34000 shortReplyEvents
          = some (15489 / 256, shortReplyFinal)
      ∧ esp_ot_get_return_temperature (sampleState false OT_READY 77) 34000 shortReplyEvents
          = some (15489 / 256, shortReplyFinal)
      ∧ esp_ot_get_dhw_temperature (sampleState false OT_READY 77) 34000 shortReplyEvents
          = some (15489 / 256, shortReplyFinal)
      ∧ esp_ot_get_modulation (sampleState false OT_READY 77) 34000 shortReplyEvents
          = some (15489 / 256, shortReplyFinal)
      ∧ esp_ot_get_pressure (sampleState false OT_READY 77) 34000 shortReplyEvents
          = some (15489 / 256, shortReplyFinal)
      ∧ esp_ot_get_slave_ot_version (sampleState false OT_READY 77) 34000 shortReplyEvents
          = some (15489 / 256, shortReplyFinal) := by
  have hrun : ∀ request : Nat,
      esp_ot_send_request (sampleState false OT_READY 77) request 34000 shortReplyEvents
        = some (0x40193C81, shortReplyFinal) := by
    intro request
    rw [esp_ot_send_request_any_request _ request 0]
    set_option maxRecDepth 100000 in decide
  refine ⟨rfl, ?_, ?_, ?_, ?_, ?_, ?_⟩
  · rw [esp_ot_get_boiler_temperature, hrun, Option.map_some', valid_sample_float]
  · rw [esp_ot_get_return_temperature, hrun, Option.map_some', valid_sample_float]
  · rw [esp_ot_get_dhw_temperature, hrun, Option.map_some', valid_sample_float]
  · rw [esp_ot_get_modulation, hrun, Option.map_some', valid_sample_float]
  · rw [esp_ot_get_pressure, hrun, Option.map_some', valid_sample_float]
  · rw [esp_ot_get_slave_ot_version, hrun, Option.map_some', valid_sample_float]

/-- C20, as stated, fails: a master leaves `OT_READY` at clock value 0 and ends
its emission at 34000; the slave's start bit arrives at 1000000 and nothing
follows.  `process` is called at 500000, 1000500, 1100000 (one second plus the
post-frame delay after the link left `OT_READY`) and 1134000 (the same after
the end of the emission): the status is still `OT_RESPONSE_RECEIVING`, and it
stays so at 2000400; only the call at 2000401, more than one second after the
last accepted edge, restores `OT_READY`. -/
theorem timeout_from_leaving_ready_counterexample :
    (runEvents (esp_ot_send_request_async (sampleState false OT_READY 77) 0x80190000 34000).2.2
        [LinkEvent.tick 500000, LinkEvent.edge 1 1000000, LinkEvent.edge 0 1000400,
          LinkEvent.tick 1000500, LinkEvent.tick 1100000,
          LinkEvent.tick 1134000]).esp_ot_status = OT_RESPONSE_RECEIVING
      ∧ (runEvents
          (esp_ot_send_request_async (sampleState false OT_READY 77) 0x80190000 34000).2.2
          [LinkEvent.tick 500000, LinkEvent.edge 1 1000000, LinkEvent.edge 0 1000400,
            LinkEvent.tick 1000500, LinkEvent.tick 1100000, LinkEvent.tick 1134000,
            LinkEvent.tick 2000400]).esp_ot_status = OT_RESPONSE_RECEIVING
      ∧ (runEvents
          (esp_ot_send_request_async (sampleState false OT_READY 77) 0x80190000 34000).2.2
          [LinkEvent.tick 500000, LinkEvent.edge 1 1000000, LinkEvent.edge 0 1000400,
            LinkEvent.tick 1000500, LinkEvent.tick 1100000, LinkEvent.tick 1134000,
            LinkEvent.tick 2000400, LinkEvent.tick 2000401]).esp_ot_status = OT_READY := by
  refine ⟨?_, ?_, ?_⟩ <;> decide

/-! ## Helper lemmas: single steps of the interrupt handler -/

/-- Outside a reception the interrupt handler changes nothing. -/
theorem handle_ignored (s : OtState) (line now : Nat)
    (h : (s.esp_ot_status = OT_READY ∧ ¬(s.esp_ot_is_slave = true ∧ line = 1))
      ∨ s.esp_ot_status = OT_NOT_INITIALIZED ∨ s.esp_ot_status = OT_DELAY
      ∨ s.esp_ot_status = OT_REQUEST_SENDING ∨ s.esp_ot_status = OT_RESPONSE_READY
      ∨ s.esp_ot_status = OT_RESPONSE_INVALID) :
    esp_ot_handle_interrupt s line now = s := by
  rcases h with ⟨h1, h2⟩ | h | h | h | h | h
  · unfold esp_ot_handle_interrupt
    rw [if_pos ⟨h1, h2⟩]
  all_goals simp [esp_ot_handle_interrupt, h]

/-- An edge in `OT_RESPONSE_WAITING`. -/
theorem handle_waiting (s : OtState) (line now : Nat)
    (hs : s.esp_ot_status = OT_RESPONSE_WAITING) :
    esp_ot_handle_interrupt s line now =
      if line = 1 then
        { s with esp_ot_status := OT_RESPONSE_START_BIT,
                 esp_ot_response_timestamp := now % 2 ^ 32 }
      else
        { s with esp_ot_status := OT_RESPONSE_INVALID,
                 esp_ot_response_timestamp := now % 2 ^ 32 } := by
  by_cases hl : line = 1 <;> simp [esp_ot_handle_interrupt, hs, hl]

/-- An edge in `OT_RESPONSE_START_BIT`. -/
theorem handle_start_bit (s : OtState) (line now : Nat)
    (hs : s.esp_ot_status = OT_RESPONSE_START_BIT) :
    esp_ot_handle_interrupt s line now =
      if sub32 (now % 2 ^ 32) s.esp_ot_response_timestamp < 750 ∧ line = 0 then
        { s with esp_ot_status := OT_RESPONSE_RECEIVING,
                 esp_ot_response_timestamp := now % 2 ^ 32,
                 esp_ot_response_bit_index := 0 }
      else
        { s with esp_ot_status := OT_RESPONSE_INVALID,
                 esp_ot_response_timestamp := now % 2 ^ 32 } := by
  simp [esp_ot_handle_interrupt, hs]

/-- An edge in `OT_RESPONSE_RECEIVING`. -/
theorem handle_receiving (s : OtState) (line now : Nat)
    (hs : s.esp_ot_status = OT_RESPONSE_RECEIVING) :
    esp_ot_handle_interrupt s line now =
      if sub32 (now % 2 ^ 32) s.esp_ot_response_timestamp > 750 then
        if s.esp_ot_response_bit_index < 32 then
          { s with response := ((s.response <<< 1) % 2 ^ 32) ||| (if line = 0 then 1 else 0),
                   esp_ot_response_timestamp := now % 2 ^ 32,
                   esp_ot_response_bit_index := (s.esp_ot_response_bit_index + 1) % 256 }
        else
          { s with esp_ot_status := OT_RESPONSE_READY,
                   esp_ot_response_timestamp := now % 2 ^ 32 }
      else s := by
  simp [esp_ot_handle_interrupt, hs]

/-- The shift-and-or of the receiver, written with `1 - line`. -/
theorem shift_or_complement (r line : Nat) (hline : line ≤ 1) :
    ((r <<< 1) % 2 ^ 32) ||| (if line = 0 then 1 else 0)
      = ((r <<< 1) ||| (1 - line)) % 2 ^ 32 := by
  have hb : (if line = 0 then 1 else 0) = 1 - line := by
    split <;> omega
  have hlt : 1 - line < 2 ^ 32 := by
    have : (2 : Nat) ^ 32 = 4294967296 := by norm_num
    omega
  rw [hb]
  apply Nat.eq_of_testBit_eq
  intro j
  simp only [Nat.testBit_or, Nat.testBit_mod_two_pow]
  by_cases hj : j < 32
  · simp [hj]
  · have h0 : (1 - line).testBit j = false :=
      Nat.testBit_lt_two_pow (Nat.lt_of_lt_of_le hlt (Nat.pow_le_pow_right (by decide)
        (by omega)))
    simp [hj, h0]

/-! ## The claims (receiver steps) -/

/-- C25, as stated, fails: in slave role with status `OT_READY`, an edge that
leaves the line high does not leave the status `OT_RESPONSE_WAITING`: when the
handler returns the status is `OT_RESPONSE_START_BIT`. -/
theorem slave_ready_edge_counterexample :
    (esp_ot_handle_interrupt (sampleState true OT_READY 0) 1 5000).esp_ot_status
        ≠ OT_RESPONSE_WAITING
      ∧ (esp_ot_handle_interrupt (sampleState true OT_READY 0) 1 5000).esp_ot_status
        = OT_RESPONSE_START_BIT := by
  constructor <;> decide

/-- C25, amended: when `esp_ot_handle_interrupt` runs with status `OT_READY`,
role slave and the line high, it sets `OT_RESPONSE_WAITING` and, in the same
invocation, its `OT_RESPONSE_WAITING` branch takes the edge as the start-bit
edge: the status after the handler returns is `OT_RESPONSE_START_BIT`, the
timestamp is the edge time and nothing else changes. -/
theorem slave_ready_edge (s : OtState) (line now : Nat)
    (hs : s.esp_ot_status = OT_READY) (hslave : s.esp_ot_is_slave = true)
    (hline : line = 1) :
    esp_ot_handle_interrupt s line now =
      { s with esp_ot_status := OT_RESPONSE_START_BIT,
               esp_ot_response_timestamp := now % 2 ^ 32 } := by
  simp [esp_ot_handle_interrupt, hs, hslave, hline]

/-- Witness of C25 (amended): a ready slave, line high at clock value 5000. -/
theorem slave_ready_edge_witness :
    ((sampleState true OT_READY 0).esp_ot_status = OT_READY
      ∧ (sampleState true OT_READY 0).esp_ot_is_slave = true ∧ 1 = 1)
    ∧ esp_ot_handle_interrupt (sampleState true OT_READY 0) 1 5000 =
        { sampleState true OT_READY 0 with
            esp_ot_status := OT_RESPONSE_START_BIT,
            esp_ot_response_timestamp := 5000 % 2 ^ 32 } :=
  ⟨⟨rfl, rfl, rfl⟩, slave_ready_edge (sampleState true OT_READY 0) 1 5000 rfl rfl rfl⟩

/-- C26. Receiver in `OT_RESPONSE_WAITING`: an edge with line = 1 sets status
`OT_RESPONSE_START_BIT` and an edge with line = 0 sets status
`OT_RESPONSE_INVALID`, in both cases recording the edge time as the timestamp
and leaving response and last response status (and every other field)
unchanged; after the line = 0 case a call of `process` within 1 s sets status
`OT_DELAY` and last response status `OT_STATUS_INVALID` and invokes the
installed callback once. -/
theorem waiting_edge (s : OtState) (now later : Nat)
    (hs : s.esp_ot_status = OT_RESPONSE_WAITING) (hcb : s.callback_set = true)
    (hlater : sub32 (later % 2 ^ 32) (now % 2 ^ 32) ≤ 1000000) :
    esp_ot_handle_interrupt s 1 now =
        { s with esp_ot_status := OT_RESPONSE_START_BIT,
                 esp_ot_response_timestamp := now % 2 ^ 32 }
      ∧ esp_ot_handle_interrupt s 0 now =
        { s with esp_ot_status := OT_RESPONSE_INVALID,
                 esp_ot_response_timestamp := now % 2 ^ 32 }
      ∧ (process (esp_ot_handle_interrupt s 0 now) later).esp_ot_status = OT_DELAY
      ∧ (process (esp_ot_handle_interrupt s 0 now) later).esp_ot_response_status
          = OT_STATUS_INVALID
      ∧ (process (esp_ot_handle_interrupt s 0 now) later).callback_calls
          = s.callback_calls ++ [(s.response, OT_STATUS_INVALID)] := by
  have h1 : esp_ot_handle_interrupt s 1 now =
      { s with esp_ot_status := OT_RESPONSE_START_BIT,
               esp_ot_response_timestamp := now % 2 ^ 32 } := by
    rw [handle_waiting s 1 now hs, if_pos rfl]
  have h0 : esp_ot_handle_interrupt s 0 now =
      { s with esp_ot_status := OT_RESPONSE_INVALID,
               esp_ot_response_timestamp := now % 2 ^ 32 } := by
    rw [handle_waiting s 0 now hs, if_neg (by decide)]
  have hp := process_response_invalid_eq
    ({ s with esp_ot_status := OT_RESPONSE_INVALID,
              esp_ot_response_timestamp := now % 2 ^ 32 } : OtState) later
    (by simp only) (by simp only; exact hlater)
  refine ⟨h1, h0, ?_, ?_, ?_⟩
  · rw [h0, hp]; simp [esp_ot_process_response, hcb]
  · rw [h0, hp]; simp [esp_ot_process_response, hcb]
  · rw [h0, hp]; simp [esp_ot_process_response, hcb]

/-- Witness of C26: a master waiting for the reply, edge at 50000, `process`
called at 50100. -/
theorem waiting_edge_witness :
    ((sampleState false OT_RESPONSE_WAITING 0).esp_ot_status = OT_RESPONSE_WAITING
      ∧ (sampleState false OT_RESPONSE_WAITING 0).callback_set = true
      ∧ sub32 (50100 % 2 ^ 32) (50000 % 2 ^ 32) ≤ 1000000)
    ∧ (esp_ot_handle_interrupt (sampleState false OT_RESPONSE_WAITING 0) 1 50000 =
        { sampleState false OT_RESPONSE_WAITING 0 with
            esp_ot_status := OT_RESPONSE_START_BIT,
            esp_ot_response_timestamp := 50000 % 2 ^ 32 }
      ∧ esp_ot_handle_interrupt (sampleState false OT_RESPONSE_WAITING 0) 0 50000 =
        { sampleState false OT_RESPONSE_WAITING 0 with
            esp_ot_status := OT_RESPONSE_INVALID,
            esp_ot_response_timestamp := 50000 % 2 ^ 32 }
      ∧ (process (esp_ot_handle_interrupt (sampleState false OT_RESPONSE_WAITING 0) 0 50000)
          50100).esp_ot_status = OT_DELAY
      ∧ (process (esp_ot_handle_interrupt (sampleState false OT_RESPONSE_WAITING 0) 0 50000)
          50100).esp_ot_response_status = OT_STATUS_INVALID
      ∧ (process (esp_ot_handle_interrupt (sampleState false OT_RESPONSE_WAITING 0) 0 50000)
          50100).callback_calls
          = (sampleState false OT_RESPONSE_WAITING 0).callback_calls
              ++ [((sampleState false OT_RESPONSE_WAITING 0).response, OT_STATUS_INVALID)]) :=
  ⟨⟨rfl, rfl, by decide⟩,
    waiting_edge (sampleState false OT_RESPONSE_WAITING 0) 50000 50100 rfl rfl (by decide)⟩

/-- C27. Receiver in `OT_RESPONSE_START_BIT`: an edge at time `now` sets status
`OT_RESPONSE_RECEIVING` with bit index 0 iff `(now - timestamp) < 750` us and
line = 0; every other edge (elapsed at least 750 us, or line = 1) sets status
`OT_RESPONSE_INVALID`; the timestamp is set to `now` in both cases. -/
theorem start_bit_edge (s : OtState) (line now : Nat)
    (hs : s.esp_ot_status = OT_RESPONSE_START_BIT) :
    ((esp_ot_handle_interrupt s line now).esp_ot_status = OT_RESPONSE_RECEIVING
          ∧ (esp_ot_handle_interrupt s line now).esp_ot_response_bit_index = 0 ↔
        sub32 (now % 2 ^ 32) s.esp_ot_response_timestamp < 750 ∧ line = 0)
      ∧ ((esp_ot_handle_interrupt s line now).esp_ot_status = OT_RESPONSE_INVALID ↔
        ¬(sub32 (now % 2 ^ 32) s.esp_ot_response_timestamp < 750 ∧ line = 0))
      ∧ (esp_ot_handle_interrupt s line now).esp_ot_response_timestamp = now % 2 ^ 32
      ∧ (esp_ot_handle_interrupt s line now).response = s.response
      ∧ (esp_ot_handle_interrupt s line now).esp_ot_response_status
          = s.esp_ot_response_status := by
  rw [handle_start_bit s line now hs]
  by_cases hc : sub32 (now % 2 ^ 32) s.esp_ot_response_timestamp < 750 ∧ line = 0
  · rw [if_pos hc]
    simp only [hc, and_self, not_true_eq_false, iff_true, iff_false, true_and]
    decide
  · rw [if_neg hc]
    simp only [hc, not_false_eq_true, iff_true, iff_false, and_true, true_and]
    intro h
    exact absurd h.1 (by decide)

/-- Witness of C27: the mid-cell edge of the start bit, 500 us after its
leading edge at 1000. -/
theorem start_bit_edge_witness :
    (sampleState false OT_RESPONSE_START_BIT 0).esp_ot_status = OT_RESPONSE_START_BIT
    ∧ (((esp_ot_handle_interrupt (sampleState false OT_RESPONSE_START_BIT 0) 0
              1500).esp_ot_status = OT_RESPONSE_RECEIVING
          ∧ (esp_ot_handle_interrupt (sampleState false OT_RESPONSE_START_BIT 0) 0
              1500).esp_ot_response_bit_index = 0 ↔
        sub32 (1500 % 2 ^ 32)
            (sampleState false OT_RESPONSE_START_BIT 0).esp_ot_response_timestamp < 750
          ∧ 0 = 0)
      ∧ ((esp_ot_handle_interrupt (sampleState false OT_RESPONSE_START_BIT 0) 0
            1500).esp_ot_status = OT_RESPONSE_INVALID ↔
        ¬(sub32 (1500 % 2 ^ 32)
            (sampleState false OT_RESPONSE_START_BIT 0).esp_ot_response_timestamp < 750
          ∧ 0 = 0))
      ∧ (esp_ot_handle_interrupt (sampleState false OT_RESPONSE_START_BIT 0) 0
          1500).esp_ot_response_timestamp = 1500 % 2 ^ 32
      ∧ (esp_ot_handle_interrupt (sampleState false OT_RESPONSE_START_BIT 0) 0 1500).response
          = (sampleState false OT_RESPONSE_START_BIT 0).response
      ∧ (esp_ot_handle_interrupt (sampleState false OT_RESPONSE_START_BIT 0) 0
          1500).esp_ot_response_status
          = (sampleState false OT_RESPONSE_START_BIT 0).esp_ot_response_status) :=
  ⟨rfl, start_bit_edge (sampleState false OT_RESPONSE_START_BIT 0) 0 1500 rfl⟩

/-- C28. Receiver in `OT_RESPONSE_RECEIVING`: an edge with
`(now - timestamp) <= 750` us is ignored, leaving status, response
accumulator, bit index and timestamp all unchanged; an edge with
`(now - timestamp) > 750` us and bit index below 32 sets the response to
`(response << 1) | (1 - line)` modulo `2 ^ 32`, increments the bit index by one
and records `now`; with bit index at least 32 it sets status
`OT_RESPONSE_READY`, records `now` and leaves response and bit index
unchanged. -/
theorem receiving_edge (s : OtState) (line now : Nat)
    (hs : s.esp_ot_status = OT_RESPONSE_RECEIVING) (hline : line ≤ 1) :
    esp_ot_handle_interrupt s line now =
      if sub32 (now % 2 ^ 32) s.esp_ot_response_timestamp ≤ 750 then s
      else if s.esp_ot_response_bit_index < 32 then
        { s with response := ((s.response <<< 1) ||| (1 - line)) % 2 ^ 32,
                 esp_ot_response_timestamp := now % 2 ^ 32,
                 esp_ot_response_bit_index := s.esp_ot_response_bit_index + 1 }
      else
        { s with esp_ot_status := OT_RESPONSE_READY,
                 esp_ot_response_timestamp := now % 2 ^ 32 } := by
  rw [handle_receiving s line now hs]
  generalize sub32 (now % 2 ^ 32) s.esp_ot_response_timestamp = e
  by_cases hgt : e > 750
  · have hle : ¬ e ≤ 750 := by omega
    by_cases hi : s.esp_ot_response_bit_index < 32
    · have hidx : (s.esp_ot_response_bit_index + 1) % 256 = s.esp_ot_response_bit_index + 1 := by
        omega
      simp only [hgt, hle, hi, if_true, if_false, shift_or_complement s.response line hline,
        hidx]
    · simp only [hgt, hle, hi, if_true, if_false]
  · have hle : e ≤ 750 := by omega
    simp only [hgt, hle, if_true, if_false]

/-- Witness of C28: the mid-cell edge of the first data bit, 1000 us after the
recorded timestamp, leaving the line low. -/
theorem receiving_edge_witness :
    ((sampleState false OT_RESPONSE_RECEIVING 0).esp_ot_status = OT_RESPONSE_RECEIVING
      ∧ 0 ≤ 1)
    ∧ esp_ot_handle_interrupt (sampleState false OT_RESPONSE_RECEIVING 0) 0 2000 =
        (if sub32 (2000 % 2 ^ 32)
            (sampleState false OT_RESPONSE_RECEIVING 0).esp_ot_response_timestamp ≤ 750
         then sampleState false OT_RESPONSE_RECEIVING 0
         else if (sampleState false OT_RESPONSE_RECEIVING 0).esp_ot_response_bit_index < 32 then
           { sampleState false OT_RESPONSE_RECEIVING 0 with
               response :=
                 (((sampleState false OT_RESPONSE_RECEIVING 0).response <<< 1) ||| (1 - 0))
                   % 2 ^ 32,
               esp_ot_response_timestamp := 2000 % 2 ^ 32,
               esp_ot_response_bit_index :=
                 (sampleState false OT_RESPONSE_RECEIVING 0).esp_ot_response_bit_index + 1 }
         else
           { sampleState false OT_RESPONSE_RECEIVING 0 with
               esp_ot_status := OT_RESPONSE_READY,
               esp_ot_response_timestamp := 2000 % 2 ^ 32 }) :=
  ⟨⟨rfl, by decide⟩,
    receiving_edge (sampleState false OT_RESPONSE_RECEIVING 0) 0 2000 rfl (by decide)⟩

/-- C30. The interrupt handler ignores edges outside a reception: for every
line level and time, `esp_ot_handle_interrupt` leaves the whole state (status,
response accumulator, bit index, timestamp, last response status) unchanged
when the status is `OT_READY` in master role, `OT_READY` in slave role with the
line low, or any of `OT_NOT_INITIALIZED`, `OT_DELAY`, `OT_REQUEST_SENDING`,
`OT_RESPONSE_READY`, `OT_RESPONSE_INVALID`. -/
theorem interrupt_ignored (s : OtState) (line now : Nat)
    (h : (s.esp_ot_status = OT_READY ∧ s.esp_ot_is_slave = false)
      ∨ (s.esp_ot_status = OT_READY ∧ s.esp_ot_is_slave = true ∧ line = 0)
      ∨ s.esp_ot_status = OT_NOT_INITIALIZED ∨ s.esp_ot_status = OT_DELAY
      ∨ s.esp_ot_status = OT_REQUEST_SENDING ∨ s.esp_ot_status = OT_RESPONSE_READY
      ∨ s.esp_ot_status = OT_RESPONSE_INVALID) :
    esp_ot_handle_interrupt s line now = s := by
  apply handle_ignored
  rcases h with ⟨h1, h2⟩ | ⟨h1, _, h3⟩ | hrest
  · exact Or.inl ⟨h1, by simp [h2]⟩
  · exact Or.inl ⟨h1, by simp [h3]⟩
  · exact Or.inr hrest

/-- Witness of C30: a slave in `OT_READY` and an edge that leaves the line
low. -/
theorem interrupt_ignored_witness :
    (((sampleState true OT_READY 77).esp_ot_status = OT_READY
          ∧ (sampleState true OT_READY 77).esp_ot_is_slave = false)
      ∨ ((sampleState true OT_READY 77).esp_ot_status = OT_READY
          ∧ (sampleState true OT_READY 77).esp_ot_is_slave = true ∧ 0 = 0)
      ∨ (sampleState true OT_READY 77).esp_ot_status = OT_NOT_INITIALIZED
      ∨ (sampleState true OT_READY 77).esp_ot_status = OT_DELAY
      ∨ (sampleState true OT_READY 77).esp_ot_status = OT_REQUEST_SENDING
      ∨ (sampleState true OT_READY 77).esp_ot_status = OT_RESPONSE_READY
      ∨ (sampleState true OT_READY 77).esp_ot_status = OT_RESPONSE_INVALID)
    ∧ esp_ot_handle_interrupt (sampleState true OT_READY 77) 0 5000
        = sampleState true OT_READY 77 :=
  ⟨Or.inr (Or.inl ⟨rfl, rfl, rfl⟩),
    interrupt_ignored (sampleState true OT_READY 77) 0 5000 (Or.inr (Or.inl ⟨rfl, rfl, rfl⟩))⟩

/-- C24. For every response `r`, the status accessors return exactly the named
bit: `esp_ot_is_fault r` iff bit 0 of `r` is set,
`esp_ot_is_central_heating_active r` iff bit 1, `esp_ot_is_hot_water_active r`
iff bit 2, `esp_ot_is_flame_on r` iff bit 3, `esp_ot_is_cooling_active r` iff
bit 4, `esp_ot_is_diagnostic r` iff bit 6; being functions of that one bit,
they do not depend on any other bit. -/
theorem status_accessors (r : Nat) :
    esp_ot_is_fault r = r.testBit 0
      ∧ esp_ot_is_central_heating_active r = r.testBit 1
      ∧ esp_ot_is_hot_water_active r = r.testBit 2
      ∧ esp_ot_is_flame_on r = r.testBit 3
      ∧ esp_ot_is_cooling_active r = r.testBit 4
      ∧ esp_ot_is_diagnostic r = r.testBit 6 := by
  have key : ∀ i : Nat, (r &&& 2 ^ i != 0) = r.testBit i := by
    intro i
    have hpos : 0 < 2 ^ i := Nat.two_pow_pos i
    rw [Nat.and_two_pow]
    cases r.testBit i
    · simp
    · simp only [Bool.toNat_true, Nat.one_mul, bne_iff_ne, ne_eq]
      simp
  exact ⟨key 0, key 1, key 2, key 3, key 4, key 6⟩

/-! ## Helper lemmas: status request, bit index -/

/-- Every frame made by the request builder passes the request check. -/
theorem valid_request_build_request (t id d : Nat) (hid : id < 256) (hd : d < 65536) :
    esp_ot_is_valid_request (esp_ot_build_request t id d) = true := by
  have hw : (if t = OT_WRITE_DATA then 1 else 0) < 8 := by split <;> omega
  rw [esp_ot_build_request_eq, esp_ot_is_valid_request_iff,
    parity_build_response _ id d hw hid hd, build_response_type _ id d hw hid hd]
  refine ⟨rfl, ?_⟩
  split <;> simp

theorem process_bit_index (s : OtState) (now : Nat) :
    (process s now).esp_ot_response_bit_index = s.esp_ot_response_bit_index := by
  unfold process esp_ot_process_response
  simp only
  split_ifs <;> rfl

/-- The interrupt handler keeps the bit index at most 32. -/
theorem handle_bit_index_le (s : OtState) (line now : Nat)
    (h : s.esp_ot_response_bit_index ≤ 32) :
    (esp_ot_handle_interrupt s line now).esp_ot_response_bit_index ≤ 32 := by
  unfold esp_ot_handle_interrupt
  simp only
  split_ifs <;> first | exact h | exact Nat.zero_le _ | (simp only; omega)

theorem applyAction_bit_index_le (s : OtState) (a : LinkAction)
    (h : s.esp_ot_response_bit_index ≤ 32) :
    (applyAction s a).esp_ot_response_bit_index ≤ 32 := by
  cases a with
  | interrupt line now => exact handle_bit_index_le s line now h
  | process now => rw [applyAction, process_bit_index]; exact h
  | send_request_async request now =>
    simp only [applyAction, esp_ot_send_request_async]
    split_ifs <;> exact h
  | send_response request =>
    simp only [applyAction, esp_ot_send_response]
    split_ifs <;> exact h

theorem runActions_bit_index_le (actions : List LinkAction) :
    ∀ s : OtState, s.esp_ot_response_bit_index ≤ 32 →
      (runActions s actions).esp_ot_response_bit_index ≤ 32 := by
  induction actions with
  | nil => intro s h; exact h
  | cons a rest ih =>
    intro s h
    simp only [runActions, List.foldl_cons]
    exact ih _ (applyAction_bit_index_le s a h)

/-- The interrupt handler reaches `OT_RESPONSE_READY` only from the stop-bit
branch, which leaves the bit index alone and is taken when it is not below
32. -/
theorem handle_moves_to_response_ready (s : OtState) (line now : Nat)
    (hbefore : s.esp_ot_status ≠ OT_RESPONSE_READY)
    (hmove : (esp_ot_handle_interrupt s line now).esp_ot_status = OT_RESPONSE_READY) :
    32 ≤ (esp_ot_handle_interrupt s line now).esp_ot_response_bit_index := by
  unfold esp_ot_handle_interrupt at hmove ⊢
  simp only at hmove ⊢
  split_ifs at hmove ⊢ <;> simp_all

/-! ## The claims (initialisation, status request, bit index) -/

/-- C22, evaluated on the code: whatever `gpio_install_isr_service`, the two
`gpio_config` calls, `gpio_isr_handler_add` and `gpio_intr_enable` return,
`esp_ot_init` returns `ESP_OK` and leaves the link status `OT_READY`, so that a
subsequent `esp_ot_send_request_async` returns true; when every driver call
fails with `ESP_FAIL` (-1) from the boot state, the installation error is
logged and the result is still `ESP_OK` with status `OT_READY`. -/
theorem init_reports_no_failure (s : OtState) (driver : InitResults) (slave callback : Bool)
    (request now : Nat) :
    (esp_ot_init s driver slave callback).1 = ESP_OK
      ∧ (esp_ot_init s driver slave callback).2.2.esp_ot_status = OT_READY
      ∧ (esp_ot_send_request_async (esp_ot_init s driver slave callback).2.2 request now).1
          = true
      ∧ esp_ot_init bootState ⟨-1, -1, -1, -1, -1⟩ false true
          = (ESP_OK, true,
              { bootState with callback_set := true, esp_ot_status := OT_READY }) := by
  refine ⟨rfl, rfl, ?_, by decide⟩
  simp [esp_ot_send_request_async, esp_ot_is_ready, esp_ot_init]

/-- C23. For all five boolean flags,
`esp_ot_build_set_boiler_status_request ch dhw cool otc ch2` is a
parity-completed frame (it passes the request check) with message type
`OT_READ_DATA`, data id 0 and data field equal to
`(ch | dhw << 1 | cool << 2 | otc << 3 | ch2 << 4) << 8`, i.e. the five flags
in bits 8..12 and a zero low byte; it equals
`esp_ot_build_request OT_READ_DATA 0` of that data. -/
theorem set_boiler_status_request_layout (ch dhw cool otc ch2 : Bool) :
    esp_ot_build_set_boiler_status_request ch dhw cool otc ch2
        = esp_ot_build_request OT_READ_DATA 0
            ((ch.toNat ||| (dhw.toNat <<< 1) ||| (cool.toNat <<< 2) ||| (otc.toNat <<< 3)
              ||| (ch2.toNat <<< 4)) <<< 8)
      ∧ esp_ot_get_message_type (esp_ot_build_set_boiler_status_request ch dhw cool otc ch2)
          = OT_READ_DATA
      ∧ esp_ot_get_data_id (esp_ot_build_set_boiler_status_request ch dhw cool otc ch2) = 0
      ∧ esp_ot_get_uint (esp_ot_build_set_boiler_status_request ch dhw cool otc ch2)
          = (ch.toNat ||| (dhw.toNat <<< 1) ||| (cool.toNat <<< 2) ||| (otc.toNat <<< 3)
              ||| (ch2.toNat <<< 4)) <<< 8
      ∧ (esp_ot_get_uint
          (esp_ot_build_set_boiler_status_request ch dhw cool otc ch2)).testBit 8 = ch
      ∧ (esp_ot_get_uint
          (esp_ot_build_set_boiler_status_request ch dhw cool otc ch2)).testBit 9 = dhw
      ∧ (esp_ot_get_uint
          (esp_ot_build_set_boiler_status_request ch dhw cool otc ch2)).testBit 10 = cool
      ∧ (esp_ot_get_uint
          (esp_ot_build_set_boiler_status_request ch dhw cool otc ch2)).testBit 11 = otc
      ∧ (esp_ot_get_uint
          (esp_ot_build_set_boiler_status_request ch dhw cool otc ch2)).testBit 12 = ch2
      ∧ esp_ot_get_uint (esp_ot_build_set_boiler_status_request ch dhw cool otc ch2) % 256 = 0
      ∧ esp_ot_get_uint (esp_ot_build_set_boiler_status_request ch dhw cool otc ch2) < 2 ^ 13
      ∧ esp_ot_is_valid_request (esp_ot_build_set_boiler_status_request ch dhw cool otc ch2)
          = true := by
  have hdata :
      ((ch.toNat ||| (dhw.toNat <<< 1) ||| (cool.toNat <<< 2) ||| (otc.toNat <<< 3)
          ||| (ch2.toNat <<< 4)) <<< 8) % 2 ^ 32
        = (ch.toNat ||| (dhw.toNat <<< 1) ||| (cool.toNat <<< 2) ||| (otc.toNat <<< 3)
          ||| (ch2.toNat <<< 4)) <<< 8
      ∧ ((ch.toNat ||| (dhw.toNat <<< 1) ||| (cool.toNat <<< 2) ||| (otc.toNat <<< 3)
          ||| (ch2.toNat <<< 4)) <<< 8) < 2 ^ 13
      ∧ ((ch.toNat ||| (dhw.toNat <<< 1) ||| (cool.toNat <<< 2) ||| (otc.toNat <<< 3)
          ||| (ch2.toNat <<< 4)) <<< 8).testBit 8 = ch
      ∧ ((ch.toNat ||| (dhw.toNat <<< 1) ||| (cool.toNat <<< 2) ||| (otc.toNat <<< 3)
          ||| (ch2.toNat <<< 4)) <<< 8).testBit 9 = dhw
      ∧ ((ch.toNat ||| (dhw.toNat <<< 1) ||| (cool.toNat <<< 2) ||| (otc.toNat <<< 3)
          ||| (ch2.toNat <<< 4)) <<< 8).testBit 10 = cool
      ∧ ((ch.toNat ||| (dhw.toNat <<< 1) ||| (cool.toNat <<< 2) ||| (otc.toNat <<< 3)
          ||| (ch2.toNat <<< 4)) <<< 8).testBit 11 = otc
      ∧ ((ch.toNat ||| (dhw.toNat <<< 1) ||| (cool.toNat <<< 2) ||| (otc.toNat <<< 3)
          ||| (ch2.toNat <<< 4)) <<< 8).testBit 12 = ch2
      ∧ ((ch.toNat ||| (dhw.toNat <<< 1) ||| (cool.toNat <<< 2) ||| (otc.toNat <<< 3)
          ||| (ch2.toNat <<< 4)) <<< 8) % 256 = 0 := by
    cases ch <;> cases dhw <;> cases cool <;> cases otc <;> cases ch2 <;> decide
  generalize hd : (ch.toNat ||| (dhw.toNat <<< 1) ||| (cool.toNat <<< 2) ||| (otc.toNat <<< 3)
      ||| (ch2.toNat <<< 4)) <<< 8 = d at hdata ⊢
  obtain ⟨hmod, hlt, h8, h9, h10, h11, h12, hlow⟩ := hdata
  have hlt2 : d < 65536 := by
    have : (2 : Nat) ^ 13 = 8192 := by norm_num
    omega
  have hF : esp_ot_build_set_boiler_status_request ch dhw cool otc ch2
      = esp_ot_build_request OT_READ_DATA 0 d := by
    unfold esp_ot_build_set_boiler_status_request
    simp only [hd, hmod, MSG_ID_STATUS]
  obtain ⟨g1, g2, g3⟩ := build_request_getters OT_READ_DATA 0 d (by decide) hlt2
  rw [hF, g1]
  exact ⟨rfl, g3, g2, rfl, h8, h9, h10, h11, h12, hlow, hlt,
    valid_request_build_request OT_READ_DATA 0 d (by decide) hlt2⟩

/-- C29. Invariant of the link state: in every state reachable from a state
with bit index 0 (such as the initialised state, status `OT_READY`) by any
interleaving of `esp_ot_handle_interrupt`, `process`,
`esp_ot_send_request_async` and `esp_ot_send_response`, the bit index is at
most 32 (the 8-bit counter never overflows), and whenever the interrupt handler
moves the status of such a state to `OT_RESPONSE_READY` the bit index is
exactly 32. -/
theorem bit_index_invariant (s0 : OtState) (actions before : List LinkAction)
    (line now : Nat) (h0 : s0.esp_ot_response_bit_index = 0)
    (hbefore : (runActions s0 before).esp_ot_status ≠ OT_RESPONSE_READY)
    (hmove : (esp_ot_handle_interrupt (runActions s0 before) line now).esp_ot_status
        = OT_RESPONSE_READY) :
    (runActions s0 actions).esp_ot_response_bit_index ≤ 32
      ∧ (esp_ot_handle_interrupt (runActions s0 before) line now).esp_ot_response_bit_index
          = 32 := by
  have hle : ∀ acts : List LinkAction,
      (runActions s0 acts).esp_ot_response_bit_index ≤ 32 :=
    fun acts => runActions_bit_index_le acts s0 (by omega)
  have hge := handle_moves_to_response_ready (runActions s0 before) line now hbefore hmove
  have hle2 := handle_bit_index_le (runActions s0 before) line now (hle before)
  exact ⟨hle actions, by omega⟩

/-- Witness of C29: from a ready master with bit index 0, a request is sent,
`process` is called, and the edges of a reply arrive; the stop-bit edge at
83500 moves the status to `OT_RESPONSE_READY`. -/
theorem bit_index_invariant_witness :
    (({ sampleState false OT_READY 0 with esp_ot_response_bit_index := 0 }
          : OtState).esp_ot_response_bit_index = 0
      ∧ (runActions { sampleState false OT_READY 0 with esp_ot_response_bit_index := 0 }
            ([LinkAction.send_request_async 0x80190000 34000, LinkAction.process 40000]
              ++ edgeActions ([(50000, 1), (50500, 0)]
                  ++ dataEdges 0xC0193C80 (fun _ => none) 32 50500))).esp_ot_status
          ≠ OT_RESPONSE_READY
      ∧ (esp_ot_handle_interrupt
            (runActions { sampleState false OT_READY 0 with esp_ot_response_bit_index := 0 }
              ([LinkAction.send_request_async 0x80190000 34000, LinkAction.process 40000]
                ++ edgeActions ([(50000, 1), (50500, 0)]
                    ++ dataEdges 0xC0193C80 (fun _ => none) 32 50500)))
            0 83500).esp_ot_status = OT_RESPONSE_READY)
    ∧ ((runActions { sampleState false OT_READY 0 with esp_ot_response_bit_index := 0 }
          [LinkAction.send_response 0xC0193C80, LinkAction.interrupt 1 5000,
            LinkAction.process 6000]).esp_ot_response_bit_index ≤ 32
      ∧ (esp_ot_handle_interrupt
            (runActions { sampleState false OT_READY 0 with esp_ot_response_bit_index := 0 }
              ([LinkAction.send_request_async 0x80190000 34000, LinkAction.process 40000]
                ++ edgeActions ([(50000, 1), (50500, 0)]
                    ++ dataEdges 0xC0193C80 (fun _ => none) 32 50500)))
            0 83500).esp_ot_response_bit_index = 32) :=
  have hb : (runActions { sampleState false OT_READY 0 with esp_ot_response_bit_index := 0 }
        ([LinkAction.send_request_async 0x80190000 34000, LinkAction.process 40000]
          ++ edgeActions ([(50000, 1), (50500, 0)]
              ++ dataEdges 0xC0193C80 (fun _ => none) 32 50500))).esp_ot_status
      ≠ OT_RESPONSE_READY := by
    set_option maxRecDepth 100000 in decide
  have hm : (esp_ot_handle_interrupt
        (runActions { sampleState false OT_READY 0 with esp_ot_response_bit_index := 0 }
          ([LinkAction.send_request_async 0x80190000 34000, LinkAction.process 40000]
            ++ edgeActions ([(50000, 1), (50500, 0)]
                ++ dataEdges 0xC0193C80 (fun _ => none) 32 50500)))
        0 83500).esp_ot_status = OT_RESPONSE_READY := by
    set_option maxRecDepth 100000 in decide
  ⟨⟨rfl, hb, hm⟩,
    bit_index_invariant { sampleState false OT_READY 0 with esp_ot_response_bit_index := 0 }
      [LinkAction.send_response 0xC0193C80, LinkAction.interrupt 1 5000,
        LinkAction.process 6000]
      ([LinkAction.send_request_async 0x80190000 34000, LinkAction.process 40000]
        ++ edgeActions ([(50000, 1), (50500, 0)]
            ++ dataEdges 0xC0193C80 (fun _ => none) 32 50500))
      0 83500 rfl hb hm⟩

/-! ## Helper lemmas: streams with a wrong number of data bits -/

theorem process_response_fields (s : OtState) :
    (esp_ot_process_response s).esp_ot_response_status = s.esp_ot_response_status
      ∧ (esp_ot_process_response s).esp_ot_status = s.esp_ot_status := by
  unfold esp_ot_process_response
  split_ifs <;> exact ⟨rfl, rfl⟩

/-- A call of `process` during a reception, before the timeout, changes
nothing. -/
theorem process_receiving_eq (s : OtState) (now : Nat)
    (hs : s.esp_ot_status = OT_RESPONSE_RECEIVING)
    (ht : ¬ sub32 (now % 2 ^ 32) s.esp_ot_response_timestamp > 1000000) :
    process s now = s := by
  have ht2 : ¬ sub32 (now % 4294967296) s.esp_ot_response_timestamp > 1000000 := by
    simpa using ht
  unfold process
  simp only [hs, Nat.reducePow, ht2]
  simp

theorem processCalls_cons (s : OtState) (n : Nat) (rest : List Nat) :
    processCalls s (n :: rest) = processCalls (process s n) rest := rfl

/-- Once the status is `OT_READY` or `OT_DELAY`, calls of `process` keep the
last response status. -/
theorem processCalls_settled (nows : List Nat) :
    ∀ s : OtState, s.esp_ot_status = OT_READY ∨ s.esp_ot_status = OT_DELAY →
      (processCalls s nows).esp_ot_response_status = s.esp_ot_response_status := by
  induction nows with
  | nil => intro s _; rfl
  | cons n rest ih =>
    intro s hs
    have hstep : (process s n).esp_ot_response_status = s.esp_ot_response_status
        ∧ ((process s n).esp_ot_status = OT_READY ∨ (process s n).esp_ot_status = OT_DELAY) := by
      rcases hs with h | h
      · rw [process_ready_eq s n h]
        exact ⟨rfl, Or.inl h⟩
      · rw [process_delay_eq s n h]
        split_ifs
        all_goals first
          | exact ⟨rfl, Or.inl rfl⟩
          | exact ⟨rfl, Or.inr h⟩
    show (processCalls (process s n) rest).esp_ot_response_status = _
    rw [ih _ hstep.2, hstep.1]

/-- Calls of `process` during a reception: the last response status becomes
`OT_STATUS_TIMEOUT` at the first call made more than one second after the
recorded timestamp, and is unchanged before. -/
theorem processCalls_receiving (nows : List Nat) (s : OtState)
    (hs : s.esp_ot_status = OT_RESPONSE_RECEIVING) :
    (processCalls s nows).esp_ot_response_status
      = if nows.any (fun n => decide (sub32 (n % 2 ^ 32) s.esp_ot_response_timestamp > 1000000))
        then OT_STATUS_TIMEOUT else s.esp_ot_response_status := by
  induction nows with
  | nil => rfl
  | cons n rest ih =>
    show (processCalls (process s n) rest).esp_ot_response_status = _
    by_cases ht : sub32 (n % 2 ^ 32) s.esp_ot_response_timestamp > 1000000
    · rw [process_timeout_eq s n (by rw [hs]; decide) ht,
        processCalls_settled rest _ (Or.inl (process_response_fields _).2),
        (process_response_fields _).1]
      simp only [List.any_cons, ht, decide_True, Bool.true_or, if_true]
    · rw [process_receiving_eq s n hs ht, ih]
      simp only [List.any_cons, ht, decide_False, Bool.false_or]

/-- The data cells of bits `k - 1 .. 0`, delivered in `OT_RESPONSE_RECEIVING`
when at most `32 - k` bits are already stored. -/
theorem runEdges_dataEdges_le (f : Nat) (boundary : Nat → Option Nat) :
    ∀ (k t : Nat) (s : OtState),
      s.esp_ot_status = OT_RESPONSE_RECEIVING →
      s.esp_ot_response_timestamp = t % 2 ^ 32 →
      s.esp_ot_response_bit_index + k ≤ 32 →
      s.response < 2 ^ 32 →
      runEdges s (dataEdges f boundary k t) =
        { s with response := (s.response * 2 ^ k + f % 2 ^ k) % 2 ^ 32,
                 esp_ot_response_timestamp := (t + 1000 * k) % 2 ^ 32,
                 esp_ot_response_bit_index := s.esp_ot_response_bit_index + k } := by
  intro k
  induction k with
  | zero =>
    intro t s hs hts hi hr
    obtain ⟨sl, cb, r, st, rs, ts, bi, cc⟩ := s
    simp only at hs hts hi hr
    simp only [dataEdges, runEdges, List.foldl_nil, OtState.mk.injEq, true_and, and_true]
    refine ⟨?_, ?_⟩
    · simp only [Nat.pow_zero, Nat.mod_one]
      omega
    · omega
  | succ k ih =>
    intro t s hs hts hi hr
    have hlt : s.esp_ot_response_bit_index < 32 := by omega
    rw [dataEdges, runEdges_append, runEdges_cell_data s t _ _ hs hts hlt]
    have hpos : 0 < 2 ^ 32 := Nat.two_pow_pos 32
    rw [ih (t + 1000) _ (by simpa using hs) (by simp only) (by simp only; omega)
      (by simp only; exact Nat.mod_lt _ hpos)]
    simp only [accumulate_step, OtState.mk.injEq, true_and, and_true]
    refine ⟨?_, ?_⟩
    · congr 1
      omega
    · omega

/-- A stream with 31 data bits, delivered in `OT_RESPONSE_WAITING`: the stop
bit is stored as the 32nd data bit and the reception stays open. -/
theorem runEdges_shortFrame (s : OtState) (v t0 : Nat) (boundary : Nat → Option Nat)
    (hs : s.esp_ot_status = OT_RESPONSE_WAITING) (hv : v < 2 ^ 31)
    (hr : s.response < 2 ^ 32) :
    runEdges s (shortFrameEdges t0 v boundary) =
      { s with esp_ot_status := OT_RESPONSE_RECEIVING,
               response := 2 * v + 1,
               esp_ot_response_timestamp := (t0 + 32500) % 2 ^ 32,
               esp_ot_response_bit_index := 32 } := by
  have htime1 : (t0 + 500 + 1000 * 31) % 2 ^ 32 = (t0 + 500 + 31000) % 2 ^ 32 := by
    omega
  have htime2 : (t0 + 500 + 31000 + 1000) % 2 ^ 32 = (t0 + 32500) % 2 ^ 32 := by
    omega
  have hacc : (2 * ((s.response * 2 ^ 31 + v % 2 ^ 31) % 2 ^ 32) + 1) % 2 ^ 32 = 2 * v + 1 := by
    omega
  rw [shortFrameEdges, runEdges_append, runEdges_append, runEdges_start s t0 hs]
  refine (congrArg (fun st => runEdges st _)
    (runEdges_dataEdges_le v boundary 31 (t0 + 500) _ (by simp only) (by simp only)
      (by simp only; omega) (by simpa using hr))).trans ?_
  simp only [htime1]
  refine (runEdges_cell_data _ (t0 + 500 + 31000) _ _ (by simp only) (by simp only)
    (by simp only; omega)).trans ?_
  simp only [htime2, hacc, if_true, OtState.mk.injEq, true_and, and_true]

/-- A stream with 33 data bits, delivered in `OT_RESPONSE_WAITING`: the 33rd
data cell is taken for the stop bit and the cell after it is ignored. -/
theorem runEdges_longFrame (s : OtState) (f t0 : Nat) (x : Bool) (boundary : Nat → Option Nat)
    (hs : s.esp_ot_status = OT_RESPONSE_WAITING) (hf : f < 2 ^ 32)
    (hr : s.response < 2 ^ 32) :
    runEdges s (longFrameEdges t0 f x boundary) =
      { s with esp_ot_status := OT_RESPONSE_READY,
               response := f,
               esp_ot_response_timestamp := (t0 + 33500) % 2 ^ 32,
               esp_ot_response_bit_index := 32 } := by
  have htime : (t0 + 500 + 32000 + 1000) % 2 ^ 32 = (t0 + 33500) % 2 ^ 32 := by
    omega
  have hignore : ∀ (st : OtState) (t : Nat) (b : Option Nat) (y : Bool),
      st.esp_ot_status = OT_RESPONSE_READY → runEdges st (cellEdges t b y) = st := by
    intro st t b y hst
    have hi : ∀ line now, esp_ot_handle_interrupt st line now = st := fun line now =>
      handle_ignored st line now (Or.inr (Or.inr (Or.inr (Or.inr (Or.inl hst)))))
    cases b with
    | none =>
      simp only [cellEdges, runEdges, List.nil_append, List.foldl_cons, List.foldl_nil, hi]
    | some level =>
      simp only [cellEdges, runEdges, List.singleton_append, List.foldl_cons, List.foldl_nil, hi]
  rw [longFrameEdges, runEdges_append, runEdges_append, runEdges_append, runEdges_start s t0 hs,
    runEdges_data32 _ f (t0 + 500) boundary (by simp only) (by simp only) (by simp only) hf
      (by simpa using hr)]
  rw [runEdges_cell_stop _ (t0 + 500 + 32000) _ _ (by simp only) (by simp only)
    (by simp only)]
  refine (hignore _ _ _ _ (by simp only)).trans ?_
  simp only [htime]

/-- The word `0xC0193C80` (`OT_READ_ACK`, data id 25) passes the response
check. -/
theorem valid_sample_response : esp_ot_is_valid_response 0xC0193C80 = true := by
  rw [esp_ot_is_valid_response_iff, parity_eq_popcount _ (by decide)]
  decide

/-! ## The claims (streams with a wrong number of data bits) -/

/-- C21, as stated, fails: a master in `OT_RESPONSE_WAITING` receives a
nominally timed stream of a start bit, 33 data bits (the 32 bits of the valid
reply `0xC0193C80` followed by a 0 bit) and a stop bit; the stream leaves the
status `OT_RESPONSE_READY` with the accumulator `0xC0193C80`, and the following
calls of `process` leave the last response status `OT_STATUS_SUCCESS`. -/
theorem extra_bit_stream_counterexample :
    (runEdges (sampleState false OT_RESPONSE_WAITING 0)
        (longFrameEdges 50000 0xC0193C80 false (fun _ => none))).esp_ot_status
        = OT_RESPONSE_READY
      ∧ (runEdges (sampleState false OT_RESPONSE_WAITING 0)
          (longFrameEdges 50000 0xC0193C80 false (fun _ => none))).response = 0xC0193C80
      ∧ (processCalls
          (runEdges (sampleState false OT_RESPONSE_WAITING 0)
            (longFrameEdges 50000 0xC0193C80 false (fun _ => none)))
          [90000, 200000, 2000000]).esp_ot_response_status = OT_STATUS_SUCCESS := by
  have hrun := runEdges_longFrame (sampleState false OT_RESPONSE_WAITING 0) 0xC0193C80 50000
    false (fun _ => none) rfl (by decide) (by decide)
  rw [hrun]
  refine ⟨rfl, rfl, ?_⟩
  show (processCalls (process _ 90000) [200000, 2000000]).esp_ot_response_status = _
  have hp := process_response_ready
    ({ sampleState false OT_RESPONSE_WAITING 0 with
        esp_ot_status := OT_RESPONSE_READY, response := 0xC0193C80,
        esp_ot_response_timestamp := (50000 + 33500) % 2 ^ 32,
        esp_ot_response_bit_index := 32 } : OtState) 90000 rfl (by decide)
  rw [processCalls_settled _ _ (Or.inr hp.2.2), hp.1]
  simp only [sampleState, valid_sample_response, Bool.false_eq_true, if_false, if_true]

/-- C21, amended. For a nominally timed stream delivered to
`esp_ot_handle_interrupt` from `OT_RESPONSE_WAITING` and followed by calls of
`process`:
with 31 data bits (those of `v`) the stop bit is stored as the 32nd data bit,
the status stays `OT_RESPONSE_RECEIVING`, and the last response status becomes
`OT_STATUS_TIMEOUT` as soon as one call of `process` comes more than one second
after the last edge, and keeps its earlier value until then;
with 33 data bits (the 32 bits of `f`, then `x`) the 33rd data cell is taken
for the stop bit, the accumulator holds `f`, and the last response status after
the calls of `process` is `OT_STATUS_TIMEOUT` if the first call comes more than
one second after that cell, and otherwise `OT_STATUS_SUCCESS` when `f` passes
the validity check of the role and `OT_STATUS_INVALID` when it does not. -/
theorem wrong_length_streams (s : OtState) (t0 v f now : Nat) (nows : List Nat) (x : Bool)
    (boundary : Nat → Option Nat)
    (hs : s.esp_ot_status = OT_RESPONSE_WAITING) (hr : s.response < 2 ^ 32)
    (hv : v < 2 ^ 31) (hf : f < 2 ^ 32) :
    ((runEdges s (shortFrameEdges t0 v boundary)).esp_ot_status = OT_RESPONSE_RECEIVING
      ∧ (runEdges s (shortFrameEdges t0 v boundary)).response = 2 * v + 1
      ∧ (runEdges s (shortFrameEdges t0 v boundary)).esp_ot_response_bit_index = 32
      ∧ (processCalls (runEdges s (shortFrameEdges t0 v boundary)) nows).esp_ot_response_status
          = if nows.any (fun n => decide (sub32 (n % 2 ^ 32) ((t0 + 32500) % 2 ^ 32) > 1000000))
            then OT_STATUS_TIMEOUT else s.esp_ot_response_status)
    ∧ ((runEdges s (longFrameEdges t0 f x boundary)).esp_ot_status = OT_RESPONSE_READY
      ∧ (runEdges s (longFrameEdges t0 f x boundary)).response = f
      ∧ (runEdges s (longFrameEdges t0 f x boundary)).esp_ot_response_bit_index = 32
      ∧ (processCalls (runEdges s (longFrameEdges t0 f x boundary))
            (now :: nows)).esp_ot_response_status
          = if sub32 (now % 2 ^ 32) ((t0 + 33500) % 2 ^ 32) > 1000000 then OT_STATUS_TIMEOUT
            else if (if s.esp_ot_is_slave then esp_ot_is_valid_request f
                     else esp_ot_is_valid_response f)
              then OT_STATUS_SUCCESS else OT_STATUS_INVALID) := by
  constructor
  · rw [runEdges_shortFrame s v t0 boundary hs hv hr]
    refine ⟨rfl, rfl, rfl, ?_⟩
    rw [processCalls_receiving nows _ rfl]
  · have hrun := runEdges_longFrame s f t0 x boundary hs hf hr
    generalize runEdges s (longFrameEdges t0 f x boundary) = S at hrun ⊢
    have hSs : S.esp_ot_status = OT_RESPONSE_READY := by simp only [hrun]
    have hSr : S.response = f := by simp only [hrun]
    have hSi : S.esp_ot_response_bit_index = 32 := by simp only [hrun]
    have hSt : S.esp_ot_response_timestamp = (t0 + 33500) % 2 ^ 32 := by simp only [hrun]
    have hSl : S.esp_ot_is_slave = s.esp_ot_is_slave := by simp only [hrun]
    refine ⟨hSs, hSr, hSi, ?_⟩
    rw [processCalls_cons, ← hSt]
    by_cases ht : sub32 (now % 2 ^ 32) S.esp_ot_response_timestamp > 1000000
    · rw [process_timeout_eq S now (by rw [hSs]; decide) ht,
        processCalls_settled nows _ (Or.inl (process_response_fields _).2),
        (process_response_fields _).1, if_pos ht]
    · have hp := process_response_ready S now hSs (Nat.le_of_not_gt ht)
      rw [processCalls_settled nows _ (Or.inr hp.2.2), hp.1, if_neg ht, hSr, hSl]

/-- Witness of C21 (amended): a master waiting for a reply receives the 31-bit
stream of `0x60099E40` and, separately, the 33-bit stream whose first 32 bits
are `0xC0193C80`; `process` is called 6.5 ms, 0.5 s and 1.5 s after the
stream. -/
theorem wrong_length_streams_witness :
    ((sampleState false OT_RESPONSE_WAITING 0).esp_ot_status = OT_RESPONSE_WAITING
      ∧ (sampleState false OT_RESPONSE_WAITING 0).response < 2 ^ 32
      ∧ 0x60099E40 < 2 ^ 31 ∧ 0xC0193C80 < 2 ^ 32)
    ∧ (((runEdges (sampleState false OT_RESPONSE_WAITING 0)
            (shortFrameEdges 50000 0x60099E40 (fun _ => none))).esp_ot_status
          = OT_RESPONSE_RECEIVING
        ∧ (runEdges (sampleState false OT_RESPONSE_WAITING 0)
            (shortFrameEdges 50000 0x60099E40 (fun _ => none))).response = 2 * 0x60099E40 + 1
        ∧ (runEdges (sampleState false OT_RESPONSE_WAITING 0)
            (shortFrameEdges 50000 0x60099E40 (fun _ => none))).esp_ot_response_bit_index = 32
        ∧ (processCalls
              (runEdges (sampleState false OT_RESPONSE_WAITING 0)
                (shortFrameEdges 50000 0x60099E40 (fun _ => none)))
              [500000, 1500000]).esp_ot_response_status
            = if [500000, 1500000].any
                  (fun n => decide (sub32 (n % 2 ^ 32) ((50000 + 32500) % 2 ^ 32) > 1000000))
              then OT_STATUS_TIMEOUT
              else (sampleState false OT_RESPONSE_WAITING 0).esp_ot_response_status)
      ∧ ((runEdges (sampleState false OT_RESPONSE_WAITING 0)
            (longFrameEdges 50000 0xC0193C80 false (fun _ => none))).esp_ot_status
          = OT_RESPONSE_READY
        ∧ (runEdges (sampleState false OT_RESPONSE_WAITING 0)
            (longFrameEdges 50000 0xC0193C80 false (fun _ => none))).response = 0xC0193C80
        ∧ (runEdges (sampleState false OT_RESPONSE_WAITING 0)
            (longFrameEdges 50000 0xC0193C80 false (fun _ => none))).esp_ot_response_bit_index
            = 32
        ∧ (processCalls
              (runEdges (sampleState false OT_RESPONSE_WAITING 0)
                (longFrameEdges 50000 0xC0193C80 false (fun _ => none)))
              (90000 :: [500000, 1500000])).esp_ot_response_status
            = if sub32 (90000 % 2 ^ 32) ((50000 + 33500) % 2 ^ 32) > 1000000
              then OT_STATUS_TIMEOUT
              else if (if (sampleState false OT_RESPONSE_WAITING 0).esp_ot_is_slave
                        then esp_ot_is_valid_request 0xC0193C80
                        else esp_ot_is_valid_response 0xC0193C80)
                then OT_STATUS_SUCCESS else OT_STATUS_INVALID)) :=
  ⟨⟨rfl, by decide, by decide, by decide⟩,
    wrong_length_streams (sampleState false OT_RESPONSE_WAITING 0) 50000 0x60099E40 0xC0193C80
      90000 [500000, 1500000] false (fun _ => none) rfl (by decide) (by decide) (by decide)⟩

/-! ## Helper lemmas: the emitted frame, elapsed time across a clock wrap -/

/-- The emission shared by both transmitters, as Manchester cells. -/
theorem sendFrame_cells (f : Nat) :
    sendFrame f
      = manchesterCell true
        ++ (List.range 32).flatMap (fun j => manchesterCell (f.testBit (31 - j)))
        ++ manchesterCell true
        ++ [OutAction.set_level 1] := by
  simp only [sendFrame, sendBits_eq, esp_ot_send_bit_eq, esp_ot_set_idle_state]

theorem length_sendFrame (f : Nat) : (sendFrame f).length = 34 * 4 + 1 := by
  rw [sendFrame_cells]
  simp only [List.length_append, length_flatMap_cells, length_manchesterCell,
    List.length_range, List.length_singleton]

/-- The wrapping subtraction of the truncated clock values gives the true
elapsed time, whether or not the 32-bit clock wrapped in between. -/
theorem sub32_elapsed (t d : Nat) (hd : d < 2 ^ 32) :
    sub32 ((t + d) % 2 ^ 32) (t % 2 ^ 32) = d := by
  unfold sub32
  omega

/-! ## The claims (slave-side transmitter) -/

/-- C32. `esp_ot_send_response` (the slave-side transmitter): from any status
other than `OT_READY` (state `s`) it returns false, emits nothing and changes
nothing; from `OT_READY` (state `r`) it returns true, emits the same 34-cell
Manchester sequence as `esp_ot_send_request_async` for the given frame (start
cell, the cells of bits 31 down to 0, stop cell, then the idle level), clears
the response accumulator to 0 and the last response status to
`OT_STATUS_NONE`, and ends with status `OT_READY` (not
`OT_RESPONSE_WAITING`), every other field, the timestamp included, being
unchanged. -/
theorem send_response_behaviour (s r : OtState) (f now : Nat)
    (hs : s.esp_ot_status ≠ OT_READY) (hr : r.esp_ot_status = OT_READY) :
    esp_ot_send_response s f = (false, [], s)
      ∧ (esp_ot_send_response r f).1 = true
      ∧ (esp_ot_send_response r f).2.1 = (esp_ot_send_request_async r f now).2.1
      ∧ (esp_ot_send_response r f).2.1
          = manchesterCell true
            ++ (List.range 32).flatMap (fun j => manchesterCell (f.testBit (31 - j)))
            ++ manchesterCell true
            ++ [OutAction.set_level 1]
      ∧ (esp_ot_send_response r f).2.1.length = 34 * 4 + 1
      ∧ (esp_ot_send_response r f).2.2 =
          { r with response := 0, esp_ot_response_status := OT_STATUS_NONE }
      ∧ (esp_ot_send_response r f).2.2.esp_ot_status = OT_READY
      ∧ (esp_ot_send_response r f).2.2.esp_ot_status ≠ OT_RESPONSE_WAITING := by
  have hready : esp_ot_is_ready r = true := by simp [esp_ot_is_ready, hr]
  have hnot : esp_ot_is_ready s = false := by simp [esp_ot_is_ready, hs]
  have hout : (esp_ot_send_response r f).2.1 = sendFrame f := by
    simp only [esp_ot_send_response, hready, if_true]
  have hout2 : (esp_ot_send_request_async r f now).2.1 = sendFrame f := by
    simp only [esp_ot_send_request_async, hready, if_true]
  have hst : (esp_ot_send_response r f).2.2 =
      { r with response := 0, esp_ot_response_status := OT_STATUS_NONE } := by
    obtain ⟨sl, cb, resp, st, rs, ts, bi, cc⟩ := r
    simp only at hr
    subst hr
    simp [esp_ot_send_response, esp_ot_is_ready]
  refine ⟨?_, ?_, ?_, ?_, ?_, hst, ?_, ?_⟩
  · simp only [esp_ot_send_response, hnot, Bool.false_eq_true, if_false]
  · simp only [esp_ot_send_response, hready, if_true]
  · rw [hout, hout2]
  · rw [hout, sendFrame_cells]
  · rw [hout, length_sendFrame]
  · rw [hst]
    exact hr
  · rw [hst]
    show r.esp_ot_status ≠ OT_RESPONSE_WAITING
    rw [hr]
    decide

/-- Witness of C32: a slave that is still in `OT_DELAY`, and a ready slave
answering with the frame `0xC0193C80`. -/
theorem send_response_behaviour_witness :
    ((sampleState true OT_DELAY 77).esp_ot_status ≠ OT_READY
      ∧ (sampleState true OT_READY 77).esp_ot_status = OT_READY)
    ∧ (esp_ot_send_response (sampleState true OT_DELAY 77) 0xC0193C80
          = (false, [], sampleState true OT_DELAY 77)
      ∧ (esp_ot_send_response (sampleState true OT_READY 77) 0xC0193C80).1 = true
      ∧ (esp_ot_send_response (sampleState true OT_READY 77) 0xC0193C80).2.1
          = (esp_ot_send_request_async (sampleState true OT_READY 77) 0xC0193C80 34000).2.1
      ∧ (esp_ot_send_response (sampleState true OT_READY 77) 0xC0193C80).2.1
          = manchesterCell true
            ++ (List.range 32).flatMap
                (fun j => manchesterCell (Nat.testBit 0xC0193C80 (31 - j)))
            ++ manchesterCell true
            ++ [OutAction.set_level 1]
      ∧ (esp_ot_send_response (sampleState true OT_READY 77) 0xC0193C80).2.1.length
          = 34 * 4 + 1
      ∧ (esp_ot_send_response (sampleState true OT_READY 77) 0xC0193C80).2.2 =
          { sampleState true OT_READY 77 with
              response := 0, esp_ot_response_status := OT_STATUS_NONE }
      ∧ (esp_ot_send_response (sampleState true OT_READY 77) 0xC0193C80).2.2.esp_ot_status
          = OT_READY
      ∧ (esp_ot_send_response (sampleState true OT_READY 77) 0xC0193C80).2.2.esp_ot_status
          ≠ OT_RESPONSE_WAITING) :=
  ⟨⟨by decide, rfl⟩,
    send_response_behaviour (sampleState true OT_DELAY 77) (sampleState true OT_READY 77)
      0xC0193C80 34000 (by decide) rfl⟩

/-! ## The claims (timestamp wraparound) -/

/-- C31. Timestamp wraparound is harmless: the recorded timestamp is the clock
truncated to 32 bits (`t % 2 ^ 32` for an edge at clock value `t`), and for
every true elapsed time `d < 2 ^ 32` the wrapped difference of the clock read
at `t + d` and the timestamp equals `d`, also when the 32-bit clock wrapped in
between.  Hence the comparisons of `esp_ot_handle_interrupt` against 750 (in
`OT_RESPONSE_START_BIT` and in `OT_RESPONSE_RECEIVING`) and those of `process`
against 1,000,000 (timeout) and against 20,000 or 100,000 (`OT_DELAY`, by role)
are decided by `d` itself, for every status `st`. -/
theorem timestamp_wraparound_harmless (s : OtState) (t d line : Nat)
    (st : esp_ot_opentherm_status_t)
    (hts : s.esp_ot_response_timestamp = t % 2 ^ 32) (hd : d < 2 ^ 32) :
    sub32 ((t + d) % 2 ^ 32) s.esp_ot_response_timestamp = d
      ∧ (esp_ot_handle_interrupt { s with esp_ot_status := OT_RESPONSE_WAITING } line
          t).esp_ot_response_timestamp = t % 2 ^ 32
      ∧ esp_ot_handle_interrupt { s with esp_ot_status := OT_RESPONSE_START_BIT } line (t + d)
          = (if d < 750 ∧ line = 0 then
              { s with esp_ot_status := OT_RESPONSE_RECEIVING,
                       esp_ot_response_timestamp := (t + d) % 2 ^ 32,
                       esp_ot_response_bit_index := 0 }
            else
              { s with esp_ot_status := OT_RESPONSE_INVALID,
                       esp_ot_response_timestamp := (t + d) % 2 ^ 32 })
      ∧ esp_ot_handle_interrupt { s with esp_ot_status := OT_RESPONSE_RECEIVING } line (t + d)
          = (if d > 750 then
              if s.esp_ot_response_bit_index < 32 then
                { s with esp_ot_status := OT_RESPONSE_RECEIVING,
                         response := ((s.response <<< 1) % 2 ^ 32) ||| (if line = 0 then 1 else 0),
                         esp_ot_response_timestamp := (t + d) % 2 ^ 32,
                         esp_ot_response_bit_index := (s.esp_ot_response_bit_index + 1) % 256 }
              else
                { s with esp_ot_status := OT_RESPONSE_READY,
                         esp_ot_response_timestamp := (t + d) % 2 ^ 32 }
            else { s with esp_ot_status := OT_RESPONSE_RECEIVING })
      ∧ ((process { s with esp_ot_status := st } (t + d)).esp_ot_status = OT_READY ↔
          st = OT_READY
            ∨ (st ≠ OT_NOT_INITIALIZED ∧ st ≠ OT_DELAY ∧ d > 1000000)
            ∨ (st = OT_DELAY ∧ d > (if s.esp_ot_is_slave then 20000 else 100000)))
      ∧ (process { s with esp_ot_status := st } (t + d)).esp_ot_response_status
          = (if st ≠ OT_READY ∧ st ≠ OT_NOT_INITIALIZED ∧ st ≠ OT_DELAY ∧ d > 1000000
              then OT_STATUS_TIMEOUT
            else if st = OT_RESPONSE_INVALID then OT_STATUS_INVALID
            else if st = OT_RESPONSE_READY then
              (if (if s.esp_ot_is_slave then esp_ot_is_valid_request s.response
                   else esp_ot_is_valid_response s.response)
               then OT_STATUS_SUCCESS else OT_STATUS_INVALID)
            else s.esp_ot_response_status) := by
  have hsub : sub32 ((t + d) % 2 ^ 32) s.esp_ot_response_timestamp = d := by
    rw [hts]
    exact sub32_elapsed t d hd
  have hsub2 : sub32 ((t + d) % 4294967296) s.esp_ot_response_timestamp = d := by
    simpa using hsub
  refine ⟨hsub, ?_, ?_, ?_, ?_, ?_⟩
  · rw [handle_waiting _ line t (by simp only)]
    split_ifs <;> simp only
  · rw [handle_start_bit _ line (t + d) (by simp only)]
    simp only [hsub]
  · rw [handle_receiving _ line (t + d) (by simp only)]
    simp only [hsub]
  · cases st <;> cases hsl : s.esp_ot_is_slave <;>
      by_cases h1 : d > 1000000 <;> by_cases h2 : d > 100000 <;> by_cases h3 : d > 20000 <;>
      simp [process, esp_ot_process_response, hsub2, hsl, h1, h2, h3] <;>
      first
        | omega
        | (split_ifs <;> simp)
  · cases st <;> by_cases h1 : d > 1000000 <;>
      simp [process, esp_ot_process_response, hsub2, h1] <;>
      (split_ifs <;> simp)

/-- Witness of C31: the timestamp was recorded at clock value 4294967000 and
the next reading comes 1000 us later, at 4294968000, which truncates to 704:
the 32-bit clock wrapped between the two readings. -/
theorem timestamp_wraparound_harmless_witness :
    (nearWrapState.esp_ot_response_timestamp = 4294967000 % 2 ^ 32 ∧ 1000 < 2 ^ 32)
    ∧ (4294967000 + 1000) % 2 ^ 32 = 704
    ∧ (sub32 ((4294967000 + 1000) % 2 ^ 32) nearWrapState.esp_ot_response_timestamp = 1000
      ∧ (esp_ot_handle_interrupt { nearWrapState with esp_ot_status := OT_RESPONSE_WAITING } 0
          4294967000).esp_ot_response_timestamp = 4294967000 % 2 ^ 32
      ∧ esp_ot_handle_interrupt { nearWrapState with esp_ot_status := OT_RESPONSE_START_BIT } 0
            (4294967000 + 1000)
          = (if 1000 < 750 ∧ 0 = 0 then
              { nearWrapState with esp_ot_status := OT_RESPONSE_RECEIVING,
                                   esp_ot_response_timestamp := (4294967000 + 1000) % 2 ^ 32,
                                   esp_ot_response_bit_index := 0 }
            else
              { nearWrapState with esp_ot_status := OT_RESPONSE_INVALID,
                                   esp_ot_response_timestamp := (4294967000 + 1000) % 2 ^ 32 })
      ∧ esp_ot_handle_interrupt { nearWrapState with esp_ot_status := OT_RESPONSE_RECEIVING } 0
            (4294967000 + 1000)
          = (if 1000 > 750 then
              if nearWrapState.esp_ot_response_bit_index < 32 then
                { nearWrapState with
                    esp_ot_status := OT_RESPONSE_RECEIVING,
                    response := ((nearWrapState.response <<< 1) % 2 ^ 32)
                      ||| (if 0 = 0 then 1 else 0),
                    esp_ot_response_timestamp := (4294967000 + 1000) % 2 ^ 32,
                    esp_ot_response_bit_index :=
                      (nearWrapState.esp_ot_response_bit_index + 1) % 256 }
              else
                { nearWrapState with esp_ot_status := OT_RESPONSE_READY,
                                     esp_ot_response_timestamp := (4294967000 + 1000) % 2 ^ 32 }
            else { nearWrapState with esp_ot_status := OT_RESPONSE_RECEIVING })
      ∧ ((process { nearWrapState with esp_ot_status := OT_RESPONSE_RECEIVING }
            (4294967000 + 1000)).esp_ot_status = OT_READY ↔
          OT_RESPONSE_RECEIVING = OT_READY
            ∨ (OT_RESPONSE_RECEIVING ≠ OT_NOT_INITIALIZED ∧ OT_RESPONSE_RECEIVING ≠ OT_DELAY
                ∧ 1000 > 1000000)
            ∨ (OT_RESPONSE_RECEIVING = OT_DELAY
                ∧ 1000 > (if nearWrapState.esp_ot_is_slave then 20000 else 100000)))
      ∧ (process { nearWrapState with esp_ot_status := OT_RESPONSE_RECEIVING }
            (4294967000 + 1000)).esp_ot_response_status
          = (if OT_RESPONSE_RECEIVING ≠ OT_READY ∧ OT_RESPONSE_RECEIVING ≠ OT_NOT_INITIALIZED
                ∧ OT_RESPONSE_RECEIVING ≠ OT_DELAY ∧ 1000 > 1000000
              then OT_STATUS_TIMEOUT
            else if OT_RESPONSE_RECEIVING = OT_RESPONSE_INVALID then OT_STATUS_INVALID
            else if OT_RESPONSE_RECEIVING = OT_RESPONSE_READY then
              (if (if nearWrapState.esp_ot_is_slave
                    then esp_ot_is_valid_request nearWrapState.response
                    else esp_ot_is_valid_response nearWrapState.response)
               then OT_STATUS_SUCCESS else OT_STATUS_INVALID)
            else nearWrapState.esp_ot_response_status)) :=
  ⟨⟨by decide, by decide⟩, by decide,
    timestamp_wraparound_harmless nearWrapState 4294967000 1000 0 OT_RESPONSE_RECEIVING
      (by decide) (by decide)⟩

/-! ## Helper lemmas: bounded restoration of `OT_READY` -/

theorem runEvents_append (s : OtState) (l₁ l₂ : List LinkEvent) :
    runEvents s (l₁ ++ l₂) = runEvents (runEvents s l₁) l₂ := by
  simp [runEvents, List.foldl_append]

theorem handle_is_slave (s : OtState) (line now : Nat) :
    (esp_ot_handle_interrupt s line now).esp_ot_is_slave = s.esp_ot_is_slave := by
  unfold esp_ot_handle_interrupt
  simp only
  split_ifs <;> rfl

theorem runEvents_is_slave (events : List LinkEvent) :
    ∀ s : OtState, (runEvents s events).esp_ot_is_slave = s.esp_ot_is_slave := by
  induction events with
  | nil => intro s; rfl
  | cons e es ih =>
    intro s
    cases e with
    | edge line now =>
      exact (ih (esp_ot_handle_interrupt s line now)).trans (handle_is_slave s line now)
    | tick now =>
      exact (ih (process s now)).trans (process_is_slave s now)

/-- In master role `OT_READY` is left neither by input edges nor by calls of
`process`. -/
theorem runEvents_ready_master (events : List LinkEvent) :
    ∀ s : OtState, s.esp_ot_status = OT_READY → s.esp_ot_is_slave = false →
      runEvents s events = s := by
  induction events with
  | nil => intro s _ _; rfl
  | cons e es ih =>
    intro s hs hm
    cases e with
    | edge line now =>
      have hstep : esp_ot_handle_interrupt s line now = s :=
        handle_ignored s line now (Or.inl ⟨hs, by simp [hm]⟩)
      show runEvents (esp_ot_handle_interrupt s line now) es = s
      rw [hstep]
      exact ih s hs hm
    | tick now =>
      show runEvents (process s now) es = s
      rw [process_ready_eq s now hs]
      exact ih s hs hm

/-- Before the timeout a call of `process` changes nothing while a reply is
awaited or being received. -/
theorem process_awaiting_eq (s : OtState) (now : Nat)
    (hs : s.esp_ot_status = OT_RESPONSE_WAITING ∨ s.esp_ot_status = OT_RESPONSE_START_BIT
      ∨ s.esp_ot_status = OT_RESPONSE_RECEIVING)
    (ht : ¬ sub32 (now % 2 ^ 32) s.esp_ot_response_timestamp > 1000000) :
    process s now = s := by
  have ht2 : ¬ sub32 (now % 4294967296) s.esp_ot_response_timestamp > 1000000 := by
    simpa using ht
  unfold process
  rcases hs with hs | hs | hs
  all_goals
    simp only [hs, Nat.reducePow, ht2]
    simp

theorem process_response_stamp (s : OtState) :
    (esp_ot_process_response s).esp_ot_response_timestamp = s.esp_ot_response_timestamp
      ∧ (esp_ot_process_response s).esp_ot_is_slave = s.esp_ot_is_slave := by
  unfold esp_ot_process_response
  split_ifs <;> exact ⟨rfl, rfl⟩

/-- One stage of a reception lasts at most `1000000 + P` microseconds. -/
theorem stage_budget (k stamp lastTick now P bound : Nat) (hk : 1 ≤ k)
    (hb : stamp + k * (1000000 + P) ≤ bound) (hl : lastTick ≤ stamp + 1000000)
    (h2 : now ≤ lastTick + P) :
    now + (k - 1) * (1000000 + P) ≤ bound := by
  obtain ⟨j, rfl⟩ : ∃ j, k = j + 1 := ⟨k - 1, by omega⟩
  rw [Nat.succ_mul] at hb
  rw [Nat.add_sub_cancel]
  generalize j * (1000000 + P) = X at hb ⊢
  omega

theorem stage_budget_pos (k stamp P bound : Nat) (hk : 1 ≤ k)
    (hb : stamp + k * (1000000 + P) ≤ bound) :
    stamp + 1000000 + P ≤ bound := by
  obtain ⟨j, rfl⟩ : ∃ j, k = j + 1 := ⟨k - 1, by omega⟩
  rw [Nat.succ_mul] at hb
  generalize j * (1000000 + P) = X at hb
  omega

/-- An input edge keeps the invariant; the timestamp moves to the edge time
exactly when the handler acts on the edge, and then one stage is used up. -/
theorem busyInv_edge (P bound : Nat) (slave : Bool) (s : OtState)
    (k stamp lastTick prev line now : Nat)
    (h : busyInv P bound slave s k stamp lastTick prev) (h1 : prev ≤ now)
    (h2 : now ≤ lastTick + P) :
    ∃ k2, busyInv P bound slave (esp_ot_handle_interrupt s line now) k2
      (if esp_ot_handle_interrupt s line now ≠ s then now else stamp) lastTick now := by
  obtain ⟨hsl, hts, hsp, hlp, hb, hc⟩ := h
  have hkeep : ∀ hst : esp_ot_handle_interrupt s line now = s,
      busyInv P bound slave (esp_ot_handle_interrupt s line now) k
        (if esp_ot_handle_interrupt s line now ≠ s then now else stamp) lastTick now := by
    intro hst
    rw [if_neg (not_not.mpr hst), hst]
    exact ⟨hsl, hts, by omega, by omega, hb, hc⟩
  have hmove : ∀ s2 : OtState, esp_ot_handle_interrupt s line now = s2 →
      s2.esp_ot_status ≠ s.esp_ot_status ∨ s2.esp_ot_response_bit_index
        ≠ s.esp_ot_response_bit_index →
      (if esp_ot_handle_interrupt s line now ≠ s then now else stamp) = now := by
    intro s2 he hne
    rw [if_pos]
    intro heq
    rw [he] at heq
    rcases hne with hne | hne
    · exact hne (by rw [heq])
    · exact hne (by rw [heq])
  rcases hc with ⟨hst, hk, hl⟩ | ⟨hst, hk, hl⟩ | ⟨hst, hidx, hk, hl⟩ | ⟨hst, hl⟩ | ⟨hst, hl⟩
  · -- OT_RESPONSE_WAITING
    have hbud := stage_budget k stamp lastTick now P bound (by omega) hb hl h2
    have he := handle_waiting s line now hst
    by_cases hline : line = 1
    · rw [if_pos hline] at he
      rw [hmove _ he (Or.inl (by simp only [hst]; decide)), he]
      exact ⟨k - 1, hsl, rfl, le_refl _, by omega, hbud,
        Or.inr (Or.inl ⟨rfl, by omega, by omega⟩)⟩
    · rw [if_neg hline] at he
      rw [hmove _ he (Or.inl (by simp only [hst]; decide)), he]
      exact ⟨k - 1, hsl, rfl, le_refl _, by omega, hbud,
        Or.inr (Or.inr (Or.inr (Or.inl ⟨Or.inr rfl, by omega⟩)))⟩
  · -- OT_RESPONSE_START_BIT
    have hbud := stage_budget k stamp lastTick now P bound (by omega) hb hl h2
    have he := handle_start_bit s line now hst
    by_cases hcond : sub32 (now % 2 ^ 32) s.esp_ot_response_timestamp < 750 ∧ line = 0
    · rw [if_pos hcond] at he
      rw [hmove _ he (Or.inl (by simp only [hst]; decide)), he]
      exact ⟨k - 1, hsl, rfl, le_refl _, by omega, hbud,
        Or.inr (Or.inr (Or.inl ⟨rfl, by simp only; omega, by simp only; omega, by omega⟩))⟩
    · rw [if_neg hcond] at he
      rw [hmove _ he (Or.inl (by simp only [hst]; decide)), he]
      exact ⟨k - 1, hsl, rfl, le_refl _, by omega, hbud,
        Or.inr (Or.inr (Or.inr (Or.inl ⟨Or.inr rfl, by omega⟩)))⟩
  · -- OT_RESPONSE_RECEIVING
    have hbud := stage_budget k stamp lastTick now P bound (by omega) hb hl h2
    have he := handle_receiving s line now hst
    by_cases hgt : sub32 (now % 2 ^ 32) s.esp_ot_response_timestamp > 750
    · rw [if_pos hgt] at he
      by_cases hi : s.esp_ot_response_bit_index < 32
      · rw [if_pos hi] at he
        have hmod : (s.esp_ot_response_bit_index + 1) % 256 = s.esp_ot_response_bit_index + 1 := by
          omega
        rw [hmove _ he (Or.inr (by simp only [hmod]; omega)), he]
        exact ⟨k - 1, hsl, rfl, le_refl _, by omega, hbud,
          Or.inr (Or.inr (Or.inl ⟨hst, by simp only [hmod]; omega, by simp only [hmod]; omega,
            by omega⟩))⟩
      · rw [if_neg hi] at he
        rw [hmove _ he (Or.inl (by simp only [hst]; decide)), he]
        exact ⟨k - 1, hsl, rfl, le_refl _, by omega, hbud,
          Or.inr (Or.inr (Or.inr (Or.inl ⟨Or.inl rfl, by omega⟩)))⟩
    · rw [if_neg hgt] at he
      exact ⟨k, hkeep he⟩
  · -- OT_RESPONSE_READY, OT_RESPONSE_INVALID
    have he : esp_ot_handle_interrupt s line now = s := by
      rcases hst with hst | hst
      · exact handle_ignored s line now (Or.inr (Or.inr (Or.inr (Or.inr (Or.inl hst)))))
      · exact handle_ignored s line now (Or.inr (Or.inr (Or.inr (Or.inr (Or.inr hst)))))
    exact ⟨k, hkeep he⟩
  · -- OT_DELAY
    have he : esp_ot_handle_interrupt s line now = s :=
      handle_ignored s line now (Or.inr (Or.inr (Or.inl hst)))
    exact ⟨k, hkeep he⟩

/-- While the invariant holds, the last call of `process` came at most one
second after the last write of the timestamp, and before the bound. -/
theorem busyInv_lastTick_le (P bound : Nat) (slave : Bool) (s : OtState)
    (k stamp lastTick prev : Nat) (h : busyInv P bound slave s k stamp lastTick prev)
    (hP : P ≤ 1000000) :
    lastTick ≤ stamp + 1000000
      ∧ lastTick ≤ bound + max (if slave then 20000 else 100000) P := by
  obtain ⟨_, _, _, _, hb, hc⟩ := h
  have hG : (if slave then 20000 else 100000) ≤ 100000 := by split <;> omega
  have hle : stamp ≤ bound := le_trans (Nat.le_add_right _ _) hb
  rcases hc with ⟨_, hk, hl⟩ | ⟨_, hk, hl⟩ | ⟨_, hidx, hk, hl⟩ | ⟨_, hl⟩ | ⟨_, hl⟩
  · have := stage_budget_pos k stamp P bound (by omega) hb
    omega
  · have := stage_budget_pos k stamp P bound (by omega) hb
    omega
  · have := stage_budget_pos k stamp P bound (by omega) hb
    omega
  · omega
  · omega

/-- A call of `process` either restores `OT_READY` or keeps the invariant. -/
theorem busyInv_tick (P bound : Nat) (slave : Bool) (s : OtState)
    (k stamp lastTick prev m : Nat)
    (h : busyInv P bound slave s k stamp lastTick prev) (hP : P ≤ 1000000)
    (h1 : prev ≤ m) (h2 : m ≤ lastTick + P) :
    (process s m).esp_ot_status = OT_READY
      ∨ busyInv P bound slave (process s m) k stamp m m := by
  have hlt := (busyInv_lastTick_le P bound slave s k stamp lastTick prev h hP).1
  obtain ⟨hsl, hts, hsp, hlp, hb, hc⟩ := h
  have hsub : sub32 (m % 2 ^ 32) s.esp_ot_response_timestamp = m - stamp := by
    have he := sub32_elapsed stamp (m - stamp) (by
      have : (2 : Nat) ^ 32 = 4294967296 := by norm_num
      omega)
    have hm : stamp + (m - stamp) = m := by omega
    rw [hm] at he
    rw [hts]
    exact he
  have hG : (if slave then 20000 else 100000) ≤ 100000 := by split <;> omega
  by_cases hto : sub32 (m % 2 ^ 32) s.esp_ot_response_timestamp > 1000000
  · -- more than one second since the last write of the timestamp
    by_cases hd : s.esp_ot_status = OT_DELAY
    · left
      have hgap : sub32 (m % 2 ^ 32) s.esp_ot_response_timestamp
          > (if s.esp_ot_is_slave then 20000 else 100000) := by
        rw [hsl]
        omega
      rw [process_delay_eq s m hd, if_pos hgap]
    · left
      have hst : s.esp_ot_status ≠ OT_READY ∧ s.esp_ot_status ≠ OT_NOT_INITIALIZED
          ∧ s.esp_ot_status ≠ OT_DELAY := by
        rcases hc with ⟨hst, _⟩ | ⟨hst, _⟩ | ⟨hst, _⟩ | ⟨hst | hst, _⟩ | ⟨hst, _⟩ <;>
          first
            | exact absurd hst hd
            | (rw [hst]; decide)
      rw [process_timeout_eq s m hst hto, (process_response_fields _).2]
  · rcases hc with ⟨hst, hk, hl⟩ | ⟨hst, hk, hl⟩ | ⟨hst, hidx, hk, hl⟩ | ⟨hst, hl⟩ | ⟨hst, hl⟩
    · right
      rw [process_awaiting_eq s m (Or.inl hst) hto]
      exact ⟨hsl, hts, by omega, le_refl _, hb, Or.inl ⟨hst, hk, by omega⟩⟩
    · right
      rw [process_awaiting_eq s m (Or.inr (Or.inl hst)) hto]
      exact ⟨hsl, hts, by omega, le_refl _, hb, Or.inr (Or.inl ⟨hst, hk, by omega⟩)⟩
    · right
      rw [process_awaiting_eq s m (Or.inr (Or.inr hst)) hto]
      exact ⟨hsl, hts, by omega, le_refl _, hb,
        Or.inr (Or.inr (Or.inl ⟨hst, hidx, hk, by omega⟩))⟩
    · right
      have hp : process s m = esp_ot_process_response
          { s with esp_ot_status := OT_DELAY,
                   esp_ot_response_status := (process s m).esp_ot_response_status } := by
        rcases hst with hst | hst
        · rw [process_response_ready_eq s m hst (Nat.le_of_not_gt hto),
            (process_response_fields _).1]
        · rw [process_response_invalid_eq s m hst (Nat.le_of_not_gt hto),
            (process_response_fields _).1]
      rw [hp]
      exact ⟨(process_response_stamp _).2.trans hsl, (process_response_stamp _).1.trans hts,
        by omega, le_refl _, hb,
        Or.inr (Or.inr (Or.inr (Or.inr ⟨(process_response_fields _).2, by omega⟩)))⟩
    · by_cases hgap : sub32 (m % 2 ^ 32) s.esp_ot_response_timestamp
          > (if s.esp_ot_is_slave then 20000 else 100000)
      · left
        rw [process_delay_eq s m hst, if_pos hgap]
      · right
        rw [process_delay_eq s m hst, if_neg hgap]
        rw [hsl] at hgap
        exact ⟨hsl, hts, by omega, le_refl _, hb,
          Or.inr (Or.inr (Or.inr (Or.inr ⟨hst, by omega⟩)))⟩

/-- Under polling at least every `P` microseconds, a link that satisfies the
invariant is back in `OT_READY` at or before any call of `process` made more
than one second after the last write of the timestamp, or later than the
bound plus the post-frame delay. -/
theorem restored_of_busyInv (P bound n : Nat) (slave : Bool) (hP : P ≤ 1000000) :
    ∀ (events : List LinkEvent) (s : OtState) (k stamp lastTick prev : Nat),
      busyInv P bound slave s k stamp lastTick prev →
      wellPolled P lastTick prev (events ++ [LinkEvent.tick n]) = true →
      (lastStamp stamp s events + 1000000 < n
        ∨ bound + max (if slave then 20000 else 100000) P < n) →
      ∃ pre post, events ++ [LinkEvent.tick n] = pre ++ post
        ∧ (runEvents s pre).esp_ot_status = OT_READY := by
  intro events
  induction events with
  | nil =>
    intro s k stamp lastTick prev hinv hpoll hn
    simp only [List.nil_append, wellPolled, Bool.and_true, Bool.and_eq_true,
      decide_eq_true_eq] at hpoll
    rcases busyInv_tick P bound slave s k stamp lastTick prev n hinv hP hpoll.1 hpoll.2
      with hready | hinv2
    · exact ⟨[LinkEvent.tick n], [], rfl, hready⟩
    · have hle := busyInv_lastTick_le P bound slave _ k stamp n n hinv2 hP
      have hstamp : lastStamp stamp s [] = stamp := rfl
      rw [hstamp] at hn
      omega
  | cons e es ih =>
    intro s k stamp lastTick prev hinv hpoll hn
    cases e with
    | edge line now =>
      simp only [List.cons_append, wellPolled, Bool.and_eq_true, decide_eq_true_eq] at hpoll
      obtain ⟨k2, hinv2⟩ := busyInv_edge P bound slave s k stamp lastTick prev line now hinv
        hpoll.1.1 hpoll.1.2
      obtain ⟨pre, post, hsplit, hready⟩ := ih _ k2 _ lastTick now hinv2 hpoll.2 hn
      exact ⟨LinkEvent.edge line now :: pre, post, by rw [List.cons_append, hsplit]; rfl,
        hready⟩
    | tick m =>
      simp only [List.cons_append, wellPolled, Bool.and_eq_true, decide_eq_true_eq] at hpoll
      rcases busyInv_tick P bound slave s k stamp lastTick prev m hinv hP hpoll.1.1 hpoll.1.2
        with hready | hinv2
      · exact ⟨[LinkEvent.tick m], es ++ [LinkEvent.tick n], rfl, hready⟩
      · obtain ⟨pre, post, hsplit, hready⟩ := ih _ k stamp m m hinv2 hpoll.2 hn
        exact ⟨LinkEvent.tick m :: pre, post, by rw [List.cons_append, hsplit]; rfl,
          hready⟩

/-! ## The claims (bounded restoration of `OT_READY`) -/

/-- C20, amended: the timeout is counted from the recorded timestamp, which is
written when the link leaves `OT_READY` (clock value `T`: the end of the
emission in master role, status `OT_RESPONSE_WAITING`; the first edge in slave
role, status `OT_RESPONSE_START_BIT`) and moved to the edge time by every
input edge the handler acts on, of which there are at most 35 in one
reception.  For every sequence of input edges and calls of `process` in which
`process` is called at least every `P <= 1000000` microseconds, the status has
been `OT_READY` again at or before any call of `process` made more than
1000000 us after the last edge the handler acted on, and in any case at or
before any call made more than `35 * (1000000 + P)` us plus the larger of the
post-frame delay (100000 us master, 20000 us slave) and `P` after `T`; in
master role the status is then still `OT_READY`. -/
theorem ready_restored_within_bound (s : OtState) (T P n : Nat) (events : List LinkEvent)
    (hs : s.esp_ot_status = OT_RESPONSE_WAITING ∨ s.esp_ot_status = OT_RESPONSE_START_BIT)
    (hts : s.esp_ot_response_timestamp = T % 2 ^ 32)
    (hP : P ≤ 1000000)
    (hpoll : wellPolled P T T (events ++ [LinkEvent.tick n]) = true)
    (hn : lastStamp T s events + 1000000 < n
      ∨ T + 35 * (1000000 + P) + max (if s.esp_ot_is_slave then 20000 else 100000) P < n) :
    (∃ pre post, events ++ [LinkEvent.tick n] = pre ++ post
        ∧ (runEvents s pre).esp_ot_status = OT_READY)
      ∧ (s.esp_ot_is_slave = true
        ∨ (runEvents s (events ++ [LinkEvent.tick n])).esp_ot_status = OT_READY) := by
  have hinv : busyInv P (T + 35 * (1000000 + P)) s.esp_ot_is_slave s 35 T T T := by
    refine ⟨rfl, hts, le_refl _, le_refl _, le_refl _, ?_⟩
    rcases hs with hs | hs
    · exact Or.inl ⟨hs, le_refl _, by omega⟩
    · exact Or.inr (Or.inl ⟨hs, by omega, by omega⟩)
  obtain ⟨pre, post, hsplit, hready⟩ :=
    restored_of_busyInv P (T + 35 * (1000000 + P)) n s.esp_ot_is_slave hP events s 35 T T T
      hinv hpoll hn
  refine ⟨⟨pre, post, hsplit, hready⟩, ?_⟩
  cases hrole : s.esp_ot_is_slave with
  | true => exact Or.inl rfl
  | false =>
    right
    have hm : (runEvents s pre).esp_ot_is_slave = false := by
      rw [runEvents_is_slave, hrole]
    rw [hsplit, runEvents_append, runEvents_ready_master post _ hready hm]
    exact hready

/-- Witness of C20 (amended).  First the master of the counterexample: the
start bit at 1000000 and 1000400 moves the timestamp, `process` is polled at
least once a second, and the call at 2000401, more than one second after the
last accepted edge, finds or restores `OT_READY`.  Then a slave whose request
breaks off after the first edge at 5000, polled once a second up to the call at
71005001, which is later than `5000 + 35 * 2000000 + 1000000`. -/
theorem ready_restored_within_bound_witness :
    (((awaitingReply.esp_ot_status = OT_RESPONSE_WAITING
          ∨ awaitingReply.esp_ot_status = OT_RESPONSE_START_BIT)
        ∧ awaitingReply.esp_ot_response_timestamp = 34000 % 2 ^ 32
        ∧ 1000000 ≤ 1000000
        ∧ wellPolled 1000000 34000 34000 (lateStartEvents ++ [LinkEvent.tick 2000401]) = true
        ∧ (lastStamp 34000 awaitingReply lateStartEvents + 1000000 < 2000401
          ∨ 34000 + 35 * (1000000 + 1000000)
              + max (if awaitingReply.esp_ot_is_slave then 20000 else 100000) 1000000
            < 2000401))
      ∧ ((∃ pre post, lateStartEvents ++ [LinkEvent.tick 2000401] = pre ++ post
            ∧ (runEvents awaitingReply pre).esp_ot_status = OT_READY)
        ∧ (awaitingReply.esp_ot_is_slave = true
          ∨ (runEvents awaitingReply
              (lateStartEvents ++ [LinkEvent.tick 2000401])).esp_ot_status = OT_READY)))
    ∧ (((startedSlave.esp_ot_status = OT_RESPONSE_WAITING
          ∨ startedSlave.esp_ot_status = OT_RESPONSE_START_BIT)
        ∧ startedSlave.esp_ot_response_timestamp = 5000 % 2 ^ 32
        ∧ 1000000 ≤ 1000000
        ∧ wellPolled 1000000 5000 5000 (idlePolling ++ [LinkEvent.tick 71005001]) = true
        ∧ (lastStamp 5000 startedSlave idlePolling + 1000000 < 71005001
          ∨ 5000 + 35 * (1000000 + 1000000)
              + max (if startedSlave.esp_ot_is_slave then 20000 else 100000) 1000000
            < 71005001))
      ∧ ((∃ pre post, idlePolling ++ [LinkEvent.tick 71005001] = pre ++ post
            ∧ (runEvents startedSlave pre).esp_ot_status = OT_READY)
        ∧ (startedSlave.esp_ot_is_slave = true
          ∨ (runEvents startedSlave
              (idlePolling ++ [LinkEvent.tick 71005001])).esp_ot_status = OT_READY))) :=
  have hpollA : wellPolled 1000000 34000 34000 (lateStartEvents ++ [LinkEvent.tick 2000401])
      = true := by decide
  have hnA : lastStamp 34000 awaitingReply lateStartEvents + 1000000 < 2000401 := by decide
  have hpollB : wellPolled 1000000 5000 5000 (idlePolling ++ [LinkEvent.tick 71005001])
      = true := by
    set_option maxRecDepth 100000 in decide
  have hnB : 5000 + 35 * (1000000 + 1000000)
      + max (if startedSlave.esp_ot_is_slave then 20000 else 100000) 1000000
        < 71005001 := by decide
  ⟨⟨⟨Or.inl rfl, by decide, by decide, hpollA, Or.inl hnA⟩,
      ready_restored_within_bound awaitingReply 34000 1000000 2000401 lateStartEvents
        (Or.inl rfl) (by decide) (by decide) hpollA (Or.inl hnA)⟩,
    ⟨⟨Or.inr rfl, by decide, by decide, hpollB, Or.inr hnB⟩,
      ready_restored_within_bound startedSlave 5000 1000000 71005001 idlePolling
        (Or.inr rfl) (by decide) (by decide) hpollB (Or.inr hnB)⟩⟩

end OpenTherm
